import Mathlib

/-!
Decision attribute validator of the history service.

A shallow embedding of `service/history/decisionChecker.go` and of the helpers of
`common/util.go` it calls, followed by the properties proved about them.

Conventions of the embedding

* A Go `error` is an `Option GoError`; `none` is the `nil` error.
* A Go pointer that may be `nil` is an `Option`.
* `int32` and `int` values are `Int`; the validators only compare, copy and take minima of
  them, so no operation can overflow.
* A Go `string` is a `String`; `len` is the length in bytes of its UTF-8 encoding.
* A method that mutates `*attributes` returns the attributes as they are when the method
  returns, next to its error.
* A `float64` is not-a-number, an infinity or the exact value it holds; an arithmetic
  operation rounds the exact result to the nearest `float64`, ties to even.
-/

namespace Temporal

/-! ## Errors -/

/-- The errors the embedded code creates or passes on: the `serviceerror` kinds, the two
`context` sentinels and any other error value. -/
inductive GoError where
  | InvalidArgument (message : String)
  | NotFound (message : String)
  | NamespaceNotActive (message : String)
  | WorkflowExecutionAlreadyStarted (message : String)
  | CancellationAlreadyRequested (message : String)
  | Internal (message : String)
  | ResourceExhausted (message : String)
  | ShardOwnershipLost (message : String)
  | DeadlineExceeded (message : String)
  | Unavailable (message : String)
  | ContextCanceled
  | ContextDeadlineExceeded
  | Other (message : String)
  deriving DecidableEq, Repr

/-- The error is a `*serviceerror.InvalidArgument`. -/
def GoError.isInvalidArgument : GoError → Bool
  | .InvalidArgument _ => true
  | _ => false

/-! ## Strings -/

/-- Go `len(s)` of a string: the number of bytes. -/
def len (s : String) : Int := (s.utf8ByteSize : Int)

/-- Go `strings.HasPrefix(s, prefix)`. Both strings are UTF-8, where a string is a byte
prefix of another exactly when its characters are a prefix of the other's characters. -/
def HasPrefix (s pfx : String) : Bool := pfx.data.isPrefixOf s.data

/-- The constant `reservedTaskListPrefix`. -/
def reservedTaskListPrefix : String := "/__temporal_sys/"

/-! ## Namespace cache -/

/-- The part of `persistenceblobs.NamespaceReplicationConfig` the validator reads. -/
structure NamespaceReplicationConfig where
  ActiveClusterName : String
  Clusters : List String
  deriving DecidableEq, Repr

/-- The part of `cache.NamespaceCacheEntry` the validator reads: `GetInfo().Name`,
`IsGlobalNamespace()` and `GetReplicationConfig()`. -/
structure NamespaceCacheEntry where
  Name : String
  isGlobalNamespace : Bool
  replicationConfig : NamespaceReplicationConfig
  deriving DecidableEq, Repr

/-- Search attributes of a decision: indexed field names with their payload bytes. -/
structure SearchAttributes where
  IndexedFields : List (String × List Nat)
  deriving DecidableEq, Repr

/-- The struct `decisionAttrValidator`. `namespaceCache` is `GetNamespaceByID` of the cache
interface; `searchAttributesValidator` is `ValidateSearchAttributes` of the validator it
holds. -/
structure decisionAttrValidator where
  namespaceCache : String → Except GoError NamespaceCacheEntry
  maxIDLengthLimit : Int
  searchAttributesValidator : Option SearchAttributes → String → Option GoError

/-- The method `createCrossNamespaceCallError`. -/
def createCrossNamespaceCallError (namespaceEntry targetNamespaceEntry : NamespaceCacheEntry) :
    GoError :=
  .InvalidArgument ("cannot make cross namespace call between " ++ namespaceEntry.Name
    ++ " and " ++ targetNamespaceEntry.Name)

/-- The method `validateCrossNamespaceCall`. -/
def validateCrossNamespaceCall (v : decisionAttrValidator)
    (namespaceID targetNamespaceID : String) : Option GoError :=
  -- same name, no check needed
  if namespaceID = targetNamespaceID then none else
  match v.namespaceCache namespaceID with
  | .error err => some err
  | .ok namespaceEntry =>
  match v.namespaceCache targetNamespaceID with
  | .error err => some err
  | .ok targetNamespaceEntry =>
  -- both local namespace
  if !namespaceEntry.isGlobalNamespace && !targetNamespaceEntry.isGlobalNamespace then none else
  let namespaceClusters := namespaceEntry.replicationConfig.Clusters
  let targetNamespaceClusters := targetNamespaceEntry.replicationConfig.Clusters
  match namespaceClusters, targetNamespaceClusters with
  | [c], [t] =>
    if c = t then none
    else some (createCrossNamespaceCallError namespaceEntry targetNamespaceEntry)
  | _, _ => some (createCrossNamespaceCallError namespaceEntry targetNamespaceEntry)

/-! ## Task lists -/

/-- The message `tasklistpb.TaskList`; `Kind` is the number of the enum value. -/
structure TaskList where
  Name : String
  Kind : Nat
  deriving DecidableEq, Repr

/-- The method `validatedTaskList`. It returns the task list next to the error, as the
source does on every path. The source writes the default name into `*taskList`; every
caller that passes a non-empty default stores the returned pointer back into the attributes,
so the write is the returned value. -/
def validatedTaskList (v : decisionAttrValidator) (taskList : Option TaskList)
    (defaultVal : String) : TaskList × Option GoError :=
  let taskList : TaskList :=
    match taskList with
    | none => { Name := "", Kind := 0 }
    | some t => t
  if taskList.Name = "" then
    if defaultVal = "" then
      (taskList, some (.InvalidArgument "missing task list name"))
    else
      ({ taskList with Name := defaultVal }, none)
  else
    let name := taskList.Name
    if len name > v.maxIDLengthLimit then
      (taskList, some (.InvalidArgument
        ("task list name exceeds length limit of " ++ toString v.maxIDLengthLimit)))
    else if HasPrefix name reservedTaskListPrefix then
      (taskList, some (.InvalidArgument
        ("task list name cannot start with reserved prefix " ++ reservedTaskListPrefix)))
    else
      (taskList, none)

/-! ## Retry policy -/

/-- A Go `float64` as far as comparisons see it: not-a-number, the two infinities, or a
finite value. -/
inductive Float64 where
  | nan
  | negInf
  | finite (q : ℚ)
  | posInf
  deriving DecidableEq

/-- The comparison `x < y` of two `float64`; false as soon as one side is not a number. -/
def Float64.lt : Float64 → Float64 → Bool
  | .nan, _ => false
  | _, .nan => false
  | .negInf, .negInf => false
  | .negInf, _ => true
  | .finite _, .negInf => false
  | .finite a, .finite b => decide (a < b)
  | .finite _, .posInf => true
  | .posInf, _ => false

/-- The message `commonpb.RetryPolicy`. -/
structure RetryPolicy where
  InitialIntervalInSeconds : Int
  BackoffCoefficient : Float64
  MaximumIntervalInSeconds : Int
  MaximumAttempts : Int
  NonRetryableErrorTypes : List String
  deriving DecidableEq

/-- The function `common.ValidateRetryPolicy`. -/
def ValidateRetryPolicy (policy : Option RetryPolicy) : Option GoError :=
  match policy with
  | none =>
    -- nil policy is valid which means no retry
    none
  | some policy =>
    if policy.InitialIntervalInSeconds < 0 then
      some (.InvalidArgument "InitialIntervalInSeconds cannot be negative on retry policy.")
    else if policy.BackoffCoefficient.lt (.finite 1) then
      some (.InvalidArgument "BackoffCoefficient cannot be less than 1 on retry policy.")
    else if policy.MaximumIntervalInSeconds < 0 then
      some (.InvalidArgument "MaximumIntervalInSeconds cannot be negative on retry policy.")
    else if policy.MaximumIntervalInSeconds > 0
        ∧ policy.MaximumIntervalInSeconds < policy.InitialIntervalInSeconds then
      some (.InvalidArgument
        "MaximumIntervalInSeconds cannot be less than InitialIntervalInSeconds on retry policy.")
    else if policy.MaximumAttempts < 0 then
      some (.InvalidArgument "MaximumAttempts cannot be negative on retry policy.")
    else
      none

/-- The function `common.MinInt32`. -/
def MinInt32 (a b : Int) : Int := if a < b then a else b

/-! ## Schedule-activity decisions -/

/-- The message `commonpb.ActivityType`. -/
structure ActivityType where
  Name : String
  deriving DecidableEq, Repr

/-- The message `decisionpb.ScheduleActivityTaskDecisionAttributes`, without the opaque
payload fields (input and header), which the validator never reads. -/
structure ScheduleActivityTaskDecisionAttributes where
  ActivityId : String
  ActivityType : Option ActivityType
  Namespace : String
  TaskList : Option TaskList
  ScheduleToCloseTimeoutSeconds : Int
  ScheduleToStartTimeoutSeconds : Int
  StartToCloseTimeoutSeconds : Int
  HeartbeatTimeoutSeconds : Int
  RetryPolicy : Option RetryPolicy
  deriving DecidableEq

/-- The getter chain `attributes.GetActivityType().GetName()`: the empty string when the
activity type is nil. -/
def ScheduleActivityTaskDecisionAttributes.activityTypeName
    (attributes : ScheduleActivityTaskDecisionAttributes) : String :=
  match attributes.ActivityType with
  | none => ""
  | some t => t.Name

/-- Lines 249 to 275 of `validateActivityScheduleAttributes`: deduce the timeouts that were
not given. The result is `none` where the source returns the error "A valid StartToClose or
ScheduleToCloseTimeout is not set on decision."; nothing has been written at that point. -/
def deduceActivityTimeouts (attributes : ScheduleActivityTaskDecisionAttributes)
    (runTimeout : Int) : Option ScheduleActivityTaskDecisionAttributes :=
  let validScheduleToClose : Bool := attributes.ScheduleToCloseTimeoutSeconds > 0
  let validScheduleToStart : Bool := attributes.ScheduleToStartTimeoutSeconds > 0
  let validStartToClose : Bool := attributes.StartToCloseTimeoutSeconds > 0
  if validScheduleToClose then
    let attributes :=
      if validScheduleToStart then
        { attributes with
          ScheduleToStartTimeoutSeconds :=
            MinInt32 attributes.ScheduleToStartTimeoutSeconds
              attributes.ScheduleToCloseTimeoutSeconds }
      else
        { attributes with
          ScheduleToStartTimeoutSeconds := attributes.ScheduleToCloseTimeoutSeconds }
    let attributes :=
      if validStartToClose then
        { attributes with
          StartToCloseTimeoutSeconds :=
            MinInt32 attributes.StartToCloseTimeoutSeconds
              attributes.ScheduleToCloseTimeoutSeconds }
      else
        { attributes with
          StartToCloseTimeoutSeconds := attributes.ScheduleToCloseTimeoutSeconds }
    some attributes
  else if validStartToClose then
    -- We are in !validScheduleToClose due to the first if above
    let attributes := { attributes with ScheduleToCloseTimeoutSeconds := runTimeout }
    let attributes :=
      if !validScheduleToStart then
        { attributes with ScheduleToStartTimeoutSeconds := runTimeout }
      else attributes
    some attributes
  else
    -- Deduction failed as there's not enough information to fill in missing timeouts.
    none

/-- Lines 276 to 293 of `validateActivityScheduleAttributes`: ensure activity timeout never
larger than workflow timeout, then cap the heartbeat at schedule-to-close. -/
def capActivityTimeouts (attributes : ScheduleActivityTaskDecisionAttributes)
    (runTimeout : Int) : ScheduleActivityTaskDecisionAttributes :=
  let attributes :=
    if runTimeout > 0 then
      let attributes :=
        if attributes.ScheduleToCloseTimeoutSeconds > runTimeout then
          { attributes with ScheduleToCloseTimeoutSeconds := runTimeout }
        else attributes
      let attributes :=
        if attributes.ScheduleToStartTimeoutSeconds > runTimeout then
          { attributes with ScheduleToStartTimeoutSeconds := runTimeout }
        else attributes
      let attributes :=
        if attributes.StartToCloseTimeoutSeconds > runTimeout then
          { attributes with StartToCloseTimeoutSeconds := runTimeout }
        else attributes
      if attributes.HeartbeatTimeoutSeconds > runTimeout then
        { attributes with HeartbeatTimeoutSeconds := runTimeout }
      else attributes
    else attributes
  if attributes.HeartbeatTimeoutSeconds > attributes.ScheduleToCloseTimeoutSeconds then
    { attributes with HeartbeatTimeoutSeconds := attributes.ScheduleToCloseTimeoutSeconds }
  else attributes

/-- The method `validateActivityScheduleAttributes`. The result is the returned error and
the attributes behind the pointer when the method returns. -/
def validateActivityScheduleAttributes (v : decisionAttrValidator)
    (namespaceID targetNamespaceID : String)
    (attributes : Option ScheduleActivityTaskDecisionAttributes) (runTimeout : Int) :
    Option GoError × Option ScheduleActivityTaskDecisionAttributes :=
  match validateCrossNamespaceCall v namespaceID targetNamespaceID with
  | some err => (some err, attributes)
  | none =>
  match attributes with
  | none =>
    (some (.InvalidArgument "ScheduleActivityTaskDecisionAttributes is not set on decision."),
      none)
  | some attributes =>
  let defaultTaskListName := ""
  match (validatedTaskList v attributes.TaskList defaultTaskListName).2 with
  | some err => (some err, some attributes)
  | none =>
  if attributes.ActivityId = "" then
    (some (.InvalidArgument "ActivityId is not set on decision."), some attributes)
  else if attributes.ActivityType = none ∨ attributes.activityTypeName = "" then
    (some (.InvalidArgument "ActivityType is not set on decision."), some attributes)
  else
  match ValidateRetryPolicy attributes.RetryPolicy with
  | some err => (some err, some attributes)
  | none =>
  if len attributes.ActivityId > v.maxIDLengthLimit then
    (some (.InvalidArgument "ActivityID exceeds length limit."), some attributes)
  else if len attributes.activityTypeName > v.maxIDLengthLimit then
    (some (.InvalidArgument "ActivityType exceeds length limit."), some attributes)
  else if len attributes.Namespace > v.maxIDLengthLimit then
    (some (.InvalidArgument "Namespace exceeds length limit."), some attributes)
  -- Only attempt to deduce and fill in unspecified timeouts only when all timeouts are
  -- non-negative.
  else if attributes.ScheduleToCloseTimeoutSeconds < 0
      ∨ attributes.ScheduleToStartTimeoutSeconds < 0
      ∨ attributes.StartToCloseTimeoutSeconds < 0
      ∨ attributes.HeartbeatTimeoutSeconds < 0 then
    (some (.InvalidArgument "A valid timeout may not be negative."), some attributes)
  else
  match deduceActivityTimeouts attributes runTimeout with
  | none =>
    (some (.InvalidArgument
      "A valid StartToClose or ScheduleToCloseTimeout is not set on decision."),
      some attributes)
  | some attributes => (none, some (capActivityTimeouts attributes runTimeout))

/-! ## Start-child-workflow decisions -/

/-- The message `commonpb.WorkflowType`. -/
structure WorkflowType where
  Name : String
  deriving DecidableEq, Repr

/-- The fields of `persistence.WorkflowExecutionInfo` the validators read. The expiration
time is in nanoseconds, 0 standing for the zero time. -/
structure WorkflowExecutionInfo where
  NamespaceID : String
  WorkflowTypeName : String
  TaskList : String
  WorkflowExecutionTimeout : Int
  WorkflowRunTimeout : Int
  WorkflowTaskTimeout : Int
  WorkflowExpirationTime : Int
  deriving DecidableEq, Repr

/-- The message `decisionpb.StartChildWorkflowExecutionDecisionAttributes`, without the
opaque payload fields and the enum fields the validator never reads. -/
structure StartChildWorkflowExecutionDecisionAttributes where
  Namespace : String
  WorkflowId : String
  WorkflowType : Option WorkflowType
  TaskList : Option TaskList
  WorkflowExecutionTimeoutSeconds : Int
  WorkflowRunTimeoutSeconds : Int
  WorkflowTaskTimeoutSeconds : Int
  RetryPolicy : Option RetryPolicy
  CronSchedule : String
  deriving DecidableEq

/-- The getter chain `attributes.WorkflowType.GetName()`: the empty string for nil. -/
def StartChildWorkflowExecutionDecisionAttributes.workflowTypeName
    (attributes : StartChildWorkflowExecutionDecisionAttributes) : String :=
  match attributes.WorkflowType with
  | none => ""
  | some t => t.Name

/-- Lines 597 to 612 of `validateStartChildExecutionAttributes`: store the validated task
list, then inherit from the parent each timeout that is not positive. -/
def inheritFromParent (attributes : StartChildWorkflowExecutionDecisionAttributes)
    (taskList : TaskList) (parentInfo : WorkflowExecutionInfo) :
    StartChildWorkflowExecutionDecisionAttributes :=
  let attributes := { attributes with TaskList := some taskList }
  -- Inherit workflow timeout from parent workflow execution if not provided on decision
  let attributes :=
    if attributes.WorkflowExecutionTimeoutSeconds ≤ 0 then
      { attributes with WorkflowExecutionTimeoutSeconds := parentInfo.WorkflowExecutionTimeout }
    else attributes
  -- Inherit workflow timeout from parent workflow execution if not provided on decision
  let attributes :=
    if attributes.WorkflowRunTimeoutSeconds ≤ 0 then
      { attributes with WorkflowRunTimeoutSeconds := parentInfo.WorkflowRunTimeout }
    else attributes
  -- Inherit decision task timeout from parent workflow execution if not provided on decision
  let attributes :=
    if attributes.WorkflowTaskTimeoutSeconds ≤ 0 then
      { attributes with WorkflowTaskTimeoutSeconds := parentInfo.WorkflowTaskTimeout }
    else attributes
  attributes

/-- The method `validateStartChildExecutionAttributes`. `ValidateSchedule` is
`backoff.ValidateSchedule`, the cron syntax check, taken as a parameter. The result is the
returned error and the attributes behind the pointer when the method returns. -/
def validateStartChildExecutionAttributes (ValidateSchedule : String → Option GoError)
    (v : decisionAttrValidator) (namespaceID targetNamespaceID : String)
    (attributes : Option StartChildWorkflowExecutionDecisionAttributes)
    (parentInfo : WorkflowExecutionInfo) :
    Option GoError × Option StartChildWorkflowExecutionDecisionAttributes :=
  match validateCrossNamespaceCall v namespaceID targetNamespaceID with
  | some err => (some err, attributes)
  | none =>
  match attributes with
  | none =>
    (some (.InvalidArgument
      "StartChildWorkflowExecutionDecisionAttributes is not set on decision."), none)
  | some attributes =>
  if attributes.WorkflowId = "" then
    (some (.InvalidArgument "Required field WorkflowId is not set on decision."),
      some attributes)
  else if attributes.WorkflowType = none ∨ attributes.workflowTypeName = "" then
    (some (.InvalidArgument "Required field WorkflowType is not set on decision."),
      some attributes)
  else if len attributes.Namespace > v.maxIDLengthLimit then
    (some (.InvalidArgument "Namespace exceeds length limit."), some attributes)
  else if len attributes.WorkflowId > v.maxIDLengthLimit then
    (some (.InvalidArgument "WorkflowId exceeds length limit."), some attributes)
  else if len attributes.workflowTypeName > v.maxIDLengthLimit then
    (some (.InvalidArgument "WorkflowType exceeds length limit."), some attributes)
  else
  match ValidateRetryPolicy attributes.RetryPolicy with
  | some err => (some err, some attributes)
  | none =>
  match ValidateSchedule attributes.CronSchedule with
  | some err => (some err, some attributes)
  | none =>
  -- Inherit tasklist from parent workflow execution if not provided on decision
  match validatedTaskList v attributes.TaskList parentInfo.TaskList with
  | (_, some err) => (some err, some attributes)
  | (taskList, none) => (none, some (inheritFromParent attributes taskList parentInfo))

/-! ## Timer decisions -/

/-- The message `decisionpb.StartTimerDecisionAttributes`. -/
structure StartTimerDecisionAttributes where
  TimerId : String
  StartToFireTimeoutSeconds : Int
  deriving DecidableEq, Repr

/-- The method `validateTimerScheduleAttributes`. -/
def validateTimerScheduleAttributes (v : decisionAttrValidator)
    (attributes : Option StartTimerDecisionAttributes) : Option GoError :=
  match attributes with
  | none => some (.InvalidArgument "StartTimerDecisionAttributes is not set on decision.")
  | some attributes =>
    if attributes.TimerId = "" then
      some (.InvalidArgument "TimerId is not set on decision.")
    else if len attributes.TimerId > v.maxIDLengthLimit then
      some (.InvalidArgument "TimerId exceeds length limit.")
    else if attributes.StartToFireTimeoutSeconds ≤ 0 then
      some (.InvalidArgument "A valid StartToFireTimeoutSeconds is not set on decision.")
    else
      none

/-! ## Durations as float64 -/

/-- The number of binary digits of `n`, for `n` at most the fuel: 0 for 0, and otherwise the
`b` with `2 ^ (b - 1) ≤ n < 2 ^ b`. -/
def bitLength : Nat → Nat → Nat
  | 0, _ => 0
  | fuel + 1, n => if n = 0 then 0 else bitLength fuel (n / 2) + 1

/-- Whether `2 ^ e ≤ n / d`, for a positive `d`. -/
def powTwoLe (e : Int) (n d : Nat) : Bool :=
  if 0 ≤ e then decide (d * 2 ^ e.toNat ≤ n) else decide (d ≤ n * 2 ^ (-e).toNat)

/-- The binary exponent of the positive fraction `n / d`: the `e` with
`2 ^ e ≤ n / d < 2 ^ (e + 1)`. The difference of the digit counts is `e` or `e + 1`. -/
def binaryExponent (n d : Nat) : Int :=
  let e : Int := (bitLength n n : Int) - (bitLength d d : Int)
  if powTwoLe e n d then e else e - 1

/-- The integer nearest to `a / b`, for a positive `b`; a tie goes to the even one. -/
def roundHalfEven (a b : Nat) : Nat :=
  let k := a / b
  let r := a % b
  if 2 * r < b then k
  else if b < 2 * r then k + 1
  else if k % 2 = 0 then k else k + 1

/-- The `float64` nearest to the positive fraction `n / d`, ties to even, or `none` when the
fraction rounds beyond the largest finite `float64`. The significand has 53 binary digits;
below `2 ^ (-1022)` the spacing stays that of the subnormal numbers. -/
def roundPositive (n d : Nat) : Option ℚ :=
  let e := max (binaryExponent n d) (-1022)
  if e ≤ 52 then
    let k := roundHalfEven (n * 2 ^ (52 - e).toNat) d
    some ((k : ℚ) / 2 ^ (52 - e).toNat)
  else
    let k := roundHalfEven n (d * 2 ^ (e - 52).toNat)
    if 1024 ≤ e ∨ (e = 1023 ∧ k = 2 ^ 53) then none
    else some ((k : ℚ) * 2 ^ (e - 52).toNat)

/-- The conversion of an exact value to `float64`: round to nearest, ties to even, with
overflow to the infinities. The model has a single zero. -/
def roundFloat64 (q : ℚ) : Float64 :=
  if q = 0 then .finite 0
  else if 0 < q then
    match roundPositive q.num.natAbs q.den with
    | some r => .finite r
    | none => .posInf
  else
    match roundPositive q.num.natAbs q.den with
    | some r => .finite (-r)
    | none => .negInf

/-- The sum `x + y` of two `float64`. -/
def Float64.add : Float64 → Float64 → Float64
  | .finite a, .finite b => roundFloat64 (a + b)
  | .nan, _ => .nan
  | _, .nan => .nan
  | .posInf, .negInf => .nan
  | .negInf, .posInf => .nan
  | .posInf, _ => .posInf
  | _, .posInf => .posInf
  | .negInf, _ => .negInf
  | _, .negInf => .negInf

/-- The quotient `x / y` of two `float64`. The model has a single zero, taken as positive: a
quotient by zero has the sign of the dividend. -/
def Float64.div : Float64 → Float64 → Float64
  | .finite a, .finite b =>
    if b = 0 then (if a = 0 then .nan else if 0 < a then .posInf else .negInf)
    else roundFloat64 (a / b)
  | .nan, _ => .nan
  | _, .nan => .nan
  | .finite _, _ => .finite 0
  | .posInf, .finite b => if 0 ≤ b then .posInf else .negInf
  | .negInf, .finite b => if 0 ≤ b then .negInf else .posInf
  | _, _ => .nan

/-- The method `Sub` of `time.Time` in the standard library: the duration `t - u` in
nanoseconds, or the largest or the smallest duration when the difference is beyond an
`int64`. -/
def Sub (t u : Int) : Int :=
  if t - u < -9223372036854775808 then -9223372036854775808
  else if 9223372036854775807 < t - u then 9223372036854775807
  else t - u

/-- The method `Seconds` of `time.Duration` in the standard library: with `sec := d / Second`
and `nsec := d % Second`, which truncate towards zero, the value
`float64(sec) + float64(nsec)/1e9`. -/
def Seconds (d : Int) : Float64 :=
  let sec := Int.tdiv d 1000000000
  let nsec := Int.tmod d 1000000000
  Float64.add (roundFloat64 sec) (Float64.div (roundFloat64 nsec) (.finite 1000000000))

/-! ## Continue-as-new decisions -/

/-- The getter `GetName()` of a task list pointer: the empty string for nil. -/
def TaskList.GetName (taskList : Option TaskList) : String :=
  match taskList with
  | none => ""
  | some t => t.Name

/-- The message `decisionpb.ContinueAsNewWorkflowExecutionDecisionAttributes`, without the
opaque payload fields and the fields the validator never reads. -/
structure ContinueAsNewWorkflowExecutionDecisionAttributes where
  WorkflowType : Option WorkflowType
  TaskList : Option TaskList
  WorkflowRunTimeoutSeconds : Int
  WorkflowTaskTimeoutSeconds : Int
  BackoffStartIntervalInSeconds : Int
  SearchAttributes : Option SearchAttributes
  deriving DecidableEq

/-- The getter chain `attributes.WorkflowType.GetName()`: the empty string for nil. -/
def ContinueAsNewWorkflowExecutionDecisionAttributes.workflowTypeName
    (attributes : ContinueAsNewWorkflowExecutionDecisionAttributes) : String :=
  match attributes.WorkflowType with
  | none => ""
  | some t => t.Name

/-- Modelled from the spec: `convert.Int32Ceil` of package `common/convert`, which is not among
the sources: `int32(math.Ceil(v))`. The ceiling of a `float64` is exact. Go leaves the
conversion of a value that an `int32` cannot represent to the implementation;
`int32OutOfRange` is what the implementation makes of such a value. -/
def Int32Ceil (int32OutOfRange : Float64 → Int) (v : Float64) : Int :=
  match v with
  | .finite q =>
    if -2147483648 ≤ ⌈q⌉ ∧ ⌈q⌉ ≤ 2147483647 then ⌈q⌉ else int32OutOfRange v
  | _ => int32OutOfRange v

/-- Lines 497 to 500 of `validateContinueAsNewWorkflowExecutionAttributes`: inherit workflow
type from previous execution if not provided on decision. -/
def inheritWorkflowType (attributes : ContinueAsNewWorkflowExecutionDecisionAttributes)
    (executionInfo : WorkflowExecutionInfo) : ContinueAsNewWorkflowExecutionDecisionAttributes :=
  if attributes.WorkflowType = none ∨ attributes.workflowTypeName = "" then
    { attributes with WorkflowType := some { Name := executionInfo.WorkflowTypeName } }
  else attributes

/-- Lines 513 to 527 of `validateContinueAsNewWorkflowExecutionAttributes`: reduce the run
timeout if it is going to exceed `WorkflowExpirationTime`. Times are in nanoseconds since the
zero time, so that `IsZero` is the comparison with 0; `now` is `time.Now()`, and
`int32OutOfRange` is what the implementation makes of a `float64` beyond an `int32`. -/
def reduceRunTimeout (int32OutOfRange : Float64 → Int) (now : Int)
    (attributes : ContinueAsNewWorkflowExecutionDecisionAttributes)
    (executionInfo : WorkflowExecutionInfo) : ContinueAsNewWorkflowExecutionDecisionAttributes :=
  let timeoutTime := executionInfo.WorkflowExpirationTime
  if timeoutTime ≠ 0 then
    let runTimeout := Int32Ceil int32OutOfRange (Seconds (Sub timeoutTime now))
    let runTimeout :=
      if attributes.WorkflowRunTimeoutSeconds > 0 then
        MinInt32 runTimeout attributes.WorkflowRunTimeoutSeconds
      else
        MinInt32 runTimeout executionInfo.WorkflowRunTimeout
    { attributes with WorkflowRunTimeoutSeconds := runTimeout }
  else if attributes.WorkflowRunTimeoutSeconds = 0 then
    { attributes with WorkflowRunTimeoutSeconds := executionInfo.WorkflowRunTimeout }
  else attributes

/-- Lines 529 to 532 of `validateContinueAsNewWorkflowExecutionAttributes`: inherit decision
task timeout from previous execution if not provided on decision. -/
def inheritTaskTimeout (attributes : ContinueAsNewWorkflowExecutionDecisionAttributes)
    (executionInfo : WorkflowExecutionInfo) : ContinueAsNewWorkflowExecutionDecisionAttributes :=
  if attributes.WorkflowTaskTimeoutSeconds ≤ 0 then
    { attributes with WorkflowTaskTimeoutSeconds := executionInfo.WorkflowTaskTimeout }
  else attributes

/-- The method `validateContinueAsNewWorkflowExecutionAttributes`, with `time.Now()` as the
argument `now` and the conversion of a `float64` beyond an `int32`, which Go leaves to the
implementation, as the argument `int32OutOfRange`. The result is the returned error and the
attributes behind the pointer when the method returns; the fields inherited before a failing
check stay written. -/
def validateContinueAsNewWorkflowExecutionAttributes (int32OutOfRange : Float64 → Int)
    (now : Int) (v : decisionAttrValidator)
    (attributes : Option ContinueAsNewWorkflowExecutionDecisionAttributes)
    (executionInfo : WorkflowExecutionInfo) :
    Option GoError × Option ContinueAsNewWorkflowExecutionDecisionAttributes :=
  match attributes with
  | none =>
    (some (.InvalidArgument
      "ContinueAsNewWorkflowExecutionDecisionAttributes is not set on decision."), none)
  | some attributes =>
  -- Inherit workflow type from previous execution if not provided on decision
  let attributes := inheritWorkflowType attributes executionInfo
  if len attributes.workflowTypeName > v.maxIDLengthLimit then
    (some (.InvalidArgument "WorkflowType exceeds length limit."), some attributes)
  else
  -- Inherit Tasklist from previous execution if not provided on decision
  match validatedTaskList v attributes.TaskList executionInfo.TaskList with
  | (_, some err) => (some err, some attributes)
  | (taskList, none) =>
  let attributes := { attributes with TaskList := some taskList }
  let attributes := reduceRunTimeout int32OutOfRange now attributes executionInfo
  let attributes := inheritTaskTimeout attributes executionInfo
  -- Check next run decision task delay
  if attributes.BackoffStartIntervalInSeconds < 0 then
    (some (.InvalidArgument "BackoffStartInterval is less than 0."), some attributes)
  else
  match v.namespaceCache executionInfo.NamespaceID with
  | .error err => (some err, some attributes)
  | .ok namespaceEntry =>
    (v.searchAttributesValidator attributes.SearchAttributes namespaceEntry.Name,
      some attributes)

/-! ## Workflow size checker -/

/-- The constant `common.FailureReasonSizeExceedsLimit`. -/
def FailureReasonSizeExceedsLimit : String := "Workflow history size / count exceeds limit."

/-- The variable `common.ErrBlobSizeExceedsLimit`. -/
def ErrBlobSizeExceedsLimit : GoError := .InvalidArgument "Blob data size exceeds limit."

/-- The function `common.CheckEventBlobSizeLimit`. The identifiers, the metrics scope and the
logger only feed the recorded timer and the warning log line, which are not modelled. -/
def CheckEventBlobSizeLimit (actualSize warnLimit errorLimit : Int) : Option GoError :=
  if actualSize > warnLimit then
    if actualSize > errorLimit then
      some ErrBlobSizeExceedsLimit
    else none
  else none

/-- The enum `enumspb.RetryStatus`. -/
inductive RetryStatus where
  | RETRY_STATUS_UNSPECIFIED
  | RETRY_STATUS_IN_PROGRESS
  | RETRY_STATUS_NON_RETRYABLE_FAILURE
  | RETRY_STATUS_TIMEOUT
  | RETRY_STATUS_MAXIMUM_ATTEMPTS_REACHED
  | RETRY_STATUS_RETRY_POLICY_NOT_SET
  | RETRY_STATUS_INTERNAL_SERVER_ERROR
  | RETRY_STATUS_CANCEL_REQUESTED
  deriving DecidableEq, Repr

/-- The message `failurepb.Failure` as far as a server failure fills it: the message and the
`NonRetryable` flag of its `ServerFailureInfo`. -/
structure Failure where
  Message : String
  NonRetryable : Bool
  deriving DecidableEq, Repr

/-- Modelled from the spec: `failure.NewServerFailure(message, nonRetryable)` of package
`common/failure`, which is not among the sources: the server failure carrying the message,
marked non-retryable exactly when the second argument is true. -/
def NewServerFailure (message : String) (nonRetryable : Bool) : Failure :=
  { Message := message, NonRetryable := nonRetryable }

/-- The message `decisionpb.FailWorkflowExecutionDecisionAttributes`. -/
structure FailWorkflowExecutionDecisionAttributes where
  Failure : Option Failure
  deriving DecidableEq, Repr

/-- A `WorkflowExecutionFailed` history event: its id and the attributes it carries. -/
structure HistoryEvent where
  EventId : Int
  DecisionTaskCompletedEventId : Int
  RetryStatus : RetryStatus
  Failure : Option Failure
  deriving DecidableEq, Repr

/-- The part of the interface `mutableState` the size checker calls, as a method table over
the state `σ` behind the interface. `AddFailWorkflowEvent` returns the event or an error,
next to the state it leaves. -/
structure mutableState (σ : Type) where
  GetNextEventID : σ → Int
  GetExecutionInfo : σ → WorkflowExecutionInfo
  AddFailWorkflowEvent : σ → Int → RetryStatus → FailWorkflowExecutionDecisionAttributes →
    Except GoError HistoryEvent × σ

/-- The struct `persistence.ExecutionStats`. -/
structure ExecutionStats where
  HistorySize : Int
  deriving DecidableEq, Repr

/-- The struct `workflowSizeChecker`, without the metrics scope and the logger. The state
behind `mutableState` is passed to the methods and returned by them. -/
structure workflowSizeChecker (σ : Type) where
  blobSizeLimitWarn : Int
  blobSizeLimitError : Int
  historySizeLimitWarn : Int
  historySizeLimitError : Int
  historyCountLimitWarn : Int
  historyCountLimitError : Int
  completedID : Int
  mutableState : mutableState σ
  executionStats : ExecutionStats

/-- The method `failWorkflowIfPayloadSizeExceedsLimit`: the returned pair and the mutable
state it leaves. The metrics tag only feeds the metrics and the log. -/
def failWorkflowIfPayloadSizeExceedsLimit {σ : Type} (c : workflowSizeChecker σ) (s : σ)
    (payloadSize : Int) (message : String) : (Bool × Option GoError) × σ :=
  match CheckEventBlobSizeLimit payloadSize c.blobSizeLimitWarn c.blobSizeLimitError with
  | none => ((false, none), s)
  | some _ =>
    let attributes : FailWorkflowExecutionDecisionAttributes :=
      { Failure := some (NewServerFailure message true) }
    match c.mutableState.AddFailWorkflowEvent s c.completedID
        .RETRY_STATUS_NON_RETRYABLE_FAILURE attributes with
    | (.error err, s) => ((false, some err), s)
    | (.ok _, s) => ((true, none), s)

/-- The method `failWorkflowSizeExceedsLimit`: the returned pair and the mutable state it
leaves. The two log lines are not modelled, which leaves the warn branch without effect. -/
def failWorkflowSizeExceedsLimit {σ : Type} (c : workflowSizeChecker σ) (s : σ) :
    (Bool × Option GoError) × σ :=
  let historyCount := c.mutableState.GetNextEventID s - 1
  let historySize := c.executionStats.HistorySize
  if historySize > c.historySizeLimitError ∨ historyCount > c.historyCountLimitError then
    let attributes : FailWorkflowExecutionDecisionAttributes :=
      { Failure := some (NewServerFailure FailureReasonSizeExceedsLimit false) }
    match c.mutableState.AddFailWorkflowEvent s c.completedID
        .RETRY_STATUS_NON_RETRYABLE_FAILURE attributes with
    | (.error err, s) => ((false, some err), s)
    | (.ok _, s) => ((true, none), s)
  else if historySize > c.historySizeLimitWarn ∨ historyCount > c.historyCountLimitWarn then
    ((false, none), s)
  else
    ((false, none), s)

/-- Modelled from the spec: the state of a mutable state as the size checker sees it. The
implementation of the interface `mutableState` is not among the sources. -/
structure recordedState where
  nextEventID : Int
  executionInfo : WorkflowExecutionInfo
  running : Bool
  appended : List HistoryEvent
  deriving DecidableEq, Repr

/-- Modelled from the spec: a mutable state that records what is appended to it. On an open
execution `AddFailWorkflowEvent` appends a `WorkflowExecutionFailed` event carrying the given
failure and retry status under the next event id and closes the execution; on a closed one
it returns an Internal error and changes nothing, a mutable state being mutated only while
the execution is open. -/
def recordingMutableState : mutableState recordedState where
  GetNextEventID := fun s => s.nextEventID
  GetExecutionInfo := fun s => s.executionInfo
  AddFailWorkflowEvent := fun s completedID retryStatus attributes =>
    if s.running then
      let event : HistoryEvent :=
        { EventId := s.nextEventID, DecisionTaskCompletedEventId := completedID,
          RetryStatus := retryStatus, Failure := attributes.Failure }
      (.ok event,
        { s with nextEventID := s.nextEventID + 1, running := false,
                 appended := s.appended ++ [event] })
    else
      (.error (.Internal "invalid mutable state action: mutation after finish"), s)

/-! ## Retry policies of the service clients -/

/-- Modelled from the spec: the exponential policy of package `common/backoff`, which is not
among the sources. Intervals are `time.Duration` values, in nanoseconds. -/
structure ExponentialRetryPolicy where
  initialInterval : Int
  backoffCoefficient : Nat
  maximumInterval : Int
  expirationInterval : Int
  maximumAttempts : Int
  deriving DecidableEq, Repr

/-- The constant `time.Millisecond`. -/
def Millisecond : Int := 1000000

/-- The constant `time.Second`. -/
def Second : Int := 1000 * Millisecond

/-- Modelled from the spec: `backoff.NewExponentialRetryPolicy`: an exponential policy with
the given initial interval, coefficient 2, a maximum interval of 10 s, an expiration
interval of one minute and no limit on the attempts. -/
def NewExponentialRetryPolicy (initialInterval : Int) : ExponentialRetryPolicy :=
  { initialInterval := initialInterval, backoffCoefficient := 2,
    maximumInterval := 10 * Second, expirationInterval := 60 * Second, maximumAttempts := 0 }

/-- Modelled from the spec: the setter `SetMaximumInterval` of the exponential policy. -/
def ExponentialRetryPolicy.SetMaximumInterval (policy : ExponentialRetryPolicy)
    (maximumInterval : Int) : ExponentialRetryPolicy :=
  { policy with maximumInterval := maximumInterval }

/-- Modelled from the spec: the setter `SetExpirationInterval` of the exponential policy. -/
def ExponentialRetryPolicy.SetExpirationInterval (policy : ExponentialRetryPolicy)
    (expirationInterval : Int) : ExponentialRetryPolicy :=
  { policy with expirationInterval := expirationInterval }

/-- The constant `retryPersistenceOperationInitialInterval`. -/
def retryPersistenceOperationInitialInterval : Int := 50 * Millisecond
/-- The constant `retryPersistenceOperationMaxInterval`. -/
def retryPersistenceOperationMaxInterval : Int := 10 * Second
/-- The constant `retryPersistenceOperationExpirationInterval`. -/
def retryPersistenceOperationExpirationInterval : Int := 30 * Second

/-- The constant `historyServiceOperationInitialInterval`. -/
def historyServiceOperationInitialInterval : Int := 50 * Millisecond
/-- The constant `historyServiceOperationMaxInterval`. -/
def historyServiceOperationMaxInterval : Int := 10 * Second
/-- The constant `historyServiceOperationExpirationInterval`. -/
def historyServiceOperationExpirationInterval : Int := 30 * Second

/-- The constant `matchingServiceOperationInitialInterval`. -/
def matchingServiceOperationInitialInterval : Int := 1000 * Millisecond
/-- The constant `matchingServiceOperationMaxInterval`. -/
def matchingServiceOperationMaxInterval : Int := 10 * Second
/-- The constant `matchingServiceOperationExpirationInterval`. -/
def matchingServiceOperationExpirationInterval : Int := 30 * Second

/-- The constant `frontendServiceOperationInitialInterval`. -/
def frontendServiceOperationInitialInterval : Int := 200 * Millisecond
/-- The constant `frontendServiceOperationMaxInterval`. -/
def frontendServiceOperationMaxInterval : Int := 5 * Second
/-- The constant `frontendServiceOperationExpirationInterval`. -/
def frontendServiceOperationExpirationInterval : Int := 15 * Second

/-- The constant `adminServiceOperationInitialInterval`. -/
def adminServiceOperationInitialInterval : Int := 200 * Millisecond
/-- The constant `adminServiceOperationMaxInterval`. -/
def adminServiceOperationMaxInterval : Int := 5 * Second
/-- The constant `adminServiceOperationExpirationInterval`. -/
def adminServiceOperationExpirationInterval : Int := 15 * Second

/-- The constant `retryKafkaOperationInitialInterval`. -/
def retryKafkaOperationInitialInterval : Int := 50 * Millisecond
/-- The constant `retryKafkaOperationMaxInterval`. -/
def retryKafkaOperationMaxInterval : Int := 10 * Second
/-- The constant `retryKafkaOperationExpirationInterval`. -/
def retryKafkaOperationExpirationInterval : Int := 30 * Second

/-- The function `CreatePersistanceRetryPolicy`. -/
def CreatePersistanceRetryPolicy : ExponentialRetryPolicy :=
  let policy := NewExponentialRetryPolicy retryPersistenceOperationInitialInterval
  let policy := policy.SetMaximumInterval retryPersistenceOperationMaxInterval
  let policy := policy.SetExpirationInterval retryPersistenceOperationExpirationInterval
  policy

/-- The function `CreateHistoryServiceRetryPolicy`. -/
def CreateHistoryServiceRetryPolicy : ExponentialRetryPolicy :=
  let policy := NewExponentialRetryPolicy historyServiceOperationInitialInterval
  let policy := policy.SetMaximumInterval historyServiceOperationMaxInterval
  let policy := policy.SetExpirationInterval historyServiceOperationExpirationInterval
  policy

/-- The function `CreateMatchingServiceRetryPolicy`. -/
def CreateMatchingServiceRetryPolicy : ExponentialRetryPolicy :=
  let policy := NewExponentialRetryPolicy matchingServiceOperationInitialInterval
  let policy := policy.SetMaximumInterval matchingServiceOperationMaxInterval
  let policy := policy.SetExpirationInterval matchingServiceOperationExpirationInterval
  policy

/-- The function `CreateFrontendServiceRetryPolicy`. -/
def CreateFrontendServiceRetryPolicy : ExponentialRetryPolicy :=
  let policy := NewExponentialRetryPolicy frontendServiceOperationInitialInterval
  let policy := policy.SetMaximumInterval frontendServiceOperationMaxInterval
  let policy := policy.SetExpirationInterval frontendServiceOperationExpirationInterval
  policy

/-- The function `CreateAdminServiceRetryPolicy`. -/
def CreateAdminServiceRetryPolicy : ExponentialRetryPolicy :=
  let policy := NewExponentialRetryPolicy adminServiceOperationInitialInterval
  let policy := policy.SetMaximumInterval adminServiceOperationMaxInterval
  let policy := policy.SetExpirationInterval adminServiceOperationExpirationInterval
  policy

/-- The function `CreateKafkaOperationRetryPolicy`. -/
def CreateKafkaOperationRetryPolicy : ExponentialRetryPolicy :=
  let policy := NewExponentialRetryPolicy retryKafkaOperationInitialInterval
  let policy := policy.SetMaximumInterval retryKafkaOperationMaxInterval
  let policy := policy.SetExpirationInterval retryKafkaOperationExpirationInterval
  policy

/-! ## Error classification -/

/-- The function `IsServiceNonRetryableError`: a type switch on the error, which a nil error
and every other error fall through. -/
def IsServiceNonRetryableError (err : Option GoError) : Bool :=
  match err with
  | some (.NotFound _) => true
  | some (.InvalidArgument _) => true
  | some (.NamespaceNotActive _) => true
  | some (.WorkflowExecutionAlreadyStarted _) => true
  | some (.CancellationAlreadyRequested _) => true
  | _ => false

/-- The function `IsServiceTransientError`. -/
def IsServiceTransientError (err : Option GoError) : Bool :=
  !IsServiceNonRetryableError err

/-- The function `IsWhitelistServiceTransientError`. -/
def IsWhitelistServiceTransientError (err : Option GoError) : Bool :=
  if err = some .ContextDeadlineExceeded then true
  else
    match err with
    | some (.Internal _) => true
    | some (.ResourceExhausted _) => true
    | some (.ShardOwnershipLost _) => true
    | some (.DeadlineExceeded _) => true
    | some (.Unavailable _) => true
    | _ => false

/-! ## Shard of a workflow id -/

/-- The function `WorkflowIDToHistoryShard`. `Fingerprint32` is `farm.Fingerprint32` of the
fingerprint library, taken as a parameter and read as a `uint32`; `uint32(numberOfShards)`
is the shard count modulo 2^32, and the remainder by zero, a panic in the source, is
`none`. -/
def WorkflowIDToHistoryShard (Fingerprint32 : String → Nat) (workflowID : String)
    (numberOfShards : Int) : Option Int :=
  let hash : Int := ((Fingerprint32 workflowID % 2 ^ 32 : Nat) : Int)
  let shards : Int := numberOfShards % 2 ^ 32
  if shards = 0 then none else some (hash % shards)

/-! ## Contexts -/

/-- A `context.Context` as the helpers read it. `Done` is `none` when `Done()` returns a nil
channel and otherwise tells whether the channel is closed; `Err` is `Err()`; `Deadline` is
the deadline when one is set, in nanoseconds since the zero time. -/
structure Context where
  Done : Option Bool
  Err : Option GoError
  Deadline : Option Int
  deriving DecidableEq, Repr

/-- The constant `contextExpireThreshold`. -/
def contextExpireThreshold : Int := 10 * Millisecond

/-- The function `IsValidContext`, with `time.Now()` as the argument `now`. The `select` with
a `default` case is a look at whether the channel is closed. -/
def IsValidContext (now : Int) (ctx : Context) : Option GoError :=
  match ctx.Done with
  | some closed =>
    if closed then ctx.Err
    else none
  | none =>
    match ctx.Deadline with
    | some deadline =>
      if deadline - now < contextExpireThreshold then some .ContextDeadlineExceeded
      else none
    | none => none

/-- The variable `ErrContextTimeoutTooShort`. -/
def ErrContextTimeoutTooShort : GoError := .InvalidArgument "Context timeout is too short."

/-- The variable `ErrContextTimeoutNotSet`. -/
def ErrContextTimeoutNotSet : GoError := .InvalidArgument "Context timeout is not set."

/-- The level of a log line. -/
inductive LogLevel where
  | Warn
  | Error
  deriving DecidableEq, Repr

/-- A log line: its level and its message, without the tags. -/
structure LogLine where
  level : LogLevel
  message : String
  deriving DecidableEq, Repr

/-- The function `ValidateLongPollContextTimeoutIsSet`: the deadline (the zero time when none
is set) and the error, next to the lines it logs. -/
def ValidateLongPollContextTimeoutIsSet (ctx : Context) : (Int × Option GoError) × List LogLine :=
  match ctx.Deadline with
  | none =>
    ((0, some ErrContextTimeoutNotSet),
      [{ level := .Error, message := "Context timeout not set for long poll API." }])
  | some deadline => ((deadline, none), [])

/-- The function `ValidateLongPollContextTimeout`, with `time.Now()` as the argument `now`:
the error, next to the lines it logs. The constants `MinLongPollTimeout` and
`CriticalLongPollTimeout` are declared outside the sources and taken as parameters. -/
def ValidateLongPollContextTimeout (MinLongPollTimeout CriticalLongPollTimeout now : Int)
    (ctx : Context) : Option GoError × List LogLine :=
  match ValidateLongPollContextTimeoutIsSet ctx with
  | ((_, some err), logs) => (some err, logs)
  | ((deadline, none), logs) =>
    let timeout := deadline - now
    if timeout < MinLongPollTimeout then
      (some ErrContextTimeoutTooShort,
        logs ++ [{ level := .Error,
                   message := "Context timeout is too short for long poll API." }])
    else if timeout < CriticalLongPollTimeout then
      (none,
        logs ++ [{ level := .Warn,
                   message := "Context timeout is lower than critical value for long poll API." }])
    else (none, logs)

/-! ## Signal-external decisions -/

/-- The message `commonpb.WorkflowExecution`. -/
structure WorkflowExecution where
  WorkflowId : String
  RunId : String
  deriving DecidableEq, Repr

/-- The message `decisionpb.SignalExternalWorkflowExecutionDecisionAttributes`, without the
opaque payload fields and the flag the validator never reads. -/
structure SignalExternalWorkflowExecutionDecisionAttributes where
  Namespace : String
  Execution : Option WorkflowExecution
  SignalName : String
  deriving DecidableEq, Repr

/-- The method `validateSignalExternalWorkflowExecutionAttributes`. `Parse` tells whether
`uuid.Parse` of the uuid library returns a uuid, taken as a parameter. -/
def validateSignalExternalWorkflowExecutionAttributes (Parse : String → Bool)
    (v : decisionAttrValidator) (namespaceID targetNamespaceID : String)
    (attributes : Option SignalExternalWorkflowExecutionDecisionAttributes) : Option GoError :=
  match validateCrossNamespaceCall v namespaceID targetNamespaceID with
  | some err => some err
  | none =>
  match attributes with
  | none =>
    some (.InvalidArgument
      "SignalExternalWorkflowExecutionDecisionAttributes is not set on decision.")
  | some attributes =>
  match attributes.Execution with
  | none => some (.InvalidArgument "Execution is nil on decision.")
  | some execution =>
  if execution.WorkflowId = "" then
    some (.InvalidArgument "WorkflowId is not set on decision.")
  else if len attributes.Namespace > v.maxIDLengthLimit then
    some (.InvalidArgument "Namespace exceeds length limit.")
  else if len execution.WorkflowId > v.maxIDLengthLimit then
    some (.InvalidArgument "WorkflowId exceeds length limit.")
  else
  let targetRunID := execution.RunId
  if targetRunID ≠ "" ∧ Parse targetRunID = false then
    some (.InvalidArgument "Invalid RunId set on decision.")
  else if attributes.SignalName = "" then
    some (.InvalidArgument "SignalName is not set on decision.")
  else
    none

/-! ## State builder -/

/-- Modelled from the spec: a history event as the state builder reads it: its id within
the run, its version, its timestamp in nanoseconds and the number of its type in the closed
set of event types. The state builder itself is not among the sources, only its test is. -/
structure ReplicatedEvent where
  EventId : Int
  Version : Int
  Timestamp : Int
  EventType : Nat
  deriving DecidableEq, Repr

/-- Modelled from the spec: what the handler of one event type does: the single
`Replicate...Event` call on the mutable state, and the transfer and timer tasks it asks the
task generator for, each keyed by a timestamp. -/
inductive HandlerCall where
  | replicate (eventId : Int)
  | generateTask (kind : Nat) (timestamp : Int)
  deriving DecidableEq, Repr

/-- Modelled from the spec: the calls `applyEvents` makes on the mutable state and on the
task generator, in the order it makes them. -/
inductive BuilderCall where
  | updateVersion (version : Int)
  | updateLastEventId (version eventId : Int)
  | handler (call : HandlerCall)
  | generateActivityTimerTasks (timestamp : Int)
  | generateUserTimerTasks (timestamp : Int)
  | clearStickyness
  deriving DecidableEq, Repr

/-- Modelled from the spec: step 1 of the algorithm of `applyEvents`: if there is a previous
event in the batch, the id of the event is the id of the previous event plus one. -/
def followsPrevious (previous : Option ReplicatedEvent) (event : ReplicatedEvent) : Bool :=
  match previous with
  | some p => decide (event.EventId = p.EventId + 1)
  | none => true

/-- Modelled from the spec: steps 1 to 3 of the algorithm of `applyEvents` for the events of
a batch in order. Step 1 asserts that the event follows the previous event of the batch;
step 2 updates the replication state with the version, then with the last event id; step 3
dispatches on the type of the event. `handle` is the handler table, over the mutable state
`σ`; an error of a handler aborts the batch. -/
def applyEventsFrom {σ : Type}
    (handle : σ → ReplicatedEvent → Except GoError (σ × List HandlerCall)) :
    σ → Option ReplicatedEvent → List ReplicatedEvent → Except GoError (σ × List BuilderCall)
  | s, _, [] => .ok (s, [])
  | s, previous, event :: rest =>
    if followsPrevious previous event = false then
      .error (.Internal "event id does not follow the previous event")
    else
      match handle s event with
      | .error err => .error err
      | .ok (s, calls) =>
        match applyEventsFrom handle s (some event) rest with
        | .error err => .error err
        | .ok (s, later) =>
          .ok (s, [BuilderCall.updateVersion event.Version,
                   BuilderCall.updateLastEventId event.Version event.EventId]
                  ++ calls.map BuilderCall.handler ++ later)

/-- Modelled from the spec: the method `applyEvents` of the state builder: the events of the
batch in order, then, on the final event, the activity-timer and the user-timer tasks for
the timestamp of the tail of the batch and the clearing of the sticky task list. An empty
batch has no final event and nothing is done for it. -/
def applyEvents {σ : Type}
    (handle : σ → ReplicatedEvent → Except GoError (σ × List HandlerCall))
    (s : σ) (batch : List ReplicatedEvent) : Except GoError (σ × List BuilderCall) :=
  match batch.getLast? with
  | none => .ok (s, [])
  | some last =>
    match applyEventsFrom handle s none batch with
    | .error err => .error err
    | .ok (s, calls) =>
      .ok (s, calls ++ [BuilderCall.generateActivityTimerTasks last.Timestamp,
                        BuilderCall.generateUserTimerTasks last.Timestamp,
                        BuilderCall.clearStickyness])

/-! ## Predicates used to state the properties -/

/-- The checks of lines 203 to 241 of `validateActivityScheduleAttributes` all pass: the
cross-namespace call, the task list, the activity id and type, the retry policy and the
three length limits. None of them reads a timeout. -/
def activityStructureOk (v : decisionAttrValidator) (namespaceID targetNamespaceID : String)
    (attributes : ScheduleActivityTaskDecisionAttributes) : Prop :=
  validateCrossNamespaceCall v namespaceID targetNamespaceID = none
  ∧ (validatedTaskList v attributes.TaskList "").2 = none
  ∧ attributes.ActivityId ≠ ""
  ∧ attributes.ActivityType ≠ none
  ∧ attributes.activityTypeName ≠ ""
  ∧ ValidateRetryPolicy attributes.RetryPolicy = none
  ∧ len attributes.ActivityId ≤ v.maxIDLengthLimit
  ∧ len attributes.activityTypeName ≤ v.maxIDLengthLimit
  ∧ len attributes.Namespace ≤ v.maxIDLengthLimit

/-- The check of lines 244 to 247 passes: no timeout is negative. -/
def activityTimeoutsNonNegative (attributes : ScheduleActivityTaskDecisionAttributes) : Prop :=
  0 ≤ attributes.ScheduleToCloseTimeoutSeconds
  ∧ 0 ≤ attributes.ScheduleToStartTimeoutSeconds
  ∧ 0 ≤ attributes.StartToCloseTimeoutSeconds
  ∧ 0 ≤ attributes.HeartbeatTimeoutSeconds

/-- The checks of lines 553 to 590 of `validateStartChildExecutionAttributes` all pass: the
cross-namespace call, the workflow id and type, the three length limits, the retry policy and
the cron schedule. None of them reads the task list or a timeout. -/
def childStructureOk (ValidateSchedule : String → Option GoError) (v : decisionAttrValidator)
    (namespaceID targetNamespaceID : String)
    (attributes : StartChildWorkflowExecutionDecisionAttributes) : Prop :=
  validateCrossNamespaceCall v namespaceID targetNamespaceID = none
  ∧ attributes.WorkflowId ≠ ""
  ∧ attributes.WorkflowType ≠ none
  ∧ attributes.workflowTypeName ≠ ""
  ∧ len attributes.Namespace ≤ v.maxIDLengthLimit
  ∧ len attributes.WorkflowId ≤ v.maxIDLengthLimit
  ∧ len attributes.workflowTypeName ≤ v.maxIDLengthLimit
  ∧ ValidateRetryPolicy attributes.RetryPolicy = none
  ∧ ValidateSchedule attributes.CronSchedule = none

/-- The result of `inheritFromParent` in closed form: the validated task list stored, and
each timeout that is not positive replaced by the parent's. -/
def childInherited (attributes : StartChildWorkflowExecutionDecisionAttributes)
    (taskList : TaskList) (parentInfo : WorkflowExecutionInfo) :
    StartChildWorkflowExecutionDecisionAttributes :=
  { attributes with
    TaskList := some taskList
    WorkflowExecutionTimeoutSeconds :=
      if attributes.WorkflowExecutionTimeoutSeconds ≤ 0 then parentInfo.WorkflowExecutionTimeout
      else attributes.WorkflowExecutionTimeoutSeconds
    WorkflowRunTimeoutSeconds :=
      if attributes.WorkflowRunTimeoutSeconds ≤ 0 then parentInfo.WorkflowRunTimeout
      else attributes.WorkflowRunTimeoutSeconds
    WorkflowTaskTimeoutSeconds :=
      if attributes.WorkflowTaskTimeoutSeconds ≤ 0 then parentInfo.WorkflowTaskTimeout
      else attributes.WorkflowTaskTimeoutSeconds }

/-! ## Concrete inputs used by the evaluations below -/

/-- A local namespace whose active and only cluster is `cluster-a`. -/
def localAlpha : NamespaceCacheEntry where
  Name := "alpha"
  isGlobalNamespace := false
  replicationConfig := { ActiveClusterName := "cluster-a", Clusters := ["cluster-a"] }

/-- A local namespace whose active and only cluster is `cluster-b`. -/
def localBeta : NamespaceCacheEntry where
  Name := "beta"
  isGlobalNamespace := false
  replicationConfig := { ActiveClusterName := "cluster-b", Clusters := ["cluster-b"] }

/-- A global namespace replicated to `cluster-a` only. -/
def globalAlpha : NamespaceCacheEntry where
  Name := "alpha"
  isGlobalNamespace := true
  replicationConfig := { ActiveClusterName := "cluster-a", Clusters := ["cluster-a"] }

/-- A global namespace replicated to `cluster-b` only. -/
def globalBeta : NamespaceCacheEntry where
  Name := "beta"
  isGlobalNamespace := true
  replicationConfig := { ActiveClusterName := "cluster-b", Clusters := ["cluster-b"] }

/-- A validator over a cache holding the two local namespaces under the ids `ns-a` and
`ns-b`; every other id is unknown. The id-length limit is 1000. -/
def twoLocalNamespaces : decisionAttrValidator where
  namespaceCache := fun id =>
    if id = "ns-a" then .ok localAlpha
    else if id = "ns-b" then .ok localBeta
    else .error (.NotFound "namespace not found")
  maxIDLengthLimit := 1000
  searchAttributesValidator := fun _ _ => none

/-- A validator over a cache holding the two global namespaces under the ids `ns-a` and
`ns-b`; every other id is unknown. The id-length limit is 4. -/
def twoGlobalNamespaces : decisionAttrValidator where
  namespaceCache := fun id =>
    if id = "ns-a" then .ok globalAlpha
    else if id = "ns-b" then .ok globalBeta
    else .error (.NotFound "namespace not found")
  maxIDLengthLimit := 4
  searchAttributesValidator := fun _ _ => none

/-- A schedule-activity decision with the given four timeouts and every other field valid. -/
def activityWithTimeouts (scheduleToClose scheduleToStart startToClose heartbeat : Int) :
    ScheduleActivityTaskDecisionAttributes where
  ActivityId := "activity-1"
  ActivityType := some { Name := "activity-type" }
  Namespace := ""
  TaskList := some { Name := "task-list", Kind := 0 }
  ScheduleToCloseTimeoutSeconds := scheduleToClose
  ScheduleToStartTimeoutSeconds := scheduleToStart
  StartToCloseTimeoutSeconds := startToClose
  HeartbeatTimeoutSeconds := heartbeat
  RetryPolicy := none

/-- A cron syntax check that accepts every schedule. -/
def acceptEverySchedule : String → Option GoError := fun _ => none

/-- A parent execution running on a task list under the reserved prefix. -/
def parentOnReservedTaskList : WorkflowExecutionInfo where
  NamespaceID := "ns-a"
  WorkflowTypeName := "parent-type"
  TaskList := "/__temporal_sys/parent"
  WorkflowExecutionTimeout := 100
  WorkflowRunTimeout := 60
  WorkflowTaskTimeout := 10
  WorkflowExpirationTime := 0

/-- A parent execution running on an ordinary task list. -/
def parentOnPlainTaskList : WorkflowExecutionInfo where
  NamespaceID := "ns-a"
  WorkflowTypeName := "parent-type"
  TaskList := "parent-task-list"
  WorkflowExecutionTimeout := 100
  WorkflowRunTimeout := 60
  WorkflowTaskTimeout := 10
  WorkflowExpirationTime := 0

/-- A start-child decision that leaves the task list and every timeout blank. -/
def childWithBlanks : StartChildWorkflowExecutionDecisionAttributes where
  Namespace := ""
  WorkflowId := "child-1"
  WorkflowType := some { Name := "child-type" }
  TaskList := none
  WorkflowExecutionTimeoutSeconds := 0
  WorkflowRunTimeoutSeconds := 0
  WorkflowTaskTimeoutSeconds := 0
  RetryPolicy := none
  CronSchedule := ""

/-- A continue-as-new decision that leaves every field blank. -/
def continueAsNewWithBlanks : ContinueAsNewWorkflowExecutionDecisionAttributes where
  WorkflowType := none
  TaskList := none
  WorkflowRunTimeoutSeconds := 0
  WorkflowTaskTimeoutSeconds := 0
  BackoffStartIntervalInSeconds := 0
  SearchAttributes := none

/-- A previous execution without an expiration time. -/
def previousWithoutExpiration : WorkflowExecutionInfo where
  NamespaceID := "ns-a"
  WorkflowTypeName := "previous-type"
  TaskList := "previous-task-list"
  WorkflowExecutionTimeout := 0
  WorkflowRunTimeout := 60
  WorkflowTaskTimeout := 10
  WorkflowExpirationTime := 0

/-- A previous execution that expires at the given time. -/
def previousExpiringAt (expiration : Int) : WorkflowExecutionInfo where
  NamespaceID := "ns-a"
  WorkflowTypeName := "previous-type"
  TaskList := "previous-task-list"
  WorkflowExecutionTimeout := 100
  WorkflowRunTimeout := 60
  WorkflowTaskTimeout := 10
  WorkflowExpirationTime := expiration

/-- A reading of the clock: two billion seconds after the zero time. -/
def clockReading : Int := 2000000000 * Second

/-- A conversion of the `float64` values that an `int32` cannot represent: each becomes the
smallest `int32`, as on amd64. -/
def smallestInt32 : Float64 → Int := fun _ => -2147483648

/-- The attributes `failWorkflowSizeExceedsLimit` builds at lines 172 to 174. -/
def sizeExceedsLimitAttributes : FailWorkflowExecutionDecisionAttributes :=
  { Failure := some (NewServerFailure FailureReasonSizeExceedsLimit false) }

/-- A size checker over the recording mutable state with a history count error limit of
1000, a history size error limit of 20000 bytes and a blob size error limit of 2000 bytes;
the history holds 100 bytes and the completed decision task has event id 7. -/
def sizeCheckerWithCountLimit1000 : workflowSizeChecker recordedState where
  blobSizeLimitWarn := 1000
  blobSizeLimitError := 2000
  historySizeLimitWarn := 10000
  historySizeLimitError := 20000
  historyCountLimitWarn := 500
  historyCountLimitError := 1000
  completedID := 7
  mutableState := recordingMutableState
  executionStats := { HistorySize := 100 }

/-- An open execution whose history holds the given number of events. -/
def openHistory (events : Int) : recordedState where
  nextEventID := events + 1
  executionInfo := previousWithoutExpiration
  running := true
  appended := []

/-- A closed execution whose history holds the given number of events. -/
def closedHistory (events : Int) : recordedState where
  nextEventID := events + 1
  executionInfo := previousWithoutExpiration
  running := false
  appended := []

/-- The comparison `x <= y` of two `float64`; false as soon as one side is not a number. -/
def Float64.le : Float64 → Float64 → Bool
  | .nan, _ => false
  | _, .nan => false
  | .negInf, _ => true
  | .finite _, .negInf => false
  | .finite a, .finite b => decide (a ≤ b)
  | .finite _, .posInf => true
  | .posInf, .posInf => true
  | .posInf, _ => false

/-- The validator over the same cache with every active cluster name replaced by the one
`rename` gives for the entry. -/
def withActiveClusterNames (rename : NamespaceCacheEntry → String) (v : decisionAttrValidator) :
    decisionAttrValidator :=
  { v with
    namespaceCache := fun id =>
      match v.namespaceCache id with
      | .ok e =>
        .ok { e with
          replicationConfig :=
            { e.replicationConfig with ActiveClusterName := rename e } }
      | .error err => .error err }

/-- The call updates the replication state. -/
def BuilderCall.isReplication : BuilderCall → Bool
  | .updateVersion _ => true
  | .updateLastEventId _ _ => true
  | _ => false

/-- The call generates the activity-timer tasks. -/
def BuilderCall.isActivityTimer : BuilderCall → Bool
  | .generateActivityTimerTasks _ => true
  | _ => false

/-- The call generates the user-timer tasks. -/
def BuilderCall.isUserTimer : BuilderCall → Bool
  | .generateUserTimerTasks _ => true
  | _ => false

/-- The call clears the sticky task list. -/
def BuilderCall.isClearStickyness : BuilderCall → Bool
  | .clearStickyness => true
  | _ => false

/-- The two replication-state updates of one event: the version, then the last event id
with the version and the id of the event. -/
def replicationCalls (event : ReplicatedEvent) : List BuilderCall :=
  [.updateVersion event.Version, .updateLastEventId event.Version event.EventId]

/-- A context made by `context.WithDeadline` that has not been cancelled and whose deadline
has not passed: its `Done` channel is open and `Err()` is nil. -/
def openContextWithDeadline (deadline : Int) : Context where
  Done := some false
  Err := none
  Deadline := some deadline

/-- A retry policy with the given backoff coefficient and every interval left at 0. -/
def retryPolicyWithCoefficient (coefficient : Float64) : RetryPolicy where
  InitialIntervalInSeconds := 0
  BackoffCoefficient := coefficient
  MaximumIntervalInSeconds := 0
  MaximumAttempts := 0
  NonRetryableErrorTypes := []

/-- A signal-external decision for the workflow `wf` with the given signal name. -/
def signalWithName (signalName : String) : SignalExternalWorkflowExecutionDecisionAttributes where
  Namespace := ""
  Execution := some { WorkflowId := "wf", RunId := "" }
  SignalName := signalName

/-- A handler table without state: every event is replicated and asks for one task keyed by
its timestamp. -/
def replicateAndOneTask : Unit → ReplicatedEvent → Except GoError (Unit × List HandlerCall) :=
  fun _ event => .ok ((), [.replicate event.EventId, .generateTask event.EventType event.Timestamp])

/-- A batch of two events with the ids 130 and 131. -/
def twoEventBatch : List ReplicatedEvent :=
  [{ EventId := 130, Version := 1, Timestamp := 1000, EventType := 25 },
   { EventId := 131, Version := 1, Timestamp := 2000, EventType := 5 }]

/-! ## Cross-namespace calls -/

/-- What `validateCrossNamespaceCall` returns once both ids resolve: the call is let through
for equal ids, for two non-global namespaces, and for two one-element cluster lists holding
the same cluster; anything else is the cross-namespace error. -/
theorem validateCrossNamespaceCall_resolved (v : decisionAttrValidator)
    (namespaceID targetNamespaceID : String) (e t : NamespaceCacheEntry)
    (he : v.namespaceCache namespaceID = .ok e)
    (ht : v.namespaceCache targetNamespaceID = .ok t) :
    validateCrossNamespaceCall v namespaceID targetNamespaceID =
      if namespaceID = targetNamespaceID
          ∨ (e.isGlobalNamespace = false ∧ t.isGlobalNamespace = false)
          ∨ (e.replicationConfig.Clusters.length = 1 ∧ t.replicationConfig.Clusters.length = 1
              ∧ e.replicationConfig.Clusters = t.replicationConfig.Clusters)
      then none else some (createCrossNamespaceCallError e t) := by
  unfold validateCrossNamespaceCall
  by_cases hid : namespaceID = targetNamespaceID
  · simp [hid]
  · simp only [hid, if_false, he, ht, false_or]
    by_cases hl : e.isGlobalNamespace = false ∧ t.isGlobalNamespace = false
    · simp [hl.1, hl.2]
    · have hl2 : ((!e.isGlobalNamespace && !t.isGlobalNamespace) = true) ↔ False := by
        cases h1 : e.isGlobalNamespace <;> cases h2 : t.isGlobalNamespace <;> simp_all
      simp only [hl2, if_false, hl, false_or]
      split
      next c d h1 h2 =>
        by_cases hcd : c = d
        · subst hcd
          simp [h1, h2]
        · simp [h1, h2, hcd]
      next hne =>
        have : ¬ (e.replicationConfig.Clusters.length = 1
            ∧ t.replicationConfig.Clusters.length = 1
            ∧ e.replicationConfig.Clusters = t.replicationConfig.Clusters) := by
          rintro ⟨h1, h2, _⟩
          obtain ⟨c, hc⟩ := List.length_eq_one.mp h1
          obtain ⟨d, hd⟩ := List.length_eq_one.mp h2
          exact hne c d hc hd
        simp only [this, if_false]

/-- C1, as stated, fails: the ids `ns-a` and `ns-b` resolve to two local namespaces with
different active clusters and different cluster lists, so none of the three conditions of
the claim holds, and `validateCrossNamespaceCall` still returns no error. -/
theorem validateCrossNamespaceCall_ignores_active_cluster :
    twoLocalNamespaces.namespaceCache "ns-a" = .ok localAlpha
    ∧ twoLocalNamespaces.namespaceCache "ns-b" = .ok localBeta
    ∧ validateCrossNamespaceCall twoLocalNamespaces "ns-a" "ns-b" = none
    ∧ ¬ ("ns-a" = "ns-b"
        ∨ (localAlpha.isGlobalNamespace = false ∧ localBeta.isGlobalNamespace = false
            ∧ localAlpha.replicationConfig.ActiveClusterName
              = localBeta.replicationConfig.ActiveClusterName)
        ∨ (localAlpha.isGlobalNamespace = true ∧ localBeta.isGlobalNamespace = true
            ∧ localAlpha.replicationConfig.Clusters.length = 1
            ∧ localAlpha.replicationConfig.Clusters = localBeta.replicationConfig.Clusters)) :=
  ⟨rfl, rfl, by decide, by decide⟩

/-- C1, amended: when both namespace ids resolve in the cache, `validateCrossNamespaceCall`
returns no error if and only if the ids are identical, or both namespaces are local (not
global), or both replication cluster lists consist of one and the same single cluster; in
every other case it returns an InvalidArgument error. -/
theorem validateCrossNamespaceCall_accepts_iff (v : decisionAttrValidator)
    (namespaceID targetNamespaceID : String) (e t : NamespaceCacheEntry)
    (he : v.namespaceCache namespaceID = .ok e)
    (ht : v.namespaceCache targetNamespaceID = .ok t) :
    (validateCrossNamespaceCall v namespaceID targetNamespaceID = none ↔
      (namespaceID = targetNamespaceID
        ∨ (e.isGlobalNamespace = false ∧ t.isGlobalNamespace = false)
        ∨ (e.replicationConfig.Clusters.length = 1 ∧ t.replicationConfig.Clusters.length = 1
            ∧ e.replicationConfig.Clusters = t.replicationConfig.Clusters)))
    ∧ (validateCrossNamespaceCall v namespaceID targetNamespaceID ≠ none →
        ∃ message, validateCrossNamespaceCall v namespaceID targetNamespaceID
          = some (.InvalidArgument message)) := by
  rw [validateCrossNamespaceCall_resolved v namespaceID targetNamespaceID e t he ht]
  split_ifs with h
  · exact ⟨⟨fun _ => h, fun _ => rfl⟩, fun hne => absurd rfl hne⟩
  · exact ⟨⟨fun hn => by simp at hn, fun hc => absurd hc h⟩,
      fun _ => ⟨_, rfl⟩⟩

/-- The amended C1 at a concrete input: two global namespaces on different single clusters
resolve in the cache and the call between them is rejected with InvalidArgument. -/
theorem validateCrossNamespaceCall_accepts_iff_witness :
    twoGlobalNamespaces.namespaceCache "ns-a" = .ok globalAlpha
    ∧ twoGlobalNamespaces.namespaceCache "ns-b" = .ok globalBeta
    ∧ validateCrossNamespaceCall twoGlobalNamespaces "ns-a" "ns-b"
        = some (.InvalidArgument "cannot make cross namespace call between alpha and beta")
    ∧ (validateCrossNamespaceCall twoGlobalNamespaces "ns-a" "ns-b" = none ↔
        ("ns-a" = "ns-b"
          ∨ (globalAlpha.isGlobalNamespace = false ∧ globalBeta.isGlobalNamespace = false)
          ∨ (globalAlpha.replicationConfig.Clusters.length = 1
              ∧ globalBeta.replicationConfig.Clusters.length = 1
              ∧ globalAlpha.replicationConfig.Clusters
                = globalBeta.replicationConfig.Clusters)))
    ∧ (validateCrossNamespaceCall twoGlobalNamespaces "ns-a" "ns-b" ≠ none →
        ∃ message, validateCrossNamespaceCall twoGlobalNamespaces "ns-a" "ns-b"
          = some (.InvalidArgument message)) :=
  ⟨rfl, rfl, by decide,
    validateCrossNamespaceCall_accepts_iff twoGlobalNamespaces "ns-a" "ns-b"
      globalAlpha globalBeta rfl rfl⟩

/-! ## Task lists -/

/-- C10: for a task list with a non-empty name, `validatedTaskList` returns an error if and
only if the name is longer than `maxIDLengthLimit` or starts with the reserved prefix; a
name of length `maxIDLengthLimit + 1` is rejected, a name of length exactly
`maxIDLengthLimit` without the prefix is accepted, the error is an InvalidArgument, and the
task list is returned unchanged. -/
theorem validatedTaskList_error_iff (v : decisionAttrValidator) (taskList : TaskList)
    (defaultVal : String) (hname : taskList.Name ≠ "") :
    ((validatedTaskList v (some taskList) defaultVal).2 ≠ none ↔
      (len taskList.Name > v.maxIDLengthLimit
        ∨ HasPrefix taskList.Name reservedTaskListPrefix = true))
    ∧ (len taskList.Name = v.maxIDLengthLimit + 1 →
        (validatedTaskList v (some taskList) defaultVal).2 ≠ none)
    ∧ (len taskList.Name = v.maxIDLengthLimit →
        HasPrefix taskList.Name reservedTaskListPrefix = false →
        (validatedTaskList v (some taskList) defaultVal).2 = none)
    ∧ (∀ err, (validatedTaskList v (some taskList) defaultVal).2 = some err →
        err.isInvalidArgument = true)
    ∧ (validatedTaskList v (some taskList) defaultVal).1 = taskList := by
  have key : validatedTaskList v (some taskList) defaultVal =
      if len taskList.Name > v.maxIDLengthLimit then
        (taskList, some (.InvalidArgument
          ("task list name exceeds length limit of " ++ toString v.maxIDLengthLimit)))
      else if HasPrefix taskList.Name reservedTaskListPrefix then
        (taskList, some (.InvalidArgument
          ("task list name cannot start with reserved prefix " ++ reservedTaskListPrefix)))
      else (taskList, none) := by
    simp [validatedTaskList, hname]
  rw [key]
  by_cases hlen : len taskList.Name > v.maxIDLengthLimit
  · simp only [hlen, if_true]
    refine ⟨by simp, by simp, ?_, ?_, trivial⟩
    · intro h; omega
    · intro err h
      simp only [Option.some.injEq] at h
      subst h
      rfl
  · by_cases hpre : HasPrefix taskList.Name reservedTaskListPrefix = true
    · simp only [hlen, if_false, hpre, if_true]
      refine ⟨by simp, by simp, ?_, ?_, trivial⟩
      · intro _ h; simp at h
      · intro err h
        simp only [Option.some.injEq] at h
        subst h
        rfl
    · simp only [hlen, if_false, hpre]
      refine ⟨by simp [hlen], ?_, by simp, by simp, by simp⟩
      intro h; omega

/-- C10 at concrete inputs, with an id-length limit of 4: the four-byte name "abcd" is
accepted and returned unchanged. -/
theorem validatedTaskList_error_iff_witness :
    ("abcd" ≠ "")
    ∧ (validatedTaskList twoGlobalNamespaces (some { Name := "abcd", Kind := 0 }) "").2 = none
    ∧ (validatedTaskList twoGlobalNamespaces (some { Name := "abcd", Kind := 0 }) "").1
        = { Name := "abcd", Kind := 0 } :=
  ⟨by decide,
    (validatedTaskList_error_iff twoGlobalNamespaces { Name := "abcd", Kind := 0 } ""
      (by decide)).2.2.1 (by decide) (by decide),
    (validatedTaskList_error_iff twoGlobalNamespaces { Name := "abcd", Kind := 0 } ""
      (by decide)).2.2.2.2⟩

/-! ## Schedule-activity decisions -/

/-- An accepted call had attributes that pass every check, and its result is the deduced
timeouts capped by the run timeout. -/
theorem validateActivityScheduleAttributes_accepted (v : decisionAttrValidator)
    (namespaceID targetNamespaceID : String)
    (attributes : Option ScheduleActivityTaskDecisionAttributes) (runTimeout : Int)
    (h : (validateActivityScheduleAttributes v namespaceID targetNamespaceID attributes
      runTimeout).1 = none) :
    ∃ a d, attributes = some a
      ∧ activityStructureOk v namespaceID targetNamespaceID a
      ∧ activityTimeoutsNonNegative a
      ∧ deduceActivityTimeouts a runTimeout = some d
      ∧ validateActivityScheduleAttributes v namespaceID targetNamespaceID attributes runTimeout
          = (none, some (capActivityTimeouts d runTimeout)) := by
  unfold validateActivityScheduleAttributes at h ⊢
  cases hc : validateCrossNamespaceCall v namespaceID targetNamespaceID with
  | some err => simp [hc] at h
  | none =>
    cases attributes with
    | none => simp [hc] at h
    | some a =>
      cases ht : (validatedTaskList v a.TaskList "").2 with
      | some err => simp [hc, ht] at h
      | none =>
        cases hr : ValidateRetryPolicy a.RetryPolicy with
        | some err =>
          simp only [hc, ht, hr] at h
          split_ifs at h
        | none =>
          cases hd : deduceActivityTimeouts a runTimeout with
          | none =>
            simp only [hc, ht, hr, hd] at h
            split_ifs at h
          | some d =>
            simp only [hc, ht, hr, hd] at h ⊢
            split_ifs at h with h1 h2 h3 h4 h5 h6
            refine ⟨a, d, rfl, ⟨hc, ht, h1, ?_, ?_, hr, ?_, ?_, ?_⟩, ?_, hd, ?_⟩
            · exact fun hn => h2 (Or.inl hn)
            · exact fun hn => h2 (Or.inr hn)
            · omega
            · omega
            · omega
            · unfold activityTimeoutsNonNegative; omega
            · simp [h1, h2, h3, h4, h5, h6]

/-- Attributes that pass every check and whose timeouts can be deduced are accepted, with
the deduced timeouts capped by the run timeout. -/
theorem validateActivityScheduleAttributes_of_checks (v : decisionAttrValidator)
    (namespaceID targetNamespaceID : String)
    (a d : ScheduleActivityTaskDecisionAttributes) (runTimeout : Int)
    (hs : activityStructureOk v namespaceID targetNamespaceID a)
    (hn : activityTimeoutsNonNegative a)
    (hd : deduceActivityTimeouts a runTimeout = some d) :
    validateActivityScheduleAttributes v namespaceID targetNamespaceID (some a) runTimeout
      = (none, some (capActivityTimeouts d runTimeout)) := by
  obtain ⟨hc, ht, h1, h2, h3, hr, h4, h5, h6⟩ := hs
  obtain ⟨n1, n2, n3, n4⟩ := hn
  unfold validateActivityScheduleAttributes
  simp only [hc, ht, hr, hd]
  have e2 : ¬ (a.ActivityType = none ∨ a.activityTypeName = "") := by
    rintro (h | h)
    · exact h2 h
    · exact h3 h
  have e4 : ¬ (len a.ActivityId > v.maxIDLengthLimit) := by omega
  have e5 : ¬ (len a.activityTypeName > v.maxIDLengthLimit) := by omega
  have e6 : ¬ (len a.Namespace > v.maxIDLengthLimit) := by omega
  have e7 : ¬ (a.ScheduleToCloseTimeoutSeconds < 0 ∨ a.ScheduleToStartTimeoutSeconds < 0
      ∨ a.StartToCloseTimeoutSeconds < 0 ∨ a.HeartbeatTimeoutSeconds < 0) := by omega
  simp only [h1, e2, e4, e5, e6, e7, if_false]

/-- Schedule-to-close after capping. -/
theorem capActivityTimeouts_scheduleToClose (d : ScheduleActivityTaskDecisionAttributes)
    (runTimeout : Int) :
    (capActivityTimeouts d runTimeout).ScheduleToCloseTimeoutSeconds
      = if 0 < runTimeout ∧ runTimeout < d.ScheduleToCloseTimeoutSeconds then runTimeout
        else d.ScheduleToCloseTimeoutSeconds := by
  unfold capActivityTimeouts
  simp only [gt_iff_lt]
  split_ifs <;> (try simp only [] at *) <;> first | rfl | omega

/-- Schedule-to-start after capping. -/
theorem capActivityTimeouts_scheduleToStart (d : ScheduleActivityTaskDecisionAttributes)
    (runTimeout : Int) :
    (capActivityTimeouts d runTimeout).ScheduleToStartTimeoutSeconds
      = if 0 < runTimeout ∧ runTimeout < d.ScheduleToStartTimeoutSeconds then runTimeout
        else d.ScheduleToStartTimeoutSeconds := by
  unfold capActivityTimeouts
  simp only [gt_iff_lt]
  split_ifs <;> (try simp only [] at *) <;> first | rfl | omega

/-- Start-to-close after capping. -/
theorem capActivityTimeouts_startToClose (d : ScheduleActivityTaskDecisionAttributes)
    (runTimeout : Int) :
    (capActivityTimeouts d runTimeout).StartToCloseTimeoutSeconds
      = if 0 < runTimeout ∧ runTimeout < d.StartToCloseTimeoutSeconds then runTimeout
        else d.StartToCloseTimeoutSeconds := by
  unfold capActivityTimeouts
  simp only [gt_iff_lt]
  split_ifs <;> (try simp only [] at *) <;> first | rfl | omega

/-- Heartbeat after capping: capped by the run timeout when that is positive, then by the
capped schedule-to-close. -/
theorem capActivityTimeouts_heartbeat (d : ScheduleActivityTaskDecisionAttributes)
    (runTimeout : Int) :
    (capActivityTimeouts d runTimeout).HeartbeatTimeoutSeconds
      = if (capActivityTimeouts d runTimeout).ScheduleToCloseTimeoutSeconds
            < (if 0 < runTimeout ∧ runTimeout < d.HeartbeatTimeoutSeconds then runTimeout
               else d.HeartbeatTimeoutSeconds)
        then (capActivityTimeouts d runTimeout).ScheduleToCloseTimeoutSeconds
        else (if 0 < runTimeout ∧ runTimeout < d.HeartbeatTimeoutSeconds then runTimeout
              else d.HeartbeatTimeoutSeconds) := by
  rw [capActivityTimeouts_scheduleToClose]
  unfold capActivityTimeouts
  simp only [gt_iff_lt]
  split_ifs <;> (try simp only [] at *) <;> first | rfl | omega

/-- Capping writes nothing but the four timeouts. -/
theorem capActivityTimeouts_rest (d : ScheduleActivityTaskDecisionAttributes)
    (runTimeout : Int) :
    (capActivityTimeouts d runTimeout).ActivityId = d.ActivityId
    ∧ (capActivityTimeouts d runTimeout).ActivityType = d.ActivityType
    ∧ (capActivityTimeouts d runTimeout).Namespace = d.Namespace
    ∧ (capActivityTimeouts d runTimeout).TaskList = d.TaskList
    ∧ (capActivityTimeouts d runTimeout).RetryPolicy = d.RetryPolicy := by
  unfold capActivityTimeouts
  simp only [gt_iff_lt]
  split_ifs <;> exact ⟨rfl, rfl, rfl, rfl, rfl⟩

/-- The deduction of lines 249 to 275 in closed form. -/
theorem deduceActivityTimeouts_eq (a : ScheduleActivityTaskDecisionAttributes)
    (runTimeout : Int) :
    deduceActivityTimeouts a runTimeout =
      if 0 < a.ScheduleToCloseTimeoutSeconds then
        some { a with
          ScheduleToStartTimeoutSeconds :=
            if 0 < a.ScheduleToStartTimeoutSeconds then
              MinInt32 a.ScheduleToStartTimeoutSeconds a.ScheduleToCloseTimeoutSeconds
            else a.ScheduleToCloseTimeoutSeconds
          StartToCloseTimeoutSeconds :=
            if 0 < a.StartToCloseTimeoutSeconds then
              MinInt32 a.StartToCloseTimeoutSeconds a.ScheduleToCloseTimeoutSeconds
            else a.ScheduleToCloseTimeoutSeconds }
      else if 0 < a.StartToCloseTimeoutSeconds then
        some { a with
          ScheduleToCloseTimeoutSeconds := runTimeout
          ScheduleToStartTimeoutSeconds :=
            if 0 < a.ScheduleToStartTimeoutSeconds then a.ScheduleToStartTimeoutSeconds
            else runTimeout }
      else none := by
  unfold deduceActivityTimeouts
  simp only [gt_iff_lt, decide_eq_true_eq, Bool.not_eq_true', decide_eq_false_iff_not]
  split_ifs <;> rfl

/-- A structure is its nine fields. -/
theorem ScheduleActivityTaskDecisionAttributes.eq_of_fields
    (x y : ScheduleActivityTaskDecisionAttributes)
    (h1 : x.ActivityId = y.ActivityId) (h2 : x.ActivityType = y.ActivityType)
    (h3 : x.Namespace = y.Namespace) (h4 : x.TaskList = y.TaskList)
    (h5 : x.ScheduleToCloseTimeoutSeconds = y.ScheduleToCloseTimeoutSeconds)
    (h6 : x.ScheduleToStartTimeoutSeconds = y.ScheduleToStartTimeoutSeconds)
    (h7 : x.StartToCloseTimeoutSeconds = y.StartToCloseTimeoutSeconds)
    (h8 : x.HeartbeatTimeoutSeconds = y.HeartbeatTimeoutSeconds)
    (h9 : x.RetryPolicy = y.RetryPolicy) : x = y := by
  cases x; cases y; simp_all

/-- What deduction yields, field by field. -/
theorem deduceActivityTimeouts_fields (a d : ScheduleActivityTaskDecisionAttributes)
    (runTimeout : Int) (hd : deduceActivityTimeouts a runTimeout = some d) :
    d.ActivityId = a.ActivityId ∧ d.ActivityType = a.ActivityType
    ∧ d.Namespace = a.Namespace ∧ d.TaskList = a.TaskList ∧ d.RetryPolicy = a.RetryPolicy
    ∧ d.HeartbeatTimeoutSeconds = a.HeartbeatTimeoutSeconds
    ∧ ((0 < a.ScheduleToCloseTimeoutSeconds
        ∧ d.ScheduleToCloseTimeoutSeconds = a.ScheduleToCloseTimeoutSeconds
        ∧ d.ScheduleToStartTimeoutSeconds =
            (if 0 < a.ScheduleToStartTimeoutSeconds then
              MinInt32 a.ScheduleToStartTimeoutSeconds a.ScheduleToCloseTimeoutSeconds
            else a.ScheduleToCloseTimeoutSeconds)
        ∧ d.StartToCloseTimeoutSeconds =
            (if 0 < a.StartToCloseTimeoutSeconds then
              MinInt32 a.StartToCloseTimeoutSeconds a.ScheduleToCloseTimeoutSeconds
            else a.ScheduleToCloseTimeoutSeconds))
      ∨ (¬ 0 < a.ScheduleToCloseTimeoutSeconds ∧ 0 < a.StartToCloseTimeoutSeconds
        ∧ d.ScheduleToCloseTimeoutSeconds = runTimeout
        ∧ d.ScheduleToStartTimeoutSeconds =
            (if 0 < a.ScheduleToStartTimeoutSeconds then a.ScheduleToStartTimeoutSeconds
            else runTimeout)
        ∧ d.StartToCloseTimeoutSeconds = a.StartToCloseTimeoutSeconds)) := by
  rw [deduceActivityTimeouts_eq] at hd
  by_cases h1 : 0 < a.ScheduleToCloseTimeoutSeconds
  · rw [if_pos h1, Option.some.injEq] at hd
    subst hd
    exact ⟨rfl, rfl, rfl, rfl, rfl, rfl, Or.inl ⟨h1, rfl, rfl, rfl⟩⟩
  · rw [if_neg h1] at hd
    by_cases h2 : 0 < a.StartToCloseTimeoutSeconds
    · rw [if_pos h2, Option.some.injEq] at hd
      subst hd
      exact ⟨rfl, rfl, rfl, rfl, rfl, rfl, Or.inr ⟨h1, h2, rfl, rfl, rfl⟩⟩
    · rw [if_neg h2] at hd
      cases hd

/-- An integer given by a conditional, as two implications. -/
theorem ite_int_cases {p : Prop} [Decidable p] {x y z : Int} (h : z = if p then x else y) :
    (p → z = x) ∧ (¬ p → z = y) := by
  split_ifs at h with hp
  · exact ⟨fun _ => h, fun hn => absurd hp hn⟩
  · exact ⟨fun hq => absurd hq hp, fun _ => h⟩

/-- The function `MinInt32` is the minimum. -/
theorem MinInt32_eq_min (a b : Int) : MinInt32 a b = min a b := by
  unfold MinInt32
  split_ifs <;> omega

/-- Everything the properties below need about the four timeouts of an accepted decision:
`a` is what was given, `d` what deduction made of it, and the result is `d` capped. -/
theorem capActivityTimeouts_deduced (a d : ScheduleActivityTaskDecisionAttributes)
    (runTimeout : Int) (hn : activityTimeoutsNonNegative a)
    (hd : deduceActivityTimeouts a runTimeout = some d) :
    (capActivityTimeouts d runTimeout).HeartbeatTimeoutSeconds
        ≤ (capActivityTimeouts d runTimeout).ScheduleToCloseTimeoutSeconds
    ∧ (0 < runTimeout →
        (capActivityTimeouts d runTimeout).ScheduleToCloseTimeoutSeconds ≤ runTimeout
        ∧ (capActivityTimeouts d runTimeout).ScheduleToStartTimeoutSeconds ≤ runTimeout
        ∧ (capActivityTimeouts d runTimeout).StartToCloseTimeoutSeconds ≤ runTimeout
        ∧ (capActivityTimeouts d runTimeout).HeartbeatTimeoutSeconds ≤ runTimeout)
    ∧ (0 < a.ScheduleToCloseTimeoutSeconds →
        0 < (capActivityTimeouts d runTimeout).ScheduleToStartTimeoutSeconds
        ∧ (capActivityTimeouts d runTimeout).ScheduleToStartTimeoutSeconds
            ≤ (capActivityTimeouts d runTimeout).ScheduleToCloseTimeoutSeconds
        ∧ 0 < (capActivityTimeouts d runTimeout).StartToCloseTimeoutSeconds
        ∧ (capActivityTimeouts d runTimeout).StartToCloseTimeoutSeconds
            ≤ (capActivityTimeouts d runTimeout).ScheduleToCloseTimeoutSeconds
        ∧ (a.ScheduleToStartTimeoutSeconds = 0 →
            (capActivityTimeouts d runTimeout).ScheduleToStartTimeoutSeconds
              = (capActivityTimeouts d runTimeout).ScheduleToCloseTimeoutSeconds)
        ∧ (a.StartToCloseTimeoutSeconds = 0 →
            (capActivityTimeouts d runTimeout).StartToCloseTimeoutSeconds
              = (capActivityTimeouts d runTimeout).ScheduleToCloseTimeoutSeconds)
        ∧ (0 < runTimeout → (capActivityTimeouts d runTimeout).ScheduleToCloseTimeoutSeconds
              = min a.ScheduleToCloseTimeoutSeconds runTimeout)
        ∧ (runTimeout ≤ 0 → (capActivityTimeouts d runTimeout).ScheduleToCloseTimeoutSeconds
              = a.ScheduleToCloseTimeoutSeconds))
    ∧ (a.ScheduleToCloseTimeoutSeconds = 0 →
        0 < a.StartToCloseTimeoutSeconds
        ∧ (capActivityTimeouts d runTimeout).ScheduleToCloseTimeoutSeconds = runTimeout
        ∧ (a.ScheduleToStartTimeoutSeconds = 0 →
            (capActivityTimeouts d runTimeout).ScheduleToStartTimeoutSeconds = runTimeout))
    ∧ (0 ≤ runTimeout →
        0 ≤ (capActivityTimeouts d runTimeout).ScheduleToStartTimeoutSeconds
        ∧ 0 ≤ (capActivityTimeouts d runTimeout).HeartbeatTimeoutSeconds
        ∧ 0 < (capActivityTimeouts d runTimeout).StartToCloseTimeoutSeconds
        ∧ (0 < (capActivityTimeouts d runTimeout).ScheduleToCloseTimeoutSeconds →
            0 < (capActivityTimeouts d runTimeout).ScheduleToStartTimeoutSeconds
            ∧ (capActivityTimeouts d runTimeout).ScheduleToStartTimeoutSeconds
                ≤ (capActivityTimeouts d runTimeout).ScheduleToCloseTimeoutSeconds
            ∧ (capActivityTimeouts d runTimeout).StartToCloseTimeoutSeconds
                ≤ (capActivityTimeouts d runTimeout).ScheduleToCloseTimeoutSeconds)
        ∧ (¬ 0 < (capActivityTimeouts d runTimeout).ScheduleToCloseTimeoutSeconds →
            (capActivityTimeouts d runTimeout).ScheduleToCloseTimeoutSeconds = runTimeout)) := by
  obtain ⟨n1, n2, n3, n4⟩ := hn
  obtain ⟨-, -, -, -, -, e6, e789⟩ := deduceActivityTimeouts_fields a d runTimeout hd
  have c1 := capActivityTimeouts_scheduleToClose d runTimeout
  have c2 := capActivityTimeouts_scheduleToStart d runTimeout
  have c3 := capActivityTimeouts_startToClose d runTimeout
  have c4 := capActivityTimeouts_heartbeat d runTimeout
  have tomin : ∀ x y : Int, (if y < x then y else x) = min x y := by
    intro x y
    split_ifs <;> omega
  generalize (capActivityTimeouts d runTimeout).ScheduleToCloseTimeoutSeconds = rc at *
  generalize (capActivityTimeouts d runTimeout).ScheduleToStartTimeoutSeconds = rs at *
  generalize (capActivityTimeouts d runTimeout).StartToCloseTimeoutSeconds = rt at *
  generalize (capActivityTimeouts d runTimeout).HeartbeatTimeoutSeconds = rh at *
  by_cases hrt : 0 < runTimeout
  · simp only [hrt, true_and, tomin] at c1 c2 c3 c4
    rcases e789 with ⟨p, e7, e8, e9⟩ | ⟨p, q, e7, e8, e9⟩
    · by_cases ps : 0 < a.ScheduleToStartTimeoutSeconds <;>
        by_cases pt : 0 < a.StartToCloseTimeoutSeconds <;>
        simp only [ps, pt, if_true, if_false, MinInt32_eq_min] at e8 e9 <;>
        rw [e7] at c1 <;> rw [e8] at c2 <;> rw [e9] at c3 <;> rw [e6] at c4 <;>
        subst c4 c1 c2 c3 <;>
        refine ⟨?_, fun _ => ⟨?_, ?_, ?_, ?_⟩,
          fun _ => ⟨?_, ?_, ?_, ?_, fun _ => ?_, fun _ => ?_, fun _ => ?_, fun _ => ?_⟩,
          fun _ => ⟨?_, ?_, fun _ => ?_⟩,
          fun _ => ⟨?_, ?_, ?_, fun _ => ⟨?_, ?_, ?_⟩, fun _ => ?_⟩⟩ <;> omega
    · by_cases ps : 0 < a.ScheduleToStartTimeoutSeconds <;>
        simp only [ps, if_true, if_false] at e8 <;>
        rw [e7] at c1 <;> rw [e8] at c2 <;> rw [e9] at c3 <;> rw [e6] at c4 <;>
        subst c4 c1 c2 c3 <;>
        refine ⟨?_, fun _ => ⟨?_, ?_, ?_, ?_⟩,
          fun _ => ⟨?_, ?_, ?_, ?_, fun _ => ?_, fun _ => ?_, fun _ => ?_, fun _ => ?_⟩,
          fun _ => ⟨?_, ?_, fun _ => ?_⟩,
          fun _ => ⟨?_, ?_, ?_, fun _ => ⟨?_, ?_, ?_⟩, fun _ => ?_⟩⟩ <;> omega
  · simp only [hrt, false_and, if_false, tomin] at c1 c2 c3 c4
    rcases e789 with ⟨p, e7, e8, e9⟩ | ⟨p, q, e7, e8, e9⟩
    · by_cases ps : 0 < a.ScheduleToStartTimeoutSeconds <;>
        by_cases pt : 0 < a.StartToCloseTimeoutSeconds <;>
        simp only [ps, pt, if_true, if_false, MinInt32_eq_min] at e8 e9 <;>
        rw [e7] at c1 <;> rw [e8] at c2 <;> rw [e9] at c3 <;> rw [e6] at c4 <;>
        subst c4 c1 c2 c3 <;>
        refine ⟨?_, fun _ => ⟨?_, ?_, ?_, ?_⟩,
          fun _ => ⟨?_, ?_, ?_, ?_, fun _ => ?_, fun _ => ?_, fun _ => ?_, fun _ => ?_⟩,
          fun _ => ⟨?_, ?_, fun _ => ?_⟩,
          fun _ => ⟨?_, ?_, ?_, fun _ => ⟨?_, ?_, ?_⟩, fun _ => ?_⟩⟩ <;> omega
    · by_cases ps : 0 < a.ScheduleToStartTimeoutSeconds <;>
        simp only [ps, if_true, if_false] at e8 <;>
        rw [e7] at c1 <;> rw [e8] at c2 <;> rw [e9] at c3 <;> rw [e6] at c4 <;>
        subst c4 c1 c2 c3 <;>
        refine ⟨?_, fun _ => ⟨?_, ?_, ?_, ?_⟩,
          fun _ => ⟨?_, ?_, ?_, ?_, fun _ => ?_, fun _ => ?_, fun _ => ?_, fun _ => ?_⟩,
          fun _ => ⟨?_, ?_, fun _ => ?_⟩,
          fun _ => ⟨?_, ?_, ?_, fun _ => ⟨?_, ?_, ?_⟩, fun _ => ?_⟩⟩ <;> omega

/-- The structural checks read the attributes only through the fields that deduction and
capping leave alone. -/
theorem activityStructureOk_congr (v : decisionAttrValidator)
    (namespaceID targetNamespaceID : String) (x y : ScheduleActivityTaskDecisionAttributes)
    (h1 : x.ActivityId = y.ActivityId) (h2 : x.ActivityType = y.ActivityType)
    (h3 : x.Namespace = y.Namespace) (h4 : x.TaskList = y.TaskList)
    (h9 : x.RetryPolicy = y.RetryPolicy)
    (hy : activityStructureOk v namespaceID targetNamespaceID y) :
    activityStructureOk v namespaceID targetNamespaceID x := by
  unfold activityStructureOk ScheduleActivityTaskDecisionAttributes.activityTypeName at *
  rw [h1, h2, h3, h4, h9]
  exact hy

/-- Attributes whose timeouts are already filled and capped are a fixed point of deduction
and of capping. -/
theorem capActivityTimeouts_fixed (r : ScheduleActivityTaskDecisionAttributes)
    (runTimeout : Int)
    (f1 : 0 ≤ r.ScheduleToStartTimeoutSeconds) (f2 : 0 ≤ r.HeartbeatTimeoutSeconds)
    (f3 : r.HeartbeatTimeoutSeconds ≤ r.ScheduleToCloseTimeoutSeconds)
    (f4 : 0 < r.StartToCloseTimeoutSeconds)
    (f5 : 0 < runTimeout → r.ScheduleToCloseTimeoutSeconds ≤ runTimeout
      ∧ r.ScheduleToStartTimeoutSeconds ≤ runTimeout
      ∧ r.StartToCloseTimeoutSeconds ≤ runTimeout)
    (f6 : 0 < r.ScheduleToCloseTimeoutSeconds →
      0 < r.ScheduleToStartTimeoutSeconds
      ∧ r.ScheduleToStartTimeoutSeconds ≤ r.ScheduleToCloseTimeoutSeconds
      ∧ r.StartToCloseTimeoutSeconds ≤ r.ScheduleToCloseTimeoutSeconds)
    (f7 : ¬ 0 < r.ScheduleToCloseTimeoutSeconds → r.ScheduleToCloseTimeoutSeconds = runTimeout) :
    deduceActivityTimeouts r runTimeout = some r ∧ capActivityTimeouts r runTimeout = r := by
  constructor
  · rw [deduceActivityTimeouts_eq]
    by_cases p : 0 < r.ScheduleToCloseTimeoutSeconds
    · obtain ⟨g1, g2, g3⟩ := f6 p
      rw [if_pos p, if_pos g1, if_pos f4, MinInt32_eq_min, MinInt32_eq_min,
        min_eq_left g2, min_eq_left g3]
    · have g := f7 p
      rw [if_neg p, if_pos f4, Option.some.injEq]
      apply ScheduleActivityTaskDecisionAttributes.eq_of_fields <;> try rfl
      · exact g.symm
      · show (if 0 < r.ScheduleToStartTimeoutSeconds then r.ScheduleToStartTimeoutSeconds
          else runTimeout) = r.ScheduleToStartTimeoutSeconds
        split_ifs <;> omega
  · obtain ⟨q1, q2, q3, q4, q5⟩ := capActivityTimeouts_rest r runTimeout
    have c1 := capActivityTimeouts_scheduleToClose r runTimeout
    have c2 := capActivityTimeouts_scheduleToStart r runTimeout
    have c3 := capActivityTimeouts_startToClose r runTimeout
    have c4 := capActivityTimeouts_heartbeat r runTimeout
    have d1 : (capActivityTimeouts r runTimeout).ScheduleToCloseTimeoutSeconds
        = r.ScheduleToCloseTimeoutSeconds := by
      rw [c1]; split_ifs <;> omega
    have d2 : (capActivityTimeouts r runTimeout).ScheduleToStartTimeoutSeconds
        = r.ScheduleToStartTimeoutSeconds := by
      rw [c2]; split_ifs <;> omega
    have d3 : (capActivityTimeouts r runTimeout).StartToCloseTimeoutSeconds
        = r.StartToCloseTimeoutSeconds := by
      rw [c3]; split_ifs <;> omega
    have d4 : (capActivityTimeouts r runTimeout).HeartbeatTimeoutSeconds
        = r.HeartbeatTimeoutSeconds := by
      rw [c4, d1]; split_ifs <;> omega
    exact ScheduleActivityTaskDecisionAttributes.eq_of_fields _ _ q1 q2 q3 q4 d1 d2 d3 d4 q5

/-- Every error `ValidateRetryPolicy` returns is an InvalidArgument. -/
theorem ValidateRetryPolicy_invalidArgument (policy : Option RetryPolicy) (err : GoError)
    (h : ValidateRetryPolicy policy = some err) : ∃ message, err = .InvalidArgument message := by
  unfold ValidateRetryPolicy at h
  split at h
  · cases h
  · split_ifs at h <;> simp only [Option.some.injEq] at h <;> exact ⟨_, h.symm⟩

/-- Every error `validatedTaskList` returns is an InvalidArgument. -/
theorem validatedTaskList_invalidArgument (v : decisionAttrValidator)
    (taskList : Option TaskList) (defaultVal : String) (err : GoError)
    (h : (validatedTaskList v taskList defaultVal).2 = some err) :
    ∃ message, err = .InvalidArgument message := by
  unfold validatedTaskList at h
  simp only at h
  split_ifs at h <;> simp only [Option.some.injEq] at h <;> exact ⟨_, h.symm⟩

/-- C2: once the cross-namespace check has passed, `validateActivityScheduleAttributes`
rejects with an InvalidArgument error every attribute set in which neither schedule-to-close
nor start-to-close is positive, whatever the other timeouts and the run timeout are. -/
theorem validateActivityScheduleAttributes_rejects_undeducible (v : decisionAttrValidator)
    (namespaceID targetNamespaceID : String)
    (attributes : ScheduleActivityTaskDecisionAttributes) (runTimeout : Int)
    (hc : validateCrossNamespaceCall v namespaceID targetNamespaceID = none)
    (h1 : ¬ 0 < attributes.ScheduleToCloseTimeoutSeconds)
    (h2 : ¬ 0 < attributes.StartToCloseTimeoutSeconds) :
    ∃ message, (validateActivityScheduleAttributes v namespaceID targetNamespaceID
      (some attributes) runTimeout).1 = some (.InvalidArgument message) := by
  have hd : deduceActivityTimeouts attributes runTimeout = none := by
    rw [deduceActivityTimeouts_eq, if_neg h1, if_neg h2]
  unfold validateActivityScheduleAttributes
  simp only [hc, hd]
  cases ht : (validatedTaskList v attributes.TaskList "").2 with
  | some err =>
    obtain ⟨m, rfl⟩ := validatedTaskList_invalidArgument v _ _ err ht
    exact ⟨m, rfl⟩
  | none =>
    cases hr : ValidateRetryPolicy attributes.RetryPolicy with
    | some err =>
      obtain ⟨m, rfl⟩ := ValidateRetryPolicy_invalidArgument _ err hr
      simp only
      split_ifs <;> exact ⟨_, rfl⟩
    | none =>
      simp only
      split_ifs <;> exact ⟨_, rfl⟩

/-- C2 at the input of the spec: schedule-to-close 0, schedule-to-start 5, start-to-close 0
is rejected with InvalidArgument. -/
theorem validateActivityScheduleAttributes_rejects_undeducible_witness :
    validateCrossNamespaceCall twoLocalNamespaces "ns-a" "ns-a" = none
    ∧ ¬ 0 < (activityWithTimeouts 0 5 0 0).ScheduleToCloseTimeoutSeconds
    ∧ ¬ 0 < (activityWithTimeouts 0 5 0 0).StartToCloseTimeoutSeconds
    ∧ ∃ message, (validateActivityScheduleAttributes twoLocalNamespaces "ns-a" "ns-a"
      (some (activityWithTimeouts 0 5 0 0)) 10).1 = some (.InvalidArgument message) :=
  ⟨by decide, by decide, by decide,
    validateActivityScheduleAttributes_rejects_undeducible twoLocalNamespaces "ns-a" "ns-a"
      (activityWithTimeouts 0 5 0 0) 10 (by decide) (by decide) (by decide)⟩

/-- C3, as stated, fails: with a run timeout of 0 the decision with schedule-to-close 10,
schedule-to-start 5, start-to-close 8 and heartbeat 3 is accepted unchanged, and each of its
timeouts is larger than the run timeout. -/
theorem validateActivityScheduleAttributes_uncapped_at_zero :
    validateActivityScheduleAttributes twoLocalNamespaces "ns-a" "ns-a"
        (some (activityWithTimeouts 10 5 8 3)) 0
      = (none, some (activityWithTimeouts 10 5 8 3))
    ∧ ¬ (activityWithTimeouts 10 5 8 3).ScheduleToCloseTimeoutSeconds ≤ 0
    ∧ ¬ (activityWithTimeouts 10 5 8 3).ScheduleToStartTimeoutSeconds ≤ 0
    ∧ ¬ (activityWithTimeouts 10 5 8 3).StartToCloseTimeoutSeconds ≤ 0
    ∧ ¬ (activityWithTimeouts 10 5 8 3).HeartbeatTimeoutSeconds ≤ 0 := by
  decide

/-- C3, amended: for every input that `validateActivityScheduleAttributes` accepts with a
positive workflow run timeout, each of the resulting schedule-to-close, schedule-to-start,
start-to-close and heartbeat timeouts is at most that run timeout. -/
theorem validateActivityScheduleAttributes_capped (v : decisionAttrValidator)
    (namespaceID targetNamespaceID : String)
    (attributes : Option ScheduleActivityTaskDecisionAttributes) (runTimeout : Int)
    (hrt : 0 < runTimeout)
    (h : (validateActivityScheduleAttributes v namespaceID targetNamespaceID attributes
      runTimeout).1 = none) :
    ∃ r, (validateActivityScheduleAttributes v namespaceID targetNamespaceID attributes
        runTimeout).2 = some r
      ∧ r.ScheduleToCloseTimeoutSeconds ≤ runTimeout
      ∧ r.ScheduleToStartTimeoutSeconds ≤ runTimeout
      ∧ r.StartToCloseTimeoutSeconds ≤ runTimeout
      ∧ r.HeartbeatTimeoutSeconds ≤ runTimeout := by
  obtain ⟨a, d, -, -, hn, hd, heq⟩ :=
    validateActivityScheduleAttributes_accepted v namespaceID targetNamespaceID attributes
      runTimeout h
  rw [heq]
  exact ⟨_, rfl, (capActivityTimeouts_deduced a d runTimeout hn hd).2.1 hrt⟩

/-- The amended C3 at a concrete input: with a run timeout of 6 the timeouts 10, 5, 8, 3
come back as 6, 5, 6, 3. -/
theorem validateActivityScheduleAttributes_capped_witness :
    (0 : Int) < 6
    ∧ (validateActivityScheduleAttributes twoLocalNamespaces "ns-a" "ns-a"
        (some (activityWithTimeouts 10 5 8 3)) 6).1 = none
    ∧ (validateActivityScheduleAttributes twoLocalNamespaces "ns-a" "ns-a"
        (some (activityWithTimeouts 10 5 8 3)) 6).2 = some (activityWithTimeouts 6 5 6 3)
    ∧ ∃ r, (validateActivityScheduleAttributes twoLocalNamespaces "ns-a" "ns-a"
        (some (activityWithTimeouts 10 5 8 3)) 6).2 = some r
      ∧ r.ScheduleToCloseTimeoutSeconds ≤ 6
      ∧ r.ScheduleToStartTimeoutSeconds ≤ 6
      ∧ r.StartToCloseTimeoutSeconds ≤ 6
      ∧ r.HeartbeatTimeoutSeconds ≤ 6 :=
  ⟨by decide, by decide, by decide,
    validateActivityScheduleAttributes_capped twoLocalNamespaces "ns-a" "ns-a"
      (some (activityWithTimeouts 10 5 8 3)) 6 (by decide) (by decide)⟩

/-- C4: for every input that `validateActivityScheduleAttributes` accepts, the resulting
heartbeat timeout is at most the resulting schedule-to-close timeout. -/
theorem validateActivityScheduleAttributes_heartbeat_le (v : decisionAttrValidator)
    (namespaceID targetNamespaceID : String)
    (attributes : Option ScheduleActivityTaskDecisionAttributes) (runTimeout : Int)
    (h : (validateActivityScheduleAttributes v namespaceID targetNamespaceID attributes
      runTimeout).1 = none) :
    ∃ r, (validateActivityScheduleAttributes v namespaceID targetNamespaceID attributes
        runTimeout).2 = some r
      ∧ r.HeartbeatTimeoutSeconds ≤ r.ScheduleToCloseTimeoutSeconds := by
  obtain ⟨a, d, -, -, hn, hd, heq⟩ :=
    validateActivityScheduleAttributes_accepted v namespaceID targetNamespaceID attributes
      runTimeout h
  rw [heq]
  exact ⟨_, rfl, (capActivityTimeouts_deduced a d runTimeout hn hd).1⟩

/-- C4 at a concrete input: a heartbeat of 30 with schedule-to-close 10 comes back as 10. -/
theorem validateActivityScheduleAttributes_heartbeat_le_witness :
    (validateActivityScheduleAttributes twoLocalNamespaces "ns-a" "ns-a"
        (some (activityWithTimeouts 10 5 8 30)) 0).1 = none
    ∧ (validateActivityScheduleAttributes twoLocalNamespaces "ns-a" "ns-a"
        (some (activityWithTimeouts 10 5 8 30)) 0).2 = some (activityWithTimeouts 10 5 8 10)
    ∧ ∃ r, (validateActivityScheduleAttributes twoLocalNamespaces "ns-a" "ns-a"
        (some (activityWithTimeouts 10 5 8 30)) 0).2 = some r
      ∧ r.HeartbeatTimeoutSeconds ≤ r.ScheduleToCloseTimeoutSeconds :=
  ⟨by decide, by decide,
    validateActivityScheduleAttributes_heartbeat_le twoLocalNamespaces "ns-a" "ns-a"
      (some (activityWithTimeouts 10 5 8 30)) 0 (by decide)⟩

/-- C5: for every input that `validateActivityScheduleAttributes` accepts and whose given
schedule-to-close is positive, the resulting schedule-to-start and start-to-close are both
positive and each at most the resulting schedule-to-close, which is the given one capped by
a positive run timeout; a schedule-to-start or start-to-close given as zero comes back equal
to the resulting schedule-to-close. -/
theorem validateActivityScheduleAttributes_bounded_by_scheduleToClose
    (v : decisionAttrValidator) (namespaceID targetNamespaceID : String)
    (a : ScheduleActivityTaskDecisionAttributes) (runTimeout : Int)
    (hpos : 0 < a.ScheduleToCloseTimeoutSeconds)
    (h : (validateActivityScheduleAttributes v namespaceID targetNamespaceID (some a)
      runTimeout).1 = none) :
    ∃ r, (validateActivityScheduleAttributes v namespaceID targetNamespaceID (some a)
        runTimeout).2 = some r
      ∧ 0 < r.ScheduleToStartTimeoutSeconds
      ∧ r.ScheduleToStartTimeoutSeconds ≤ r.ScheduleToCloseTimeoutSeconds
      ∧ 0 < r.StartToCloseTimeoutSeconds
      ∧ r.StartToCloseTimeoutSeconds ≤ r.ScheduleToCloseTimeoutSeconds
      ∧ (a.ScheduleToStartTimeoutSeconds = 0 →
          r.ScheduleToStartTimeoutSeconds = r.ScheduleToCloseTimeoutSeconds)
      ∧ (a.StartToCloseTimeoutSeconds = 0 →
          r.StartToCloseTimeoutSeconds = r.ScheduleToCloseTimeoutSeconds)
      ∧ (0 < runTimeout →
          r.ScheduleToCloseTimeoutSeconds = min a.ScheduleToCloseTimeoutSeconds runTimeout)
      ∧ (runTimeout ≤ 0 →
          r.ScheduleToCloseTimeoutSeconds = a.ScheduleToCloseTimeoutSeconds) := by
  obtain ⟨a', d, ha, -, hn, hd, heq⟩ :=
    validateActivityScheduleAttributes_accepted v namespaceID targetNamespaceID (some a)
      runTimeout h
  cases ha
  rw [heq]
  exact ⟨_, rfl, (capActivityTimeouts_deduced a d runTimeout hn hd).2.2.1 hpos⟩

/-- C5 at a concrete input: schedule-to-close 10 with the other timeouts left at zero and a
run timeout of 6 comes back as 6, 6, 6, 0. -/
theorem validateActivityScheduleAttributes_bounded_by_scheduleToClose_witness :
    0 < (activityWithTimeouts 10 0 0 0).ScheduleToCloseTimeoutSeconds
    ∧ (validateActivityScheduleAttributes twoLocalNamespaces "ns-a" "ns-a"
        (some (activityWithTimeouts 10 0 0 0)) 6).2 = some (activityWithTimeouts 6 6 6 0)
    ∧ ∃ r, (validateActivityScheduleAttributes twoLocalNamespaces "ns-a" "ns-a"
        (some (activityWithTimeouts 10 0 0 0)) 6).2 = some r
      ∧ 0 < r.ScheduleToStartTimeoutSeconds
      ∧ r.ScheduleToStartTimeoutSeconds ≤ r.ScheduleToCloseTimeoutSeconds
      ∧ 0 < r.StartToCloseTimeoutSeconds
      ∧ r.StartToCloseTimeoutSeconds ≤ r.ScheduleToCloseTimeoutSeconds
      ∧ ((activityWithTimeouts 10 0 0 0).ScheduleToStartTimeoutSeconds = 0 →
          r.ScheduleToStartTimeoutSeconds = r.ScheduleToCloseTimeoutSeconds)
      ∧ ((activityWithTimeouts 10 0 0 0).StartToCloseTimeoutSeconds = 0 →
          r.StartToCloseTimeoutSeconds = r.ScheduleToCloseTimeoutSeconds)
      ∧ ((0 : Int) < 6 → r.ScheduleToCloseTimeoutSeconds
          = min (activityWithTimeouts 10 0 0 0).ScheduleToCloseTimeoutSeconds 6)
      ∧ ((6 : Int) ≤ 0 → r.ScheduleToCloseTimeoutSeconds
          = (activityWithTimeouts 10 0 0 0).ScheduleToCloseTimeoutSeconds) :=
  ⟨by decide, by decide,
    validateActivityScheduleAttributes_bounded_by_scheduleToClose twoLocalNamespaces
      "ns-a" "ns-a" (activityWithTimeouts 10 0 0 0) 6 (by decide) (by decide)⟩

/-- C6: for every input that `validateActivityScheduleAttributes` accepts and whose given
schedule-to-close is zero while start-to-close is positive, the resulting schedule-to-close
equals the workflow run timeout, and a schedule-to-start given as zero also becomes the run
timeout. -/
theorem validateActivityScheduleAttributes_defaults_to_runTimeout
    (v : decisionAttrValidator) (namespaceID targetNamespaceID : String)
    (a : ScheduleActivityTaskDecisionAttributes) (runTimeout : Int)
    (hzero : a.ScheduleToCloseTimeoutSeconds = 0)
    (_hpos : 0 < a.StartToCloseTimeoutSeconds)
    (h : (validateActivityScheduleAttributes v namespaceID targetNamespaceID (some a)
      runTimeout).1 = none) :
    ∃ r, (validateActivityScheduleAttributes v namespaceID targetNamespaceID (some a)
        runTimeout).2 = some r
      ∧ r.ScheduleToCloseTimeoutSeconds = runTimeout
      ∧ (a.ScheduleToStartTimeoutSeconds = 0 →
          r.ScheduleToStartTimeoutSeconds = runTimeout) := by
  obtain ⟨a', d, ha, -, hn, hd, heq⟩ :=
    validateActivityScheduleAttributes_accepted v namespaceID targetNamespaceID (some a)
      runTimeout h
  cases ha
  rw [heq]
  exact ⟨_, rfl, ((capActivityTimeouts_deduced a d runTimeout hn hd).2.2.2.1 hzero).2⟩

/-- C6 at a concrete input: only start-to-close 5 given, run timeout 60: schedule-to-close
and schedule-to-start come back as 60. -/
theorem validateActivityScheduleAttributes_defaults_to_runTimeout_witness :
    (activityWithTimeouts 0 0 5 0).ScheduleToCloseTimeoutSeconds = 0
    ∧ 0 < (activityWithTimeouts 0 0 5 0).StartToCloseTimeoutSeconds
    ∧ (validateActivityScheduleAttributes twoLocalNamespaces "ns-a" "ns-a"
        (some (activityWithTimeouts 0 0 5 0)) 60).2 = some (activityWithTimeouts 60 60 5 0)
    ∧ ∃ r, (validateActivityScheduleAttributes twoLocalNamespaces "ns-a" "ns-a"
        (some (activityWithTimeouts 0 0 5 0)) 60).2 = some r
      ∧ r.ScheduleToCloseTimeoutSeconds = 60
      ∧ ((activityWithTimeouts 0 0 5 0).ScheduleToStartTimeoutSeconds = 0 →
          r.ScheduleToStartTimeoutSeconds = 60) :=
  ⟨by decide, by decide, by decide,
    validateActivityScheduleAttributes_defaults_to_runTimeout twoLocalNamespaces
      "ns-a" "ns-a" (activityWithTimeouts 0 0 5 0) 60 (by decide) (by decide) (by decide)⟩

/-- C7: `validateActivityScheduleAttributes` returns an error for every attribute set whose
activity id is empty, whose activity type is missing or has an empty name, or in which one
of the four timeouts is negative. -/
theorem validateActivityScheduleAttributes_rejects_malformed
    (v : decisionAttrValidator) (namespaceID targetNamespaceID : String)
    (a : ScheduleActivityTaskDecisionAttributes) (runTimeout : Int)
    (hbad : a.ActivityId = ""
      ∨ a.ActivityType = none
      ∨ a.ActivityType = some { Name := "" }
      ∨ a.ScheduleToCloseTimeoutSeconds < 0
      ∨ a.ScheduleToStartTimeoutSeconds < 0
      ∨ a.StartToCloseTimeoutSeconds < 0
      ∨ a.HeartbeatTimeoutSeconds < 0) :
    (validateActivityScheduleAttributes v namespaceID targetNamespaceID (some a)
      runTimeout).1 ≠ none := by
  intro h
  obtain ⟨a', d, ha, hs, hn, -, -⟩ :=
    validateActivityScheduleAttributes_accepted v namespaceID targetNamespaceID (some a)
      runTimeout h
  cases ha
  obtain ⟨-, -, s1, s2, s3, -⟩ := hs
  obtain ⟨n1, n2, n3, n4⟩ := hn
  rcases hbad with b | b | b | b | b | b | b
  · exact s1 b
  · exact s2 b
  · apply s3
    unfold ScheduleActivityTaskDecisionAttributes.activityTypeName
    rw [b]
  · omega
  · omega
  · omega
  · omega

/-- C7 at a concrete input: a heartbeat of -1 is rejected. -/
theorem validateActivityScheduleAttributes_rejects_malformed_witness :
    (validateActivityScheduleAttributes twoLocalNamespaces "ns-a" "ns-a"
      (some (activityWithTimeouts 10 5 8 (-1))) 60).1 ≠ none :=
  validateActivityScheduleAttributes_rejects_malformed twoLocalNamespaces "ns-a" "ns-a"
    (activityWithTimeouts 10 5 8 (-1)) 60
    (Or.inr (Or.inr (Or.inr (Or.inr (Or.inr (Or.inr (by decide)))))))

/-- C8, as stated, fails: with a run timeout of -1 the decision with only start-to-close 5
given is accepted and comes back with schedule-to-close, schedule-to-start and heartbeat
-1; validating that result again with the same arguments is rejected. -/
theorem validateActivityScheduleAttributes_not_idempotent_negative_runTimeout :
    validateActivityScheduleAttributes twoLocalNamespaces "ns-a" "ns-a"
        (some (activityWithTimeouts 0 0 5 0)) (-1)
      = (none, some (activityWithTimeouts (-1) (-1) 5 (-1)))
    ∧ (validateActivityScheduleAttributes twoLocalNamespaces "ns-a" "ns-a"
        (some (activityWithTimeouts (-1) (-1) 5 (-1))) (-1)).1
      = some (.InvalidArgument "A valid timeout may not be negative.") := by
  decide

/-- C8, amended: for every namespace pair, every run timeout that is not negative and every
attribute set that `validateActivityScheduleAttributes` accepts, validating the resulting
attributes again with the same arguments is accepted and leaves them unchanged. -/
theorem validateActivityScheduleAttributes_idempotent
    (v : decisionAttrValidator) (namespaceID targetNamespaceID : String)
    (attributes : Option ScheduleActivityTaskDecisionAttributes) (runTimeout : Int)
    (hrt : 0 ≤ runTimeout)
    (h : (validateActivityScheduleAttributes v namespaceID targetNamespaceID attributes
      runTimeout).1 = none) :
    ∃ r, validateActivityScheduleAttributes v namespaceID targetNamespaceID attributes
        runTimeout = (none, some r)
      ∧ validateActivityScheduleAttributes v namespaceID targetNamespaceID (some r)
        runTimeout = (none, some r) := by
  obtain ⟨a, d, -, hs, hn, hd, heq⟩ :=
    validateActivityScheduleAttributes_accepted v namespaceID targetNamespaceID attributes
      runTimeout h
  refine ⟨capActivityTimeouts d runTimeout, heq, ?_⟩
  obtain ⟨q1, q2, q3, q4, q5⟩ := capActivityTimeouts_rest d runTimeout
  obtain ⟨e1, e2, e3, e4, e5, -, -⟩ := deduceActivityTimeouts_fields a d runTimeout hd
  obtain ⟨k1, k2, -, -, k5⟩ := capActivityTimeouts_deduced a d runTimeout hn hd
  obtain ⟨m1, m2, m3, m4, m5⟩ := k5 hrt
  have hs' : activityStructureOk v namespaceID targetNamespaceID
      (capActivityTimeouts d runTimeout) :=
    activityStructureOk_congr v namespaceID targetNamespaceID _ a
      (q1.trans e1) (q2.trans e2) (q3.trans e3) (q4.trans e4) (q5.trans e5) hs
  have hn' : activityTimeoutsNonNegative (capActivityTimeouts d runTimeout) := by
    unfold activityTimeoutsNonNegative
    refine ⟨?_, m1, ?_, m2⟩ <;> omega
  obtain ⟨fd, fc⟩ := capActivityTimeouts_fixed (capActivityTimeouts d runTimeout) runTimeout
    m1 m2 k1 m3 (fun hp => ⟨(k2 hp).1, (k2 hp).2.1, (k2 hp).2.2.1⟩) m4 m5
  have := validateActivityScheduleAttributes_of_checks v namespaceID targetNamespaceID
    (capActivityTimeouts d runTimeout) (capActivityTimeouts d runTimeout) runTimeout hs' hn' fd
  rw [fc] at this
  exact this

/-- The amended C8 at a concrete input: with a run timeout of 6 the timeouts 10, 0, 8, 30
come back as 6, 6, 6, 6 and validating those again returns them unchanged. -/
theorem validateActivityScheduleAttributes_idempotent_witness :
    (0 : Int) ≤ 6
    ∧ validateActivityScheduleAttributes twoLocalNamespaces "ns-a" "ns-a"
        (some (activityWithTimeouts 10 0 8 30)) 6 = (none, some (activityWithTimeouts 6 6 6 6))
    ∧ ∃ r, validateActivityScheduleAttributes twoLocalNamespaces "ns-a" "ns-a"
        (some (activityWithTimeouts 10 0 8 30)) 6 = (none, some r)
      ∧ validateActivityScheduleAttributes twoLocalNamespaces "ns-a" "ns-a" (some r) 6
        = (none, some r) :=
  ⟨by decide, by decide,
    validateActivityScheduleAttributes_idempotent twoLocalNamespaces "ns-a" "ns-a"
      (some (activityWithTimeouts 10 0 8 30)) 6 (by decide) (by decide)⟩

/-! ## Start-child-workflow decisions -/

/-- The inheritance of lines 597 to 612 in closed form. -/
theorem inheritFromParent_eq (a : StartChildWorkflowExecutionDecisionAttributes)
    (taskList : TaskList) (parentInfo : WorkflowExecutionInfo) :
    inheritFromParent a taskList parentInfo = childInherited a taskList parentInfo := by
  unfold inheritFromParent childInherited
  dsimp only
  split_ifs <;> rfl

/-- An accepted call had attributes that pass every check and a task list that validates,
and its result is the attributes with the task list and the timeouts inherited. -/
theorem validateStartChildExecutionAttributes_accepted
    (ValidateSchedule : String → Option GoError) (v : decisionAttrValidator)
    (namespaceID targetNamespaceID : String)
    (attributes : Option StartChildWorkflowExecutionDecisionAttributes)
    (parentInfo : WorkflowExecutionInfo)
    (h : (validateStartChildExecutionAttributes ValidateSchedule v namespaceID
      targetNamespaceID attributes parentInfo).1 = none) :
    ∃ a taskList, attributes = some a
      ∧ childStructureOk ValidateSchedule v namespaceID targetNamespaceID a
      ∧ validatedTaskList v a.TaskList parentInfo.TaskList = (taskList, none)
      ∧ validateStartChildExecutionAttributes ValidateSchedule v namespaceID
          targetNamespaceID attributes parentInfo
          = (none, some (childInherited a taskList parentInfo)) := by
  unfold validateStartChildExecutionAttributes at h ⊢
  cases hc : validateCrossNamespaceCall v namespaceID targetNamespaceID with
  | some err => simp [hc] at h
  | none =>
    cases attributes with
    | none => simp [hc] at h
    | some a =>
      cases hr : ValidateRetryPolicy a.RetryPolicy with
      | some err =>
        simp only [hc, hr] at h
        split_ifs at h
      | none =>
        cases hv : ValidateSchedule a.CronSchedule with
        | some err =>
          simp only [hc, hr, hv] at h
          split_ifs at h
        | none =>
          cases ht : validatedTaskList v a.TaskList parentInfo.TaskList with
          | mk taskList e =>
            cases e with
            | some err =>
              simp only [hc, hr, hv, ht] at h
              split_ifs at h
            | none =>
              simp only [hc, hr, hv, ht] at h ⊢
              split_ifs at h with h1 h2 h3 h4 h5
              refine ⟨a, taskList, rfl, ⟨hc, h1, ?_, ?_, ?_, ?_, ?_, hr, hv⟩, ht, ?_⟩
              · exact fun hn => h2 (Or.inl hn)
              · exact fun hn => h2 (Or.inr hn)
              · omega
              · omega
              · omega
              · simp only [h1, h2, h3, h4, h5, if_false, inheritFromParent_eq]

/-- Attributes that pass every check and whose task list validates are accepted, with the
task list and the timeouts inherited. -/
theorem validateStartChildExecutionAttributes_of_checks
    (ValidateSchedule : String → Option GoError) (v : decisionAttrValidator)
    (namespaceID targetNamespaceID : String)
    (a : StartChildWorkflowExecutionDecisionAttributes) (taskList : TaskList)
    (parentInfo : WorkflowExecutionInfo)
    (hs : childStructureOk ValidateSchedule v namespaceID targetNamespaceID a)
    (ht : validatedTaskList v a.TaskList parentInfo.TaskList = (taskList, none)) :
    validateStartChildExecutionAttributes ValidateSchedule v namespaceID targetNamespaceID
      (some a) parentInfo = (none, some (childInherited a taskList parentInfo)) := by
  obtain ⟨hc, h1, h2, h3, h4, h5, h6, hr, hv⟩ := hs
  unfold validateStartChildExecutionAttributes
  simp only [hc, hr, hv, ht]
  have e2 : ¬ (a.WorkflowType = none ∨ a.workflowTypeName = "") := by
    rintro (h | h)
    · exact h2 h
    · exact h3 h
  have e4 : ¬ (len a.Namespace > v.maxIDLengthLimit) := by omega
  have e5 : ¬ (len a.WorkflowId > v.maxIDLengthLimit) := by omega
  have e6 : ¬ (len a.workflowTypeName > v.maxIDLengthLimit) := by omega
  simp only [h1, e2, e4, e5, e6, if_false, inheritFromParent_eq]

/-- A task list that `validatedTaskList` returned for a given one validates to itself, as
long as the given one was named or the default passes the checks made on a given name. -/
theorem validatedTaskList_again_some (v : decisionAttrValidator) (given : TaskList)
    (defaultVal : String) (taskList : TaskList)
    (h : validatedTaskList v (some given) defaultVal = (taskList, none))
    (hdef : given.Name ≠ ""
      ∨ (len defaultVal ≤ v.maxIDLengthLimit
          ∧ HasPrefix defaultVal reservedTaskListPrefix = false)) :
    validatedTaskList v (some taskList) defaultVal = (taskList, none) := by
  unfold validatedTaskList at h ⊢
  simp only at h ⊢
  by_cases g1 : given.Name = ""
  · rw [if_pos g1] at h
    by_cases g2 : defaultVal = ""
    · rw [if_pos g2] at h
      simp at h
    · rw [if_neg g2] at h
      have ht : ({ given with Name := defaultVal } : TaskList) = taskList := (Prod.mk.inj h).1
      subst ht
      rcases hdef with hg | ⟨d1, d2⟩
      · exact absurd g1 hg
      · have d3 : ¬ (len defaultVal > v.maxIDLengthLimit) := by omega
        simp only [g2, d3, d2, if_false, Bool.false_eq_true]
  · rw [if_neg g1] at h
    by_cases g3 : len given.Name > v.maxIDLengthLimit
    · rw [if_pos g3] at h
      simp at h
    · rw [if_neg g3] at h
      by_cases g4 : HasPrefix given.Name reservedTaskListPrefix = true
      · rw [if_pos g4] at h
        simp at h
      · rw [if_neg g4] at h
        have ht : given = taskList := (Prod.mk.inj h).1
        subst ht
        simp only [g1, g3, g4, if_false, Bool.false_eq_true]

/-- The same for a task list pointer that may be nil. -/
theorem validatedTaskList_again (v : decisionAttrValidator) (given : Option TaskList)
    (defaultVal : String) (taskList : TaskList)
    (h : validatedTaskList v given defaultVal = (taskList, none))
    (hdef : (∃ t, given = some t ∧ t.Name ≠ "")
      ∨ (len defaultVal ≤ v.maxIDLengthLimit
          ∧ HasPrefix defaultVal reservedTaskListPrefix = false)) :
    validatedTaskList v (some taskList) defaultVal = (taskList, none) := by
  cases given with
  | none =>
    refine validatedTaskList_again_some v { Name := "", Kind := 0 } defaultVal taskList h ?_
    rcases hdef with ⟨t, ht, -⟩ | hd
    · cases ht
    · exact Or.inr hd
  | some t0 =>
    refine validatedTaskList_again_some v t0 defaultVal taskList h ?_
    rcases hdef with ⟨t, ht, hne⟩ | hd
    · cases ht
      exact Or.inl hne
    · exact Or.inr hd

/-- C9, as stated, fails: a start-child decision that leaves the task list blank is
accepted under a parent whose task list starts with the reserved prefix and comes back with
that task list; validating the result again against the same parent is rejected. -/
theorem validateStartChildExecutionAttributes_not_idempotent_reserved_parent :
    (validateStartChildExecutionAttributes acceptEverySchedule twoLocalNamespaces
        "ns-a" "ns-a" (some childWithBlanks) parentOnReservedTaskList)
      = (none, some { childWithBlanks with
          TaskList := some { Name := "/__temporal_sys/parent", Kind := 0 }
          WorkflowExecutionTimeoutSeconds := 100
          WorkflowRunTimeoutSeconds := 60
          WorkflowTaskTimeoutSeconds := 10 })
    ∧ (validateStartChildExecutionAttributes acceptEverySchedule twoLocalNamespaces
        "ns-a" "ns-a" (some { childWithBlanks with
          TaskList := some { Name := "/__temporal_sys/parent", Kind := 0 }
          WorkflowExecutionTimeoutSeconds := 100
          WorkflowRunTimeoutSeconds := 60
          WorkflowTaskTimeoutSeconds := 10 }) parentOnReservedTaskList).1
      = some (.InvalidArgument
          "task list name cannot start with reserved prefix /__temporal_sys/") := by
  decide

/-- C9, amended: for every parent execution info and attribute set that
`validateStartChildExecutionAttributes` accepts, where the decision names its task list or
the parent's task list is at most `maxIDLengthLimit` long and does not start with the
reserved prefix, validating the resulting attributes again against the same parent is
accepted and leaves them unchanged, the task list and the execution, run and task timeouts
included. -/
theorem validateStartChildExecutionAttributes_idempotent
    (ValidateSchedule : String → Option GoError) (v : decisionAttrValidator)
    (namespaceID targetNamespaceID : String)
    (a : StartChildWorkflowExecutionDecisionAttributes)
    (parentInfo : WorkflowExecutionInfo)
    (hdef : (∃ t, a.TaskList = some t ∧ t.Name ≠ "")
      ∨ (len parentInfo.TaskList ≤ v.maxIDLengthLimit
          ∧ HasPrefix parentInfo.TaskList reservedTaskListPrefix = false))
    (h : (validateStartChildExecutionAttributes ValidateSchedule v namespaceID
      targetNamespaceID (some a) parentInfo).1 = none) :
    ∃ r, validateStartChildExecutionAttributes ValidateSchedule v namespaceID
        targetNamespaceID (some a) parentInfo = (none, some r)
      ∧ validateStartChildExecutionAttributes ValidateSchedule v namespaceID
        targetNamespaceID (some r) parentInfo = (none, some r) := by
  obtain ⟨a', taskList, ha, hs, ht, heq⟩ :=
    validateStartChildExecutionAttributes_accepted ValidateSchedule v namespaceID
      targetNamespaceID (some a) parentInfo h
  cases ha
  refine ⟨childInherited a taskList parentInfo, heq, ?_⟩
  have hs' : childStructureOk ValidateSchedule v namespaceID targetNamespaceID
      (childInherited a taskList parentInfo) := hs
  have ht' : validatedTaskList v (childInherited a taskList parentInfo).TaskList
      parentInfo.TaskList = (taskList, none) :=
    validatedTaskList_again v a.TaskList parentInfo.TaskList taskList ht hdef
  rw [validateStartChildExecutionAttributes_of_checks ValidateSchedule v namespaceID
    targetNamespaceID _ taskList parentInfo hs' ht']
  have fix : childInherited (childInherited a taskList parentInfo) taskList parentInfo
      = childInherited a taskList parentInfo := by
    unfold childInherited
    dsimp only
    congr 1 <;> split_ifs <;> rfl
  rw [fix]

/-- The amended C9 at a concrete input: under a parent on an ordinary task list the blank
decision inherits the task list and the three timeouts, and validating the result again
returns it unchanged. -/
theorem validateStartChildExecutionAttributes_idempotent_witness :
    ((∃ t, childWithBlanks.TaskList = some t ∧ t.Name ≠ "")
      ∨ (len parentOnPlainTaskList.TaskList ≤ twoLocalNamespaces.maxIDLengthLimit
          ∧ HasPrefix parentOnPlainTaskList.TaskList reservedTaskListPrefix = false))
    ∧ validateStartChildExecutionAttributes acceptEverySchedule twoLocalNamespaces
        "ns-a" "ns-a" (some childWithBlanks) parentOnPlainTaskList
      = (none, some { childWithBlanks with
          TaskList := some { Name := "parent-task-list", Kind := 0 }
          WorkflowExecutionTimeoutSeconds := 100
          WorkflowRunTimeoutSeconds := 60
          WorkflowTaskTimeoutSeconds := 10 })
    ∧ ∃ r, validateStartChildExecutionAttributes acceptEverySchedule twoLocalNamespaces
        "ns-a" "ns-a" (some childWithBlanks) parentOnPlainTaskList = (none, some r)
      ∧ validateStartChildExecutionAttributes acceptEverySchedule twoLocalNamespaces
        "ns-a" "ns-a" (some r) parentOnPlainTaskList = (none, some r) :=
  ⟨Or.inr (by decide), by decide,
    validateStartChildExecutionAttributes_idempotent acceptEverySchedule twoLocalNamespaces
      "ns-a" "ns-a" childWithBlanks parentOnPlainTaskList (Or.inr (by decide)) (by decide)⟩

/-! ## Timer decisions -/

/-- C11: `validateTimerScheduleAttributes` accepts if and only if the attributes are present,
the timer id is non-empty and at most `maxIDLengthLimit` long, and the start-to-fire timeout
is strictly positive; a start-to-fire of 0 is rejected with InvalidArgument. -/
theorem validateTimerScheduleAttributes_accepts_iff (v : decisionAttrValidator)
    (attributes : Option StartTimerDecisionAttributes) :
    (validateTimerScheduleAttributes v attributes = none ↔
      ∃ a, attributes = some a ∧ a.TimerId ≠ "" ∧ len a.TimerId ≤ v.maxIDLengthLimit
        ∧ 0 < a.StartToFireTimeoutSeconds)
    ∧ (∀ a, attributes = some a → a.StartToFireTimeoutSeconds = 0 →
        ∃ message, validateTimerScheduleAttributes v attributes
          = some (.InvalidArgument message)) := by
  cases attributes with
  | none =>
    refine ⟨⟨fun h => by simp [validateTimerScheduleAttributes] at h, ?_⟩, ?_⟩
    · rintro ⟨a, ha, -⟩
      cases ha
    · intro a ha
      cases ha
  | some a =>
    unfold validateTimerScheduleAttributes
    simp only
    refine ⟨?_, ?_⟩
    · constructor
      · intro h
        split_ifs at h with h1 h2 h3
        exact ⟨a, rfl, h1, by omega, by omega⟩
      · rintro ⟨b, hb, h1, h2, h3⟩
        cases hb
        have e2 : ¬ (len a.TimerId > v.maxIDLengthLimit) := by omega
        have e3 : ¬ (a.StartToFireTimeoutSeconds ≤ 0) := by omega
        simp only [h1, e2, e3, if_false]
    · intro b hb hz
      cases hb
      have e3 : a.StartToFireTimeoutSeconds ≤ 0 := by omega
      split_ifs <;> exact ⟨_, rfl⟩

/-- C11 at a concrete input: the timer `timer-1` with a start-to-fire of 0 is rejected with
InvalidArgument, and with a start-to-fire of 5 it is accepted. -/
theorem validateTimerScheduleAttributes_accepts_iff_witness :
    validateTimerScheduleAttributes twoLocalNamespaces
        (some { TimerId := "timer-1", StartToFireTimeoutSeconds := 5 }) = none
    ∧ ∃ message, validateTimerScheduleAttributes twoLocalNamespaces
        (some { TimerId := "timer-1", StartToFireTimeoutSeconds := 0 })
          = some (.InvalidArgument message) :=
  ⟨by decide,
    (validateTimerScheduleAttributes_accepts_iff twoLocalNamespaces
      (some { TimerId := "timer-1", StartToFireTimeoutSeconds := 0 })).2
      { TimerId := "timer-1", StartToFireTimeoutSeconds := 0 } rfl rfl⟩

/-! ## Inheritance from the parent and the previous execution -/

/-- The name of a task list that `validatedTaskList` accepted: the given name when it was
not empty, the default otherwise. -/
theorem validatedTaskList_name (v : decisionAttrValidator) (given : Option TaskList)
    (defaultVal : String) (taskList : TaskList)
    (h : validatedTaskList v given defaultVal = (taskList, none)) :
    taskList.Name
      = if TaskList.GetName given = "" then defaultVal else TaskList.GetName given := by
  cases given with
  | none =>
    unfold validatedTaskList at h
    simp only [if_true] at h
    by_cases g2 : defaultVal = ""
    · rw [if_pos g2] at h
      simp at h
    · rw [if_neg g2] at h
      have ht := (Prod.mk.inj h).1
      subst ht
      simp [TaskList.GetName]
  | some t =>
    unfold validatedTaskList at h
    simp only at h
    by_cases g1 : t.Name = ""
    · rw [if_pos g1] at h
      by_cases g2 : defaultVal = ""
      · rw [if_pos g2] at h
        simp at h
      · rw [if_neg g2] at h
        have ht := (Prod.mk.inj h).1
        subst ht
        simp [TaskList.GetName, g1]
    · rw [if_neg g1] at h
      by_cases g3 : len t.Name > v.maxIDLengthLimit
      · rw [if_pos g3] at h
        simp at h
      · rw [if_neg g3] at h
        by_cases g4 : HasPrefix t.Name reservedTaskListPrefix = true
        · rw [if_pos g4] at h
          simp at h
        · rw [if_neg g4] at h
          have ht := (Prod.mk.inj h).1
          subst ht
          simp [TaskList.GetName, g1]

/-- C12: for every input that `validateStartChildExecutionAttributes` accepts, the resulting
task-list name is the given name when it was not empty and the parent's task list otherwise,
and each of the workflow execution, run and task timeouts is the given value when it was
positive and the parent's corresponding timeout otherwise. -/
theorem validateStartChildExecutionAttributes_inherits
    (ValidateSchedule : String → Option GoError) (v : decisionAttrValidator)
    (namespaceID targetNamespaceID : String)
    (a : StartChildWorkflowExecutionDecisionAttributes)
    (parentInfo : WorkflowExecutionInfo)
    (h : (validateStartChildExecutionAttributes ValidateSchedule v namespaceID
      targetNamespaceID (some a) parentInfo).1 = none) :
    ∃ r taskList,
      (validateStartChildExecutionAttributes ValidateSchedule v namespaceID
        targetNamespaceID (some a) parentInfo).2 = some r
      ∧ r.TaskList = some taskList
      ∧ taskList.Name
        = (if TaskList.GetName a.TaskList = "" then parentInfo.TaskList
           else TaskList.GetName a.TaskList)
      ∧ r.WorkflowExecutionTimeoutSeconds
        = (if 0 < a.WorkflowExecutionTimeoutSeconds then a.WorkflowExecutionTimeoutSeconds
           else parentInfo.WorkflowExecutionTimeout)
      ∧ r.WorkflowRunTimeoutSeconds
        = (if 0 < a.WorkflowRunTimeoutSeconds then a.WorkflowRunTimeoutSeconds
           else parentInfo.WorkflowRunTimeout)
      ∧ r.WorkflowTaskTimeoutSeconds
        = (if 0 < a.WorkflowTaskTimeoutSeconds then a.WorkflowTaskTimeoutSeconds
           else parentInfo.WorkflowTaskTimeout) := by
  obtain ⟨a1, taskList, ha, -, ht, heq⟩ :=
    validateStartChildExecutionAttributes_accepted ValidateSchedule v namespaceID
      targetNamespaceID (some a) parentInfo h
  cases ha
  rw [heq]
  refine ⟨_, taskList, rfl, rfl, validatedTaskList_name v _ _ _ ht, ?_, ?_, ?_⟩ <;>
    (unfold childInherited
     dsimp only
     split_ifs <;> first | rfl | omega)

/-- C12 at a concrete input: a decision that leaves the task list and the three timeouts
blank comes back with the task list and the timeouts of the parent. -/
theorem validateStartChildExecutionAttributes_inherits_witness :
    validateStartChildExecutionAttributes acceptEverySchedule twoLocalNamespaces
        "ns-a" "ns-a" (some childWithBlanks) parentOnPlainTaskList
      = (none, some { childWithBlanks with
          TaskList := some { Name := "parent-task-list", Kind := 0 }
          WorkflowExecutionTimeoutSeconds := 100
          WorkflowRunTimeoutSeconds := 60
          WorkflowTaskTimeoutSeconds := 10 })
    ∧ ∃ r taskList,
      (validateStartChildExecutionAttributes acceptEverySchedule twoLocalNamespaces
        "ns-a" "ns-a" (some childWithBlanks) parentOnPlainTaskList).2 = some r
      ∧ r.TaskList = some taskList
      ∧ taskList.Name
        = (if TaskList.GetName childWithBlanks.TaskList = "" then
            parentOnPlainTaskList.TaskList
           else TaskList.GetName childWithBlanks.TaskList)
      ∧ r.WorkflowExecutionTimeoutSeconds
        = (if 0 < childWithBlanks.WorkflowExecutionTimeoutSeconds then
            childWithBlanks.WorkflowExecutionTimeoutSeconds
           else parentOnPlainTaskList.WorkflowExecutionTimeout)
      ∧ r.WorkflowRunTimeoutSeconds
        = (if 0 < childWithBlanks.WorkflowRunTimeoutSeconds then
            childWithBlanks.WorkflowRunTimeoutSeconds
           else parentOnPlainTaskList.WorkflowRunTimeout)
      ∧ r.WorkflowTaskTimeoutSeconds
        = (if 0 < childWithBlanks.WorkflowTaskTimeoutSeconds then
            childWithBlanks.WorkflowTaskTimeoutSeconds
           else parentOnPlainTaskList.WorkflowTaskTimeout) :=
  ⟨by decide,
    validateStartChildExecutionAttributes_inherits acceptEverySchedule twoLocalNamespaces
      "ns-a" "ns-a" childWithBlanks parentOnPlainTaskList (by decide)⟩

/-- An accepted continue-as-new decision had a task list that validates, and its result is
the attributes with the workflow type, the task list, the run timeout and the task timeout
settled in this order. -/
theorem validateContinueAsNewWorkflowExecutionAttributes_accepted
    (int32OutOfRange : Float64 → Int) (now : Int) (v : decisionAttrValidator)
    (a : ContinueAsNewWorkflowExecutionDecisionAttributes)
    (executionInfo : WorkflowExecutionInfo)
    (h : (validateContinueAsNewWorkflowExecutionAttributes int32OutOfRange now v (some a)
      executionInfo).1
      = none) :
    ∃ taskList,
      validatedTaskList v (inheritWorkflowType a executionInfo).TaskList executionInfo.TaskList
        = (taskList, none)
      ∧ (validateContinueAsNewWorkflowExecutionAttributes int32OutOfRange now v (some a)
        executionInfo).2
        = some (inheritTaskTimeout (reduceRunTimeout int32OutOfRange now
            { inheritWorkflowType a executionInfo with TaskList := some taskList }
            executionInfo) executionInfo) := by
  unfold validateContinueAsNewWorkflowExecutionAttributes at h ⊢
  simp only at h ⊢
  by_cases h1 : len (inheritWorkflowType a executionInfo).workflowTypeName > v.maxIDLengthLimit
  · rw [if_pos h1] at h
    simp at h
  · rw [if_neg h1] at h ⊢
    cases ht : validatedTaskList v (inheritWorkflowType a executionInfo).TaskList
        executionInfo.TaskList with
    | mk taskList e =>
      cases e with
      | some err =>
        rw [ht] at h
        simp at h
      | none =>
        rw [ht] at h
        refine ⟨taskList, rfl, ?_⟩
        simp only at h ⊢
        split_ifs at h ⊢ with h2
        cases hc : v.namespaceCache executionInfo.NamespaceID with
        | error err => simp [hc] at h
        | ok entry => rfl


/-- The fields of an accepted continue-as-new decision in closed form. -/
theorem continueAsNew_result_fields (int32OutOfRange : Float64 → Int) (now : Int)
    (a : ContinueAsNewWorkflowExecutionDecisionAttributes)
    (executionInfo : WorkflowExecutionInfo) (taskList : TaskList) :
    (inheritWorkflowType a executionInfo).TaskList = a.TaskList
    ∧ (inheritTaskTimeout (reduceRunTimeout int32OutOfRange now
        { inheritWorkflowType a executionInfo with TaskList := some taskList }
        executionInfo) executionInfo).WorkflowType
      = (if a.WorkflowType = none ∨ a.workflowTypeName = "" then
          some { Name := executionInfo.WorkflowTypeName } else a.WorkflowType)
    ∧ (inheritTaskTimeout (reduceRunTimeout int32OutOfRange now
        { inheritWorkflowType a executionInfo with TaskList := some taskList }
        executionInfo) executionInfo).TaskList = some taskList
    ∧ (inheritTaskTimeout (reduceRunTimeout int32OutOfRange now
        { inheritWorkflowType a executionInfo with TaskList := some taskList }
        executionInfo) executionInfo).WorkflowRunTimeoutSeconds
      = (if executionInfo.WorkflowExpirationTime ≠ 0 then
          MinInt32 (Int32Ceil int32OutOfRange
              (Seconds (Sub executionInfo.WorkflowExpirationTime now)))
            (if a.WorkflowRunTimeoutSeconds > 0 then a.WorkflowRunTimeoutSeconds
             else executionInfo.WorkflowRunTimeout)
        else if a.WorkflowRunTimeoutSeconds = 0 then executionInfo.WorkflowRunTimeout
        else a.WorkflowRunTimeoutSeconds)
    ∧ (inheritTaskTimeout (reduceRunTimeout int32OutOfRange now
        { inheritWorkflowType a executionInfo with TaskList := some taskList }
        executionInfo) executionInfo).WorkflowTaskTimeoutSeconds
      = (if a.WorkflowTaskTimeoutSeconds ≤ 0 then executionInfo.WorkflowTaskTimeout
         else a.WorkflowTaskTimeoutSeconds) := by
  refine ⟨?_, ?_, ?_, ?_, ?_⟩
  · unfold inheritWorkflowType
    split_ifs <;> rfl
  all_goals
    unfold inheritTaskTimeout reduceRunTimeout inheritWorkflowType
    dsimp only
    split_ifs <;> rfl

/-- C13: for every input that `validateContinueAsNewWorkflowExecutionAttributes` accepts
when the previous execution has no expiration time, an absent or empty workflow type name
becomes the previous workflow type name, an empty task-list name becomes the previous task
list, a zero run timeout becomes the previous run timeout and a task timeout that is not
positive becomes the previous task timeout; every other value of these fields is kept. -/
theorem validateContinueAsNewWorkflowExecutionAttributes_inherits
    (int32OutOfRange : Float64 → Int) (now : Int) (v : decisionAttrValidator)
    (a : ContinueAsNewWorkflowExecutionDecisionAttributes)
    (executionInfo : WorkflowExecutionInfo)
    (hexp : executionInfo.WorkflowExpirationTime = 0)
    (h : (validateContinueAsNewWorkflowExecutionAttributes int32OutOfRange now v (some a)
      executionInfo).1
      = none) :
    ∃ r taskList,
      (validateContinueAsNewWorkflowExecutionAttributes int32OutOfRange now v (some a)
        executionInfo).2
        = some r
      ∧ r.WorkflowType
        = (if a.WorkflowType = none ∨ a.workflowTypeName = "" then
            some { Name := executionInfo.WorkflowTypeName } else a.WorkflowType)
      ∧ r.TaskList = some taskList
      ∧ taskList.Name
        = (if TaskList.GetName a.TaskList = "" then executionInfo.TaskList
           else TaskList.GetName a.TaskList)
      ∧ r.WorkflowRunTimeoutSeconds
        = (if a.WorkflowRunTimeoutSeconds = 0 then executionInfo.WorkflowRunTimeout
           else a.WorkflowRunTimeoutSeconds)
      ∧ r.WorkflowTaskTimeoutSeconds
        = (if a.WorkflowTaskTimeoutSeconds ≤ 0 then executionInfo.WorkflowTaskTimeout
           else a.WorkflowTaskTimeoutSeconds) := by
  obtain ⟨taskList, ht, heq⟩ :=
    validateContinueAsNewWorkflowExecutionAttributes_accepted int32OutOfRange now v a
      executionInfo h
  obtain ⟨f0, f1, f2, f3, f4⟩ := continueAsNew_result_fields int32OutOfRange now a executionInfo
    taskList
  rw [f0] at ht
  refine ⟨_, taskList, heq, f1, f2, validatedTaskList_name v _ _ _ ht, ?_, f4⟩
  rw [f3, if_neg (by simpa using hexp)]

/-- C13 at a concrete input: a decision that leaves everything blank inherits the workflow
type, the task list and both timeouts of the previous execution. -/
theorem validateContinueAsNewWorkflowExecutionAttributes_inherits_witness :
    previousWithoutExpiration.WorkflowExpirationTime = 0
    ∧ validateContinueAsNewWorkflowExecutionAttributes smallestInt32 clockReading
        twoLocalNamespaces
        (some continueAsNewWithBlanks) previousWithoutExpiration
      = (none, some { continueAsNewWithBlanks with
          WorkflowType := some { Name := "previous-type" }
          TaskList := some { Name := "previous-task-list", Kind := 0 }
          WorkflowRunTimeoutSeconds := 60
          WorkflowTaskTimeoutSeconds := 10 })
    ∧ ∃ r taskList,
      (validateContinueAsNewWorkflowExecutionAttributes smallestInt32 clockReading
        twoLocalNamespaces
        (some continueAsNewWithBlanks) previousWithoutExpiration).2 = some r
      ∧ r.WorkflowType
        = (if continueAsNewWithBlanks.WorkflowType = none
              ∨ continueAsNewWithBlanks.workflowTypeName = "" then
            some { Name := previousWithoutExpiration.WorkflowTypeName }
           else continueAsNewWithBlanks.WorkflowType)
      ∧ r.TaskList = some taskList
      ∧ taskList.Name
        = (if TaskList.GetName continueAsNewWithBlanks.TaskList = "" then
            previousWithoutExpiration.TaskList
           else TaskList.GetName continueAsNewWithBlanks.TaskList)
      ∧ r.WorkflowRunTimeoutSeconds
        = (if continueAsNewWithBlanks.WorkflowRunTimeoutSeconds = 0 then
            previousWithoutExpiration.WorkflowRunTimeout
           else continueAsNewWithBlanks.WorkflowRunTimeoutSeconds)
      ∧ r.WorkflowTaskTimeoutSeconds
        = (if continueAsNewWithBlanks.WorkflowTaskTimeoutSeconds ≤ 0 then
            previousWithoutExpiration.WorkflowTaskTimeout
           else continueAsNewWithBlanks.WorkflowTaskTimeoutSeconds) :=
  ⟨rfl, by decide,
    validateContinueAsNewWorkflowExecutionAttributes_inherits smallestInt32 clockReading
      twoLocalNamespaces
      continueAsNewWithBlanks previousWithoutExpiration rfl (by decide)⟩

/-- The digit count brackets a positive number between two powers of two. -/
theorem bitLength_bounds : ∀ (fuel n : Nat), n ≤ fuel → n ≠ 0 →
    2 ^ (bitLength fuel n - 1) ≤ n ∧ n < 2 ^ bitLength fuel n := by
  intro fuel
  induction fuel with
  | zero =>
    intro n hle hn
    omega
  | succ fuel ih =>
    intro n hle hn
    simp only [bitLength, hn, if_false]
    by_cases h2 : n / 2 = 0
    · have h1 : n = 1 := by omega
      subst h1
      cases fuel with
      | zero => simp [bitLength]
      | succ f => simp [bitLength]
    · obtain ⟨l, u⟩ := ih (n / 2) (by omega) h2
      have hpos : 1 ≤ bitLength fuel (n / 2) := by
        rcases Nat.eq_zero_or_pos (bitLength fuel (n / 2)) with h0 | h0
        · rw [h0] at u
          simp at u
          omega
        · exact h0
      constructor
      · have e : bitLength fuel (n / 2) + 1 - 1 = (bitLength fuel (n / 2) - 1) + 1 := by omega
        rw [e, pow_succ]
        omega
      · rw [pow_succ]
        omega

/-- The binary exponent, when it is not negative, is a power of two below the fraction. -/
theorem binaryExponent_le (n d : Nat) (hn : n ≠ 0) (hd : d ≠ 0)
    (he : 0 ≤ binaryExponent n d) : d * 2 ^ (binaryExponent n d).toNat ≤ n := by
  unfold binaryExponent at he ⊢
  simp only at he ⊢
  by_cases hp : powTwoLe ((bitLength n n : Int) - (bitLength d d : Int)) n d = true
  · rw [if_pos hp] at he ⊢
    unfold powTwoLe at hp
    rw [if_pos he] at hp
    exact of_decide_eq_true hp
  · rw [if_neg hp] at he ⊢
    obtain ⟨ln, -⟩ := bitLength_bounds n n (le_refl _) hn
    obtain ⟨-, ud⟩ := bitLength_bounds d d (le_refl _) hd
    have ht : ((bitLength n n : Int) - (bitLength d d : Int) - 1).toNat
        = bitLength n n - 1 - bitLength d d := by omega
    rw [ht]
    have hsplit : bitLength n n - 1 = bitLength d d + (bitLength n n - 1 - bitLength d d) := by
      omega
    have hmul : d * 2 ^ (bitLength n n - 1 - bitLength d d)
        ≤ 2 ^ bitLength d d * 2 ^ (bitLength n n - 1 - bitLength d d) :=
      Nat.mul_le_mul_right _ (le_of_lt ud)
    rw [← pow_add, ← hsplit] at hmul
    exact le_trans hmul ln

/-- Rounding to the nearest integer stays at or below an integer above the fraction. -/
theorem roundHalfEven_le (a b m : Nat) (hb : 0 < b) (h : a ≤ m * b) :
    roundHalfEven a b ≤ m := by
  have hk : a / b ≤ m := Nat.div_le_of_le_mul (by rw [Nat.mul_comm]; exact h)
  have hdm := Nat.div_add_mod a b
  unfold roundHalfEven
  simp only
  rcases Nat.lt_or_ge (a / b) m with hlt | hge
  · split_ifs <;> omega
  · have hkm : a / b = m := le_antisymm hk hge
    have hr : a % b = 0 := by
      rw [hkm, Nat.mul_comm] at hdm
      omega
    rw [hr, hkm]
    simp [hb]

/-- Rounding to the nearest integer stays at or above an integer below the fraction. -/
theorem le_roundHalfEven (a b m : Nat) (hb : 0 < b) (h : m * b ≤ a) :
    m ≤ roundHalfEven a b := by
  have hk : m ≤ a / b := (Nat.le_div_iff_mul_le hb).mpr h
  unfold roundHalfEven
  simp only
  split_ifs <;> omega

/-- A positive fraction between two whole numbers below `2 ^ 53` rounds to a finite
`float64` between the same two numbers. -/
theorem roundPositive_between (n d lo hi : Nat) (hn : n ≠ 0) (hd : d ≠ 0)
    (hlo : lo * d ≤ n) (hhi : n ≤ hi * d) (hbound : hi < 2 ^ 53) :
    ∃ r, roundPositive n d = some r ∧ (lo : ℚ) ≤ r ∧ r ≤ (hi : ℚ) := by
  have hdpos : 0 < d := Nat.pos_of_ne_zero hd
  unfold roundPositive
  simp only
  by_cases he : max (binaryExponent n d) (-1022) ≤ 52
  · rw [if_pos he]
    generalize (52 - max (binaryExponent n d) (-1022)).toNat = t
    have hpow : (0 : ℚ) < 2 ^ t := by positivity
    refine ⟨_, rfl, ?_, ?_⟩
    · rw [le_div_iff₀ hpow]
      have hk := le_roundHalfEven (n * 2 ^ t) d (lo * 2 ^ t) hdpos
        (by calc lo * 2 ^ t * d = lo * d * 2 ^ t := by ring
              _ ≤ n * 2 ^ t := Nat.mul_le_mul_right _ hlo)
      exact_mod_cast hk
    · rw [div_le_iff₀ hpow]
      have hk := roundHalfEven_le (n * 2 ^ t) d (hi * 2 ^ t) hdpos
        (by calc n * 2 ^ t ≤ hi * d * 2 ^ t := Nat.mul_le_mul_right _ hhi
              _ = hi * 2 ^ t * d := by ring)
      exact_mod_cast hk
  · exfalso
    have hbe : 52 < binaryExponent n d := by
      rcases le_total (binaryExponent n d) (-1022) with h | h
      · rw [max_eq_right h] at he
        omega
      · rw [max_eq_left h] at he
        omega
    have hle := binaryExponent_le n d hn hd (by omega)
    have h53 : 2 ^ 53 ≤ 2 ^ (binaryExponent n d).toNat :=
      Nat.pow_le_pow_right (by decide) (by omega)
    have h1 : d * 2 ^ 53 ≤ hi * d := le_trans (le_trans (Nat.mul_le_mul_left d h53) hle) hhi
    have h2 : hi * d < 2 ^ 53 * d := Nat.mul_lt_mul_of_pos_right hbound hdpos
    rw [Nat.mul_comm d] at h1
    exact absurd (lt_of_le_of_lt h1 h2) (lt_irrefl _)

/-- A value between two integers of magnitude below `2 ^ 53` rounds to a finite `float64`
between the same two integers; an integer of that magnitude rounds to itself. -/
theorem roundFloat64_between (q : ℚ) (lo hi : Int) (hlo : (lo : ℚ) ≤ q)
    (hhi : q ≤ (hi : ℚ))
    (blo : -2 ^ 53 < lo) (bhi : hi < 2 ^ 53) :
    ∃ r, roundFloat64 q = .finite r ∧ (lo : ℚ) ≤ r ∧ r ≤ (hi : ℚ) := by
  unfold roundFloat64
  by_cases h0 : q = 0
  · rw [if_pos h0]
    subst h0
    exact ⟨0, rfl, hlo, hhi⟩
  · rw [if_neg h0]
    have hden : (0 : ℚ) < q.den := by exact_mod_cast q.den_pos
    have hq : q = (q.num : ℚ) / (q.den : ℚ) := (Rat.num_div_den q).symm
    by_cases hpos : 0 < q
    · rw [if_pos hpos]
      have hnum : 0 < q.num := Rat.num_pos.mpr hpos
      have hcast : ((q.num.natAbs : Nat) : Int) = q.num := Int.natAbs_of_nonneg (le_of_lt hnum)
      have hhi0 : (0 : ℚ) < hi := lt_of_lt_of_le hpos hhi
      have hhi1 : 0 < hi := by exact_mod_cast hhi0
      have hqn : q * q.den = q.num := Rat.mul_den_eq_num q
      have h1 : (lo.toNat : Int) * q.den ≤ q.num := by
        rcases le_total lo 0 with hl | hl
        · rw [Int.toNat_of_nonpos hl]
          rw [show ((0 : Nat) : Int) = 0 from rfl, zero_mul]
          omega
        · rw [Int.toNat_of_nonneg hl]
          have : (lo : ℚ) * q.den ≤ q.num := by
            rw [← hqn]
            exact mul_le_mul_of_nonneg_right hlo (le_of_lt hden)
          exact_mod_cast this
      have h2 : q.num ≤ (hi.toNat : Int) * q.den := by
        rw [Int.toNat_of_nonneg (le_of_lt hhi1)]
        have : (q.num : ℚ) ≤ (hi : ℚ) * q.den := by
          rw [← hqn]
          exact mul_le_mul_of_nonneg_right hhi (le_of_lt hden)
        exact_mod_cast this
      obtain ⟨r, hr, r1, r2⟩ := roundPositive_between q.num.natAbs q.den lo.toNat hi.toNat
        (by omega) q.den_nz
        (by rw [← hcast] at h1; exact_mod_cast h1)
        (by rw [← hcast] at h2; exact_mod_cast h2)
        (by
          have : (hi.toNat : Int) < 2 ^ 53 := by
            rw [Int.toNat_of_nonneg (le_of_lt hhi1)]
            exact bhi
          exact_mod_cast this)
      rw [hr]
      refine ⟨r, rfl, ?_, ?_⟩
      · have : (lo : ℚ) ≤ (lo.toNat : ℚ) := by
          have : lo ≤ (lo.toNat : Int) := Int.self_le_toNat lo
          exact_mod_cast this
        exact le_trans this r1
      · have : ((hi.toNat : Nat) : ℚ) = (hi : ℚ) := by
          have : ((hi.toNat : Nat) : Int) = hi := Int.toNat_of_nonneg (le_of_lt hhi1)
          exact_mod_cast this
        rw [← this]
        exact r2
    · rw [if_neg hpos]
      have hneg : q < 0 := lt_of_le_of_ne (not_lt.mp hpos) h0
      have hnum : q.num < 0 := Rat.num_neg.mpr hneg
      have hcast : ((q.num.natAbs : Nat) : Int) = -q.num := by omega
      have hlo0 : (lo : ℚ) < 0 := lt_of_le_of_lt hlo hneg
      have hlo1 : lo < 0 := by exact_mod_cast hlo0
      have hqn : q * q.den = q.num := Rat.mul_den_eq_num q
      have h1 : ((-hi).toNat : Int) * q.den ≤ -q.num := by
        rcases le_total (-hi) 0 with hl | hl
        · rw [Int.toNat_of_nonpos hl]
          rw [show ((0 : Nat) : Int) = 0 from rfl, zero_mul]
          omega
        · rw [Int.toNat_of_nonneg hl]
          have : ((-hi : Int) : ℚ) * q.den ≤ ((-q.num : Int) : ℚ) := by
            push_cast
            rw [← hqn]
            nlinarith
          exact_mod_cast this
      have h2 : -q.num ≤ ((-lo).toNat : Int) * q.den := by
        rw [Int.toNat_of_nonneg (by omega)]
        have : ((-q.num : Int) : ℚ) ≤ ((-lo : Int) : ℚ) * q.den := by
          push_cast
          rw [← hqn]
          nlinarith
        exact_mod_cast this
      obtain ⟨r, hr, r1, r2⟩ := roundPositive_between q.num.natAbs q.den (-hi).toNat (-lo).toNat
        (by omega) q.den_nz
        (by rw [← hcast] at h1; exact_mod_cast h1)
        (by rw [← hcast] at h2; exact_mod_cast h2)
        (by
          have : ((-lo).toNat : Int) < 2 ^ 53 := by
            rw [Int.toNat_of_nonneg (by omega)]
            omega
          exact_mod_cast this)
      rw [hr]
      refine ⟨-r, rfl, ?_, ?_⟩
      · have : (((-lo).toNat : Nat) : ℚ) = -(lo : ℚ) := by
          have : (((-lo).toNat : Nat) : Int) = -lo := Int.toNat_of_nonneg (by omega)
          exact_mod_cast this
        rw [this] at r2
        linarith
      · have : (-(hi : ℚ)) ≤ (((-hi).toNat : Nat) : ℚ) := by
          have : -hi ≤ ((-hi).toNat : Int) := Int.self_le_toNat (-hi)
          exact_mod_cast this
        linarith

/-- The quotient and the remainder of a duration by one second, as Go computes them. -/
theorem tdiv_tmod_second (d : Int) :
    1000000000 * Int.tdiv d 1000000000 + Int.tmod d 1000000000 = d
    ∧ (0 ≤ d → 0 ≤ Int.tmod d 1000000000 ∧ Int.tmod d 1000000000 < 1000000000)
    ∧ (d ≤ 0 → Int.tmod d 1000000000 ≤ 0 ∧ -1000000000 < Int.tmod d 1000000000) := by
  refine ⟨Int.tdiv_add_tmod d 1000000000, ?_, ?_⟩
  · intro h
    exact ⟨Int.tmod_nonneg _ h, Int.tmod_lt_of_pos _ (by decide)⟩
  · intro h
    cases d with
    | ofNat m =>
      have hm : m = 0 := by
        have : ((m : Nat) : Int) ≤ 0 := h
        omega
      subst hm
      decide
    | negSucc m =>
      have e : Int.tmod (Int.negSucc m) 1000000000
          = -((Nat.succ m % 1000000000 : Nat) : Int) := rfl
      rw [e]
      omega

/-- An integer of magnitude below `2 ^ 53` converts to `float64` exactly. -/
theorem roundFloat64_intCast (z : Int) (hlo : -2 ^ 53 < z) (hhi : z < 2 ^ 53) :
    roundFloat64 (z : ℚ) = .finite (z : ℚ) := by
  obtain ⟨r, hr, r1, r2⟩ := roundFloat64_between (z : ℚ) z z (le_refl _) (le_refl _) hlo hhi
  rw [hr, le_antisymm r2 r1]

/-- The seconds of a duration as a `float64`: a finite value between the whole seconds of
the duration and the next whole second away from zero, and the whole seconds themselves
when the duration has no fraction of a second. -/
theorem Seconds_between (d : Int) (hmin : -9223372036854775808 ≤ d)
    (hmax : d ≤ 9223372036854775807) :
    ∃ r, Seconds d = .finite r
      ∧ (0 ≤ d → ((Int.tdiv d 1000000000 : Int) : ℚ) ≤ r
          ∧ r ≤ ((Int.tdiv d 1000000000 + 1 : Int) : ℚ))
      ∧ (d ≤ 0 → ((Int.tdiv d 1000000000 - 1 : Int) : ℚ) ≤ r
          ∧ r ≤ ((Int.tdiv d 1000000000 : Int) : ℚ))
      ∧ (Int.tmod d 1000000000 = 0 → r = ((Int.tdiv d 1000000000 : Int) : ℚ)) := by
  obtain ⟨hsum, hnonneg, hnonpos⟩ := tdiv_tmod_second d
  have hs1 : -2 ^ 53 + 1 < Int.tdiv d 1000000000 := by
    rcases le_total 0 d with h | h
    · have := hnonneg h
      omega
    · have := hnonpos h
      omega
  have hs2 : Int.tdiv d 1000000000 < 2 ^ 53 - 1 := by
    rcases le_total 0 d with h | h
    · have := hnonneg h
      omega
    · have := hnonpos h
      omega
  have hn1 : -2 ^ 53 < Int.tmod d 1000000000 := by
    rcases le_total 0 d with h | h
    · have := hnonneg h
      omega
    · have := hnonpos h
      omega
  have hn2 : Int.tmod d 1000000000 < 2 ^ 53 := by
    rcases le_total 0 d with h | h
    · have := hnonneg h
      omega
    · have := hnonpos h
      omega
  have hdiv : Float64.div (.finite ((Int.tmod d 1000000000 : Int) : ℚ)) (.finite 1000000000)
      = roundFloat64 (((Int.tmod d 1000000000 : Int) : ℚ) / 1000000000) := by
    simp [Float64.div]
  have hSec : Seconds d
      = Float64.add (.finite ((Int.tdiv d 1000000000 : Int) : ℚ))
          (roundFloat64 (((Int.tmod d 1000000000 : Int) : ℚ) / 1000000000)) := by
    unfold Seconds
    simp only
    rw [roundFloat64_intCast _ (by omega) (by omega), roundFloat64_intCast _ hn1 hn2, hdiv]
  rw [hSec]
  generalize Int.tdiv d 1000000000 = sec at *
  generalize Int.tmod d 1000000000 = nsec at *
  have hbillion : (0 : ℚ) < 1000000000 := by norm_num
  rcases lt_trichotomy d 0 with hneg | hzero | hpos
  · obtain ⟨n1, n2⟩ := hnonpos (le_of_lt hneg)
    have q1 : ((-1 : Int) : ℚ) ≤ (nsec : ℚ) / 1000000000 := by
      rw [le_div_iff₀ hbillion]
      have : ((-1000000000 : Int) : ℚ) ≤ (nsec : ℚ) := Int.cast_le.mpr (by omega)
      push_cast at this ⊢
      linarith
    have q2 : (nsec : ℚ) / 1000000000 ≤ ((0 : Int) : ℚ) := by
      rw [div_le_iff₀ hbillion]
      have : (nsec : ℚ) ≤ ((0 : Int) : ℚ) := by exact_mod_cast n1
      push_cast at this ⊢
      linarith
    obtain ⟨f, hf, f1, f2⟩ := roundFloat64_between _ (-1) 0 q1 q2 (by decide) (by decide)
    rw [hf]
    have s1 : ((sec - 1 : Int) : ℚ) ≤ (sec : ℚ) + f := by
      push_cast at f1 ⊢
      linarith
    have s2 : (sec : ℚ) + f ≤ ((sec : Int) : ℚ) := by
      push_cast at f2 ⊢
      linarith
    obtain ⟨r, hr, r1, r2⟩ := roundFloat64_between _ (sec - 1) sec s1 s2 (by omega) (by omega)
    refine ⟨r, hr, fun h => absurd hneg (not_lt.mpr h), fun _ => ⟨r1, r2⟩, ?_⟩
    intro h0
    rw [h0] at hf
    simp only [Int.cast_zero, zero_div] at hf
    have hz : roundFloat64 0 = .finite 0 := by simp [roundFloat64]
    rw [hz] at hf
    cases hf
    rw [add_zero, roundFloat64_intCast _ (by omega) (by omega)] at hr
    cases hr
    rfl
  · subst hzero
    have hn0 : nsec = 0 := by
      have := hnonneg (le_refl _)
      have := hnonpos (le_refl _)
      omega
    have hs0 : sec = 0 := by omega
    subst hn0
    subst hs0
    have hz : roundFloat64 0 = .finite 0 := by simp [roundFloat64]
    refine ⟨0, ?_, ?_, ?_, ?_⟩
    · simp [Float64.add, hz]
    · intro _
      norm_num
    · intro _
      norm_num
    · intro _
      norm_num
  · obtain ⟨n1, n2⟩ := hnonneg (le_of_lt hpos)
    have q1 : ((0 : Int) : ℚ) ≤ (nsec : ℚ) / 1000000000 := by
      rw [le_div_iff₀ hbillion]
      have : ((0 : Int) : ℚ) ≤ (nsec : ℚ) := by exact_mod_cast n1
      push_cast at this ⊢
      linarith
    have q2 : (nsec : ℚ) / 1000000000 ≤ ((1 : Int) : ℚ) := by
      rw [div_le_iff₀ hbillion]
      have : (nsec : ℚ) ≤ ((1000000000 : Int) : ℚ) := Int.cast_le.mpr (by omega)
      push_cast at this ⊢
      linarith
    obtain ⟨f, hf, f1, f2⟩ := roundFloat64_between _ 0 1 q1 q2 (by decide) (by decide)
    rw [hf]
    have s1 : ((sec : Int) : ℚ) ≤ (sec : ℚ) + f := by
      push_cast at f1 ⊢
      linarith
    have s2 : (sec : ℚ) + f ≤ ((sec + 1 : Int) : ℚ) := by
      push_cast at f2 ⊢
      linarith
    obtain ⟨r, hr, r1, r2⟩ := roundFloat64_between _ sec (sec + 1) s1 s2 (by omega) (by omega)
    refine ⟨r, hr, fun _ => ⟨r1, r2⟩, fun h => absurd hpos (not_lt.mpr h), ?_⟩
    intro h0
    rw [h0] at hf
    simp only [Int.cast_zero, zero_div] at hf
    have hz : roundFloat64 0 = .finite 0 := by simp [roundFloat64]
    rw [hz] at hf
    cases hf
    rw [add_zero, roundFloat64_intCast _ (by omega) (by omega)] at hr
    cases hr
    rfl

/-- The ceiling that `Int32Ceil` takes of the seconds of a duration within the range of an
`int32` of seconds: less than one second away from the duration on either side, and the
duration itself when it has no fraction of a second. -/
theorem Int32Ceil_Seconds_between (int32OutOfRange : Float64 → Int) (d : Int)
    (hmin : -2147483648 * 1000000000 ≤ d) (hmax : d ≤ 2147483647 * 1000000000) :
    (Int32Ceil int32OutOfRange (Seconds d) - 1) * 1000000000 < d
    ∧ d < (Int32Ceil int32OutOfRange (Seconds d) + 1) * 1000000000
    ∧ (Int.tmod d 1000000000 = 0 → Int32Ceil int32OutOfRange (Seconds d) * 1000000000 = d) := by
  obtain ⟨r, hr, hnonneg, hnonpos, hwhole⟩ := Seconds_between d (by omega) (by omega)
  obtain ⟨hsum, tnonneg, tnonpos⟩ := tdiv_tmod_second d
  rw [hr]
  have hup : (r : ℚ) ≤ ((⌈r⌉ : Int) : ℚ) := Int.le_ceil r
  have key : ⌈r⌉ - 1 ≤ Int.tdiv d 1000000000 ∧ Int.tdiv d 1000000000 ≤ ⌈r⌉ + 1
      ∧ (0 ≤ d → Int.tdiv d 1000000000 ≤ ⌈r⌉)
      ∧ (d ≤ 0 → ⌈r⌉ ≤ Int.tdiv d 1000000000)
      ∧ (Int.tmod d 1000000000 = 0 → ⌈r⌉ = Int.tdiv d 1000000000) := by
    have hzero : Int.tmod d 1000000000 = 0 → ⌈r⌉ = Int.tdiv d 1000000000 := by
      intro h0
      rw [hwhole h0, Int.ceil_intCast]
    rcases le_total 0 d with h | h
    · obtain ⟨r1, r2⟩ := hnonneg h
      have c2 : ⌈r⌉ ≤ Int.tdiv d 1000000000 + 1 := Int.ceil_le.mpr r2
      have c1 : Int.tdiv d 1000000000 ≤ ⌈r⌉ := by exact_mod_cast le_trans r1 hup
      refine ⟨by omega, by omega, fun _ => c1, ?_, hzero⟩
      intro h'
      have hd0 : d = 0 := le_antisymm h' h
      have := tnonneg h
      have := tnonpos h'
      have := hzero (by omega)
      omega
    · obtain ⟨r1, r2⟩ := hnonpos h
      have c2 : ⌈r⌉ ≤ Int.tdiv d 1000000000 := Int.ceil_le.mpr r2
      have c1 : Int.tdiv d 1000000000 - 1 ≤ ⌈r⌉ := by exact_mod_cast le_trans r1 hup
      refine ⟨by omega, by omega, ?_, fun _ => c2, hzero⟩
      intro h'
      have hd0 : d = 0 := le_antisymm h h'
      have := tnonneg h'
      have := tnonpos h
      have := hzero (by omega)
      omega
  obtain ⟨k1, k2, k3, k4, k5⟩ := key
  have hrange : -2147483648 ≤ ⌈r⌉ ∧ ⌈r⌉ ≤ 2147483647 := by
    rcases le_total 0 d with h | h
    · have := tnonneg h
      have := k3 h
      by_cases hn : Int.tmod d 1000000000 = 0
      · have := k5 hn
        omega
      · omega
    · have := tnonpos h
      have := k4 h
      by_cases hn : Int.tmod d 1000000000 = 0
      · have := k5 hn
        omega
      · omega
  have hval : Int32Ceil int32OutOfRange (.finite r) = ⌈r⌉ := by
    unfold Int32Ceil
    simp only
    rw [if_pos hrange]
  rw [hval]
  refine ⟨?_, ?_, ?_⟩
  · rcases le_total 0 d with h | h
    · have := tnonneg h
      have := k3 h
      by_cases hn : Int.tmod d 1000000000 = 0
      · have := k5 hn
        omega
      · omega
    · have := tnonpos h
      have := k4 h
      omega
  · rcases le_total 0 d with h | h
    · have := tnonneg h
      have := k3 h
      omega
    · have := tnonpos h
      have := k4 h
      by_cases hn : Int.tmod d 1000000000 = 0
      · have := k5 hn
        omega
      · omega
  · intro hn
    have := k5 hn
    omega

/-- The subtraction of two times whose difference is within an `int32` of seconds is
exact. -/
theorem Sub_exact (t u : Int) (hmin : -2147483648 * 1000000000 ≤ t - u)
    (hmax : t - u ≤ 2147483647 * 1000000000) : Sub t u = t - u := by
  unfold Sub
  rw [if_neg (by omega), if_neg (by omega)]

/-- C14, as stated, fails: for an expiration time half a second in the past the decision is
accepted with a run timeout of 0, which is not negative and exceeds the time remaining,
-0.5 s. -/
theorem validateContinueAsNewWorkflowExecutionAttributes_zero_just_after_expiration :
    (previousExpiringAt (clockReading - 500 * Millisecond)).WorkflowExpirationTime ≠ 0
    ∧ (previousExpiringAt (clockReading - 500 * Millisecond)).WorkflowExpirationTime
        < clockReading
    ∧ Seconds (Sub (previousExpiringAt (clockReading - 500 * Millisecond)).WorkflowExpirationTime
        clockReading) = .finite (-1 / 2)
    ∧ (validateContinueAsNewWorkflowExecutionAttributes smallestInt32 clockReading
        twoLocalNamespaces (some continueAsNewWithBlanks)
        (previousExpiringAt (clockReading - 500 * Millisecond))).1 = none
    ∧ ∃ r, (validateContinueAsNewWorkflowExecutionAttributes smallestInt32 clockReading
        twoLocalNamespaces (some continueAsNewWithBlanks)
        (previousExpiringAt (clockReading - 500 * Millisecond))).2 = some r
      ∧ r.WorkflowRunTimeoutSeconds = 0
      ∧ ¬ r.WorkflowRunTimeoutSeconds < 0
      ∧ ¬ r.WorkflowRunTimeoutSeconds * Second
          ≤ (previousExpiringAt (clockReading - 500 * Millisecond)).WorkflowExpirationTime
            - clockReading :=
  ⟨by decide, by decide, by decide!, by decide!,
    { continueAsNewWithBlanks with
        WorkflowType := some { Name := "previous-type" }
        TaskList := some { Name := "previous-task-list", Kind := 0 }
        WorkflowRunTimeoutSeconds := 0
        WorkflowTaskTimeoutSeconds := 10 },
    by decide!, by decide, by decide, by decide⟩

/-- C14, amended: when the previous execution has a non-zero expiration time, an accepted
continue-as-new decision gets the run timeout min(ceil(s), R), where s is the number of
seconds from now until the expiration time as the `float64` that `Duration.Seconds()`
returns, and R is the requested run timeout if it is positive and the previous run timeout
otherwise; when the time remaining is within the range of an `int32` of seconds, ceil(s) is
less than one second away from the time remaining, so that the result is less than one
second above the time remaining before expiration, it is not positive for an expiration
time in the past, and it is negative for an expiration time one second or more in the
past. -/
theorem validateContinueAsNewWorkflowExecutionAttributes_reduces_runTimeout
    (int32OutOfRange : Float64 → Int) (now : Int)
    (v : decisionAttrValidator) (a : ContinueAsNewWorkflowExecutionDecisionAttributes)
    (executionInfo : WorkflowExecutionInfo)
    (hexp : executionInfo.WorkflowExpirationTime ≠ 0)
    (h : (validateContinueAsNewWorkflowExecutionAttributes int32OutOfRange now v (some a)
      executionInfo).1 = none) :
    ∃ r,
      (validateContinueAsNewWorkflowExecutionAttributes int32OutOfRange now v (some a)
        executionInfo).2 = some r
      ∧ r.WorkflowRunTimeoutSeconds
        = min (Int32Ceil int32OutOfRange
              (Seconds (Sub executionInfo.WorkflowExpirationTime now)))
            (if 0 < a.WorkflowRunTimeoutSeconds then a.WorkflowRunTimeoutSeconds
             else executionInfo.WorkflowRunTimeout)
      ∧ (-2147483648 * Second ≤ executionInfo.WorkflowExpirationTime - now →
          executionInfo.WorkflowExpirationTime - now ≤ 2147483647 * Second →
          (Int32Ceil int32OutOfRange
              (Seconds (Sub executionInfo.WorkflowExpirationTime now)) - 1) * Second
            < executionInfo.WorkflowExpirationTime - now
          ∧ executionInfo.WorkflowExpirationTime - now
            < (Int32Ceil int32OutOfRange
                (Seconds (Sub executionInfo.WorkflowExpirationTime now)) + 1) * Second
          ∧ (r.WorkflowRunTimeoutSeconds - 1) * Second
              < executionInfo.WorkflowExpirationTime - now
          ∧ (executionInfo.WorkflowExpirationTime < now → r.WorkflowRunTimeoutSeconds ≤ 0)
          ∧ (executionInfo.WorkflowExpirationTime + 1 * Second ≤ now →
              r.WorkflowRunTimeoutSeconds < 0)) := by
  obtain ⟨taskList, -, heq⟩ :=
    validateContinueAsNewWorkflowExecutionAttributes_accepted int32OutOfRange now v a
      executionInfo h
  obtain ⟨-, -, -, f3, -⟩ :=
    continueAsNew_result_fields int32OutOfRange now a executionInfo taskList
  rw [if_pos hexp, MinInt32_eq_min] at f3
  refine ⟨_, heq, f3, ?_⟩
  intro hmin hmax
  simp only [Second, Millisecond] at hmin hmax ⊢
  rw [f3, Sub_exact _ _ (by omega) (by omega)]
  obtain ⟨b1, b2, -⟩ := Int32Ceil_Seconds_between int32OutOfRange
    (executionInfo.WorkflowExpirationTime - now) (by omega) (by omega)
  have hm := min_le_left
    (Int32Ceil int32OutOfRange (Seconds (executionInfo.WorkflowExpirationTime - now)))
    (if 0 < a.WorkflowRunTimeoutSeconds then a.WorkflowRunTimeoutSeconds
     else executionInfo.WorkflowRunTimeout)
  generalize min
    (Int32Ceil int32OutOfRange (Seconds (executionInfo.WorkflowExpirationTime - now)))
    (if 0 < a.WorkflowRunTimeoutSeconds then a.WorkflowRunTimeoutSeconds
     else executionInfo.WorkflowRunTimeout) = m at hm ⊢
  generalize Int32Ceil int32OutOfRange
    (Seconds (executionInfo.WorkflowExpirationTime - now)) = c at *
  refine ⟨?_, ?_, ?_, ?_, ?_⟩ <;> omega

/-- The amended C14 at concrete inputs: with the expiration time 30.5 s ahead and nothing
requested, the previous run timeout of 60 s is reduced to 31 s; and for a duration of
20000000 s and 1 ns the `float64` has no room for the nanosecond, so that the ceiling is
20000000. -/
theorem validateContinueAsNewWorkflowExecutionAttributes_reduces_runTimeout_witness :
    (previousExpiringAt (clockReading + 30500 * Millisecond)).WorkflowExpirationTime ≠ 0
    ∧ validateContinueAsNewWorkflowExecutionAttributes smallestInt32 clockReading
        twoLocalNamespaces (some continueAsNewWithBlanks)
        (previousExpiringAt (clockReading + 30500 * Millisecond))
      = (none, some { continueAsNewWithBlanks with
          WorkflowType := some { Name := "previous-type" }
          TaskList := some { Name := "previous-task-list", Kind := 0 }
          WorkflowRunTimeoutSeconds := 31
          WorkflowTaskTimeoutSeconds := 10 })
    ∧ Seconds (20000000 * Second + 1) = .finite 20000000
    ∧ Int32Ceil smallestInt32 (Seconds (20000000 * Second + 1)) = 20000000
    ∧ ∃ r,
      (validateContinueAsNewWorkflowExecutionAttributes smallestInt32 clockReading
        twoLocalNamespaces (some continueAsNewWithBlanks)
        (previousExpiringAt (clockReading + 30500 * Millisecond))).2 = some r
      ∧ r.WorkflowRunTimeoutSeconds = 31
      ∧ (r.WorkflowRunTimeoutSeconds - 1) * Second
          < (previousExpiringAt (clockReading + 30500 * Millisecond)).WorkflowExpirationTime
            - clockReading :=
  ⟨by decide, by decide!, by decide!,
    by decide!,
    (validateContinueAsNewWorkflowExecutionAttributes_reduces_runTimeout smallestInt32
      clockReading twoLocalNamespaces continueAsNewWithBlanks
      (previousExpiringAt (clockReading + 30500 * Millisecond)) (by decide)
      (by decide!)).elim
      (fun r hr => ⟨r, hr.1,
        by
          have e := hr.1
          have v : validateContinueAsNewWorkflowExecutionAttributes smallestInt32
              clockReading twoLocalNamespaces (some continueAsNewWithBlanks)
              (previousExpiringAt (clockReading + 30500 * Millisecond))
            = (none, some { continueAsNewWithBlanks with
                WorkflowType := some { Name := "previous-type" }
                TaskList := some { Name := "previous-task-list", Kind := 0 }
                WorkflowRunTimeoutSeconds := 31
                WorkflowTaskTimeoutSeconds := 10 }) := by decide!
          rw [v] at e
          cases e
          rfl,
        (hr.2.2 (by decide) (by decide)).2.2.1⟩)⟩

/-! ## Workflow size checker -/

/-- C15, as stated, fails: on a closed execution whose history holds 1001 events, with a
count error limit of 1000, the limit is exceeded, `AddFailWorkflowEvent` returns an error,
and `failWorkflowSizeExceedsLimit` returns false with that error and appends nothing. -/
theorem failWorkflowSizeExceedsLimit_error_of_append :
    recordingMutableState.GetNextEventID (closedHistory 1001) - 1
        > sizeCheckerWithCountLimit1000.historyCountLimitError
    ∧ failWorkflowSizeExceedsLimit sizeCheckerWithCountLimit1000 (closedHistory 1001)
      = ((false, some (.Internal "invalid mutable state action: mutation after finish")),
          closedHistory 1001)
    ∧ (failWorkflowSizeExceedsLimit sizeCheckerWithCountLimit1000
        (closedHistory 1001)).2.appended = [] := by
  decide

/-- C15, amended: `failWorkflowSizeExceedsLimit` calls `AddFailWorkflowEvent` if and only if
the history size is greater than `historySizeLimitError` or the history count,
`nextEventID - 1`, is greater than `historyCountLimitError`; it returns true exactly when it
made the call and the call returned no error, and returns an error of the call as
(false, err); when neither limit is exceeded the mutable state is left as it was and
(false, nil) is returned. -/
theorem failWorkflowSizeExceedsLimit_iff {σ : Type} (c : workflowSizeChecker σ) (s : σ) :
    (¬ (c.executionStats.HistorySize > c.historySizeLimitError
          ∨ c.mutableState.GetNextEventID s - 1 > c.historyCountLimitError) →
        failWorkflowSizeExceedsLimit c s = ((false, none), s))
    ∧ ((c.executionStats.HistorySize > c.historySizeLimitError
          ∨ c.mutableState.GetNextEventID s - 1 > c.historyCountLimitError) →
        (failWorkflowSizeExceedsLimit c s).2
          = (c.mutableState.AddFailWorkflowEvent s c.completedID
              .RETRY_STATUS_NON_RETRYABLE_FAILURE sizeExceedsLimitAttributes).2
        ∧ (∀ event, (c.mutableState.AddFailWorkflowEvent s c.completedID
              .RETRY_STATUS_NON_RETRYABLE_FAILURE sizeExceedsLimitAttributes).1 = .ok event →
            (failWorkflowSizeExceedsLimit c s).1 = (true, none))
        ∧ (∀ err, (c.mutableState.AddFailWorkflowEvent s c.completedID
              .RETRY_STATUS_NON_RETRYABLE_FAILURE sizeExceedsLimitAttributes).1 = .error err →
            (failWorkflowSizeExceedsLimit c s).1 = (false, some err)))
    ∧ ((failWorkflowSizeExceedsLimit c s).1.1 = true ↔
        (c.executionStats.HistorySize > c.historySizeLimitError
          ∨ c.mutableState.GetNextEventID s - 1 > c.historyCountLimitError)
        ∧ ∃ event, (c.mutableState.AddFailWorkflowEvent s c.completedID
              .RETRY_STATUS_NON_RETRYABLE_FAILURE sizeExceedsLimitAttributes).1
            = .ok event) := by
  unfold failWorkflowSizeExceedsLimit sizeExceedsLimitAttributes
  simp only
  by_cases hx : c.executionStats.HistorySize > c.historySizeLimitError
      ∨ c.mutableState.GetNextEventID s - 1 > c.historyCountLimitError
  · rw [if_pos hx]
    cases hcall : c.mutableState.AddFailWorkflowEvent s c.completedID
        .RETRY_STATUS_NON_RETRYABLE_FAILURE
        { Failure := some (NewServerFailure FailureReasonSizeExceedsLimit false) } with
    | mk res s1 =>
      cases res with
      | error err =>
        refine ⟨fun hn => absurd hx hn, fun _ => ⟨rfl, ?_, ?_⟩, ?_⟩
        · intro event he
          cases he
        · intro err1 he
          cases he
          rfl
        · constructor
          · intro ht
            simp at ht
          · rintro ⟨-, event, he⟩
            cases he
      | ok event =>
        refine ⟨fun hn => absurd hx hn, fun _ => ⟨rfl, ?_, ?_⟩, ?_⟩
        · intro _ _
          rfl
        · intro err he
          cases he
        · exact ⟨fun _ => ⟨hx, event, rfl⟩, fun _ => rfl⟩
  · rw [if_neg hx]
    refine ⟨fun _ => ?_, fun hp => absurd hp hx, ?_⟩
    · split_ifs <;> rfl
    · constructor
      · intro ht
        split_ifs at ht
      · rintro ⟨hp, -⟩
        exact absurd hp hx

/-- The amended C15 with a count error limit of 1000: an open history of 1001 events is
failed, with one `WorkflowExecutionFailed` event appended and true returned, and an open
history of exactly 1000 events is left as it was, with (false, nil) returned. -/
theorem failWorkflowSizeExceedsLimit_iff_witness :
    (failWorkflowSizeExceedsLimit sizeCheckerWithCountLimit1000 (openHistory 1001)).1
        = (true, none)
    ∧ (failWorkflowSizeExceedsLimit sizeCheckerWithCountLimit1000
        (openHistory 1001)).2.appended.length = 1
    ∧ failWorkflowSizeExceedsLimit sizeCheckerWithCountLimit1000 (openHistory 1000)
        = ((false, none), openHistory 1000) :=
  ⟨((failWorkflowSizeExceedsLimit_iff sizeCheckerWithCountLimit1000
      (openHistory 1001)).2.1 (by decide)).2.1 _ rfl,
    by decide,
    (failWorkflowSizeExceedsLimit_iff sizeCheckerWithCountLimit1000
      (openHistory 1000)).1 (by decide)⟩

/-- C16, the code at an open history of 1001 events with a count error limit of 1000: the
appended event carries the reason "Workflow history size / count exceeds limit." and the
retry status NON_RETRYABLE_FAILURE, but its failure is not marked non-retryable; on the
blob-size path the failure carries the given message and is marked non-retryable. -/
theorem failWorkflowSizeExceedsLimit_failure_not_marked :
    (failWorkflowSizeExceedsLimit sizeCheckerWithCountLimit1000 (openHistory 1001)).2.appended
      = [{ EventId := 1002, DecisionTaskCompletedEventId := 7,
           RetryStatus := .RETRY_STATUS_NON_RETRYABLE_FAILURE,
           Failure := some { Message := "Workflow history size / count exceeds limit.",
                             NonRetryable := false } }]
    ∧ (failWorkflowIfPayloadSizeExceedsLimit sizeCheckerWithCountLimit1000 (openHistory 10)
        3000 "Payload exceeds size limit.").2.appended
      = [{ EventId := 11, DecisionTaskCompletedEventId := 7,
           RetryStatus := .RETRY_STATUS_NON_RETRYABLE_FAILURE,
           Failure := some { Message := "Payload exceeds size limit.",
                             NonRetryable := true } }] := by
  decide

/-- C17, the code at a blob of 10 bytes with a warn limit of 20 and an error limit of 5:
the size exceeds the error limit and nil is returned, the error check being made only above
the warn limit. -/
theorem CheckEventBlobSizeLimit_nil_above_error_limit :
    (10 : Int) > 5 ∧ CheckEventBlobSizeLimit 10 20 5 = none := by
  decide

/-! ## Retry policies of the service clients -/

/-- C18: each named constructor builds the exponential policy with its initial, maximum and
expiration interval: persistence 50 ms, 10 s, 30 s; history service 50 ms, 10 s, 30 s;
matching service 1 s, 10 s, 30 s; frontend service 200 ms, 5 s, 15 s; admin service 200 ms,
5 s, 15 s; kafka 50 ms, 10 s, 30 s. -/
theorem retryPolicy_intervals :
    (CreatePersistanceRetryPolicy.initialInterval = 50 * Millisecond
      ∧ CreatePersistanceRetryPolicy.maximumInterval = 10 * Second
      ∧ CreatePersistanceRetryPolicy.expirationInterval = 30 * Second)
    ∧ (CreateHistoryServiceRetryPolicy.initialInterval = 50 * Millisecond
      ∧ CreateHistoryServiceRetryPolicy.maximumInterval = 10 * Second
      ∧ CreateHistoryServiceRetryPolicy.expirationInterval = 30 * Second)
    ∧ (CreateMatchingServiceRetryPolicy.initialInterval = 1 * Second
      ∧ CreateMatchingServiceRetryPolicy.maximumInterval = 10 * Second
      ∧ CreateMatchingServiceRetryPolicy.expirationInterval = 30 * Second)
    ∧ (CreateFrontendServiceRetryPolicy.initialInterval = 200 * Millisecond
      ∧ CreateFrontendServiceRetryPolicy.maximumInterval = 5 * Second
      ∧ CreateFrontendServiceRetryPolicy.expirationInterval = 15 * Second)
    ∧ (CreateAdminServiceRetryPolicy.initialInterval = 200 * Millisecond
      ∧ CreateAdminServiceRetryPolicy.maximumInterval = 5 * Second
      ∧ CreateAdminServiceRetryPolicy.expirationInterval = 15 * Second)
    ∧ (CreateKafkaOperationRetryPolicy.initialInterval = 50 * Millisecond
      ∧ CreateKafkaOperationRetryPolicy.maximumInterval = 10 * Second
      ∧ CreateKafkaOperationRetryPolicy.expirationInterval = 30 * Second)
    ∧ CreatePersistanceRetryPolicy
      = ((NewExponentialRetryPolicy (50 * Millisecond)).SetMaximumInterval
          (10 * Second)).SetExpirationInterval (30 * Second)
    ∧ CreateMatchingServiceRetryPolicy
      = ((NewExponentialRetryPolicy (1000 * Millisecond)).SetMaximumInterval
          (10 * Second)).SetExpirationInterval (30 * Second) := by
  decide

/-! ## Error classification -/

/-- C19: `IsServiceNonRetryableError` is true exactly for the errors of kind NotFound,
InvalidArgument, NamespaceNotActive, WorkflowExecutionAlreadyStarted and
CancellationAlreadyRequested, and `IsServiceTransientError` is its negation, so that for
every error exactly one of the two holds. -/
theorem IsServiceNonRetryableError_iff (err : Option GoError) :
    (IsServiceNonRetryableError err = true ↔
      ∃ message, err = some (.NotFound message)
        ∨ err = some (.InvalidArgument message)
        ∨ err = some (.NamespaceNotActive message)
        ∨ err = some (.WorkflowExecutionAlreadyStarted message)
        ∨ err = some (.CancellationAlreadyRequested message))
    ∧ IsServiceTransientError err = !IsServiceNonRetryableError err
    ∧ ((IsServiceNonRetryableError err = true ∧ IsServiceTransientError err = false)
      ∨ (IsServiceNonRetryableError err = false ∧ IsServiceTransientError err = true)) := by
  refine ⟨?_, rfl, ?_⟩
  · rcases err with _ | e
    · simp [IsServiceNonRetryableError]
    · cases e <;> simp [IsServiceNonRetryableError]
  · unfold IsServiceTransientError
    cases IsServiceNonRetryableError err <;> simp

/-- C20, as stated, fails: for the context-cancellation error `context.Canceled` the
function `IsWhitelistServiceTransientError` returns false. -/
theorem IsWhitelistServiceTransientError_canceled :
    IsWhitelistServiceTransientError (some .ContextCanceled) = false := by
  decide

/-- C20, amended: `IsWhitelistServiceTransientError` returns true for every error of kind
Internal, ResourceExhausted, ShardOwnershipLost, DeadlineExceeded or Unavailable and also
for the context deadline error `context.DeadlineExceeded`; it returns false for the
non-retryable service error kinds and for `context.Canceled`. -/
theorem IsWhitelistServiceTransientError_kinds (message : String) :
    IsWhitelistServiceTransientError (some (.Internal message)) = true
    ∧ IsWhitelistServiceTransientError (some (.ResourceExhausted message)) = true
    ∧ IsWhitelistServiceTransientError (some (.ShardOwnershipLost message)) = true
    ∧ IsWhitelistServiceTransientError (some (.DeadlineExceeded message)) = true
    ∧ IsWhitelistServiceTransientError (some (.Unavailable message)) = true
    ∧ IsWhitelistServiceTransientError (some .ContextDeadlineExceeded) = true
    ∧ IsWhitelistServiceTransientError (some (.NotFound message)) = false
    ∧ IsWhitelistServiceTransientError (some (.InvalidArgument message)) = false
    ∧ IsWhitelistServiceTransientError (some (.NamespaceNotActive message)) = false
    ∧ IsWhitelistServiceTransientError (some (.WorkflowExecutionAlreadyStarted message)) = false
    ∧ IsWhitelistServiceTransientError (some (.CancellationAlreadyRequested message)) = false
    ∧ IsWhitelistServiceTransientError (some .ContextCanceled) = false := by
  simp [IsWhitelistServiceTransientError]

/-! ## Shard of a workflow id -/

/-- C21: for every workflow id and every shard count n with 0 < n < 2^32,
`WorkflowIDToHistoryShard` returns the 32-bit fingerprint of the id modulo n, a value in the
range [0, n); the result depends only on the id and n, so equal ids map to the same
shard. -/
theorem WorkflowIDToHistoryShard_mod (Fingerprint32 : String → Nat) (workflowID : String)
    (numberOfShards : Int) (hpos : 0 < numberOfShards) (hlt : numberOfShards < 2 ^ 32) :
    ∃ shard, WorkflowIDToHistoryShard Fingerprint32 workflowID numberOfShards = some shard
      ∧ shard = ((Fingerprint32 workflowID % 2 ^ 32 : Nat) : Int) % numberOfShards
      ∧ (Fingerprint32 workflowID < 2 ^ 32 →
          shard = (Fingerprint32 workflowID : Int) % numberOfShards)
      ∧ 0 ≤ shard ∧ shard < numberOfShards
      ∧ ∀ other, other = workflowID →
          WorkflowIDToHistoryShard Fingerprint32 other numberOfShards = some shard := by
  have hn : numberOfShards % 2 ^ 32 = numberOfShards := Int.emod_eq_of_lt (le_of_lt hpos) hlt
  have hne : ¬ numberOfShards = 0 := by omega
  have hval : WorkflowIDToHistoryShard Fingerprint32 workflowID numberOfShards
      = some (((Fingerprint32 workflowID % 2 ^ 32 : Nat) : Int) % numberOfShards) := by
    unfold WorkflowIDToHistoryShard
    simp only [hn, hne, if_false]
  refine ⟨_, hval, rfl, ?_, Int.emod_nonneg _ (by omega), Int.emod_lt_of_pos _ hpos, ?_⟩
  · intro hfp
    rw [Nat.mod_eq_of_lt hfp]
  · intro other ho
    rw [ho, hval]

/-- C21 at a concrete input: with 4 shards an id whose fingerprint is 7 goes to shard 3. -/
theorem WorkflowIDToHistoryShard_mod_witness :
    (0 : Int) < 4 ∧ (4 : Int) < 2 ^ 32
    ∧ WorkflowIDToHistoryShard (fun _ => 7) "some random workflow ID" 4 = some 3
    ∧ ∃ shard, WorkflowIDToHistoryShard (fun _ => 7) "some random workflow ID" 4 = some shard
      ∧ shard = (((fun _ => 7) "some random workflow ID" % 2 ^ 32 : Nat) : Int) % 4
      ∧ ((fun _ => 7) "some random workflow ID" < 2 ^ 32 →
          shard = (((fun _ => 7) "some random workflow ID" : Nat) : Int) % 4)
      ∧ 0 ≤ shard ∧ shard < 4
      ∧ ∀ other, other = "some random workflow ID" →
          WorkflowIDToHistoryShard (fun _ => 7) other 4 = some shard :=
  ⟨by decide, by decide, by decide,
    WorkflowIDToHistoryShard_mod (fun _ => 7) "some random workflow ID" 4
      (by decide) (by decide)⟩

/-! ## Contexts -/

/-- C22, the code at a context made with a deadline 5 ms in the future and not cancelled:
the remaining time is below the threshold of 10 ms and `IsValidContext` returns nil, the
look at the open `Done` channel returning before the deadline is read. -/
theorem IsValidContext_nil_before_deadline :
    (openContextWithDeadline (clockReading + 5 * Millisecond)).Done = some false
    ∧ (clockReading + 5 * Millisecond) - clockReading < contextExpireThreshold
    ∧ IsValidContext clockReading (openContextWithDeadline (clockReading + 5 * Millisecond))
      = none := by
  decide

/-- C23: `ValidateLongPollContextTimeout` returns `ErrContextTimeoutNotSet` if and only if
the context has no deadline, returns `ErrContextTimeoutTooShort` if and only if the context
has a deadline whose remaining time is below `MinLongPollTimeout`, and returns nil in every
other case; for a remaining time from `MinLongPollTimeout` up to `CriticalLongPollTimeout`
it returns nil and logs one warning. -/
theorem ValidateLongPollContextTimeout_cases
    (MinLongPollTimeout CriticalLongPollTimeout now : Int) (ctx : Context) :
    ((ValidateLongPollContextTimeout MinLongPollTimeout CriticalLongPollTimeout now ctx).1
        = some ErrContextTimeoutNotSet ↔ ctx.Deadline = none)
    ∧ ((ValidateLongPollContextTimeout MinLongPollTimeout CriticalLongPollTimeout now ctx).1
        = some ErrContextTimeoutTooShort ↔
          ∃ deadline, ctx.Deadline = some deadline ∧ deadline - now < MinLongPollTimeout)
    ∧ ((ValidateLongPollContextTimeout MinLongPollTimeout CriticalLongPollTimeout now ctx).1
        = none ↔
          ∃ deadline, ctx.Deadline = some deadline ∧ MinLongPollTimeout ≤ deadline - now)
    ∧ (∀ deadline, ctx.Deadline = some deadline → MinLongPollTimeout ≤ deadline - now →
        deadline - now < CriticalLongPollTimeout →
        ValidateLongPollContextTimeout MinLongPollTimeout CriticalLongPollTimeout now ctx
          = (none, [{ level := .Warn,
                      message :=
                        "Context timeout is lower than critical value for long poll API." }])) := by
  have hne : ErrContextTimeoutNotSet ≠ ErrContextTimeoutTooShort := by decide
  cases hd : ctx.Deadline with
  | none =>
    have hv : ValidateLongPollContextTimeout MinLongPollTimeout CriticalLongPollTimeout now ctx
        = (some ErrContextTimeoutNotSet,
            [{ level := .Error, message := "Context timeout not set for long poll API." }]) := by
      simp [ValidateLongPollContextTimeout, ValidateLongPollContextTimeoutIsSet, hd]
    rw [hv]
    refine ⟨by simp, ?_, by simp, ?_⟩
    · constructor
      · intro h
        exact absurd (Option.some.inj h) hne
      · rintro ⟨d, h, -⟩
        cases h
    · intro d h
      cases h
  | some deadline =>
    have hv : ValidateLongPollContextTimeout MinLongPollTimeout CriticalLongPollTimeout now ctx
        = if deadline - now < MinLongPollTimeout then
            (some ErrContextTimeoutTooShort,
              [{ level := .Error,
                 message := "Context timeout is too short for long poll API." }])
          else if deadline - now < CriticalLongPollTimeout then
            (none, [{ level := .Warn,
                      message :=
                        "Context timeout is lower than critical value for long poll API." }])
          else (none, []) := by
      simp [ValidateLongPollContextTimeout, ValidateLongPollContextTimeoutIsSet, hd]
    rw [hv]
    by_cases h1 : deadline - now < MinLongPollTimeout
    · rw [if_pos h1]
      refine ⟨?_, ?_, ?_, ?_⟩
      · constructor
        · intro h
          exact absurd (Option.some.inj h).symm hne
        · intro h
          cases h
      · exact ⟨fun _ => ⟨deadline, rfl, h1⟩, fun _ => rfl⟩
      · constructor
        · intro h
          cases h
        · rintro ⟨d, hd1, hd2⟩
          cases hd1
          omega
      · intro d hd1 hd2
        cases hd1
        omega
    · rw [if_neg h1]
      refine ⟨?_, ?_, ?_, ?_⟩
      · constructor
        · intro h
          split_ifs at h
        · intro h
          cases h
      · constructor
        · intro h
          split_ifs at h
        · rintro ⟨d, hd1, hd2⟩
          cases hd1
          exact absurd hd2 h1
      · constructor
        · intro _
          exact ⟨deadline, rfl, by omega⟩
        · intro _
          split_ifs <;> rfl
      · intro d hd1 _ hd3
        cases hd1
        rw [if_pos hd3]

/-- C23 at concrete inputs, with a minimum of 2 s and a critical value of 20 s: no deadline
gives `ErrContextTimeoutNotSet`, a deadline 5 ms ahead gives `ErrContextTimeoutTooShort`, and
a deadline 5 s ahead gives nil with one warning logged. -/
theorem ValidateLongPollContextTimeout_cases_witness :
    (ValidateLongPollContextTimeout (2 * Second) (20 * Second) clockReading
        { Done := none, Err := none, Deadline := none }).1 = some ErrContextTimeoutNotSet
    ∧ (ValidateLongPollContextTimeout (2 * Second) (20 * Second) clockReading
        (openContextWithDeadline (clockReading + 5 * Millisecond))).1
      = some ErrContextTimeoutTooShort
    ∧ ValidateLongPollContextTimeout (2 * Second) (20 * Second) clockReading
        (openContextWithDeadline (clockReading + 5 * Second))
      = (none, [{ level := .Warn,
                  message :=
                    "Context timeout is lower than critical value for long poll API." }]) :=
  ⟨by decide, by decide,
    (ValidateLongPollContextTimeout_cases (2 * Second) (20 * Second) clockReading
      (openContextWithDeadline (clockReading + 5 * Second))).2.2.2
      (clockReading + 5 * Second) rfl (by decide) (by decide)⟩

/-! ## Retry policy -/

/-- A coefficient is not less than 1 exactly when it is at least 1 or is not a number. -/
theorem Float64.not_lt_one_iff (x : Float64) :
    x.lt (.finite 1) = false ↔ (x = .nan ∨ Float64.le (.finite 1) x = true) := by
  cases x with
  | nan => simp [Float64.lt]
  | negInf => simp [Float64.lt, Float64.le]
  | finite q => simp [Float64.lt, Float64.le]
  | posInf => simp [Float64.lt, Float64.le]

/-- C24, as stated, fails: a policy whose backoff coefficient is not a number is accepted,
although the coefficient is not at least 1. -/
theorem ValidateRetryPolicy_accepts_nan :
    ValidateRetryPolicy (some (retryPolicyWithCoefficient .nan)) = none
    ∧ Float64.le (.finite 1) (retryPolicyWithCoefficient .nan).BackoffCoefficient = false := by
  decide

/-- C24, amended: `ValidateRetryPolicy` accepts a nil policy, and accepts a non-nil policy
if and only if its initial interval is not negative, its backoff coefficient is at least 1
or is not a number, its maximum interval is not negative and is either 0 or at least the
initial interval, and its maximum attempts is not negative; every other policy is rejected
with InvalidArgument. -/
theorem ValidateRetryPolicy_accepts_iff (policy : RetryPolicy) :
    ValidateRetryPolicy none = none
    ∧ (ValidateRetryPolicy (some policy) = none ↔
        0 ≤ policy.InitialIntervalInSeconds
        ∧ (policy.BackoffCoefficient = .nan
            ∨ Float64.le (.finite 1) policy.BackoffCoefficient = true)
        ∧ 0 ≤ policy.MaximumIntervalInSeconds
        ∧ (policy.MaximumIntervalInSeconds = 0
            ∨ policy.InitialIntervalInSeconds ≤ policy.MaximumIntervalInSeconds)
        ∧ 0 ≤ policy.MaximumAttempts)
    ∧ (ValidateRetryPolicy (some policy) ≠ none →
        ∃ message, ValidateRetryPolicy (some policy) = some (.InvalidArgument message)) := by
  have hco := Float64.not_lt_one_iff policy.BackoffCoefficient
  refine ⟨rfl, ?_, ?_⟩
  · unfold ValidateRetryPolicy
    simp only
    constructor
    · intro h
      split_ifs at h with h1 h2 h3 h4 h5
      refine ⟨by omega, hco.mp (by simpa using h2), by omega, by omega, by omega⟩
    · rintro ⟨g1, g2, g3, g4, g5⟩
      have e1 : ¬ policy.InitialIntervalInSeconds < 0 := by omega
      have e3 : ¬ policy.MaximumIntervalInSeconds < 0 := by omega
      have e4 : ¬ (policy.MaximumIntervalInSeconds > 0
          ∧ policy.MaximumIntervalInSeconds < policy.InitialIntervalInSeconds) := by omega
      have e5 : ¬ policy.MaximumAttempts < 0 := by omega
      simp [e1, e3, e4, e5, hco.mpr g2]
  · intro hne
    cases hr : ValidateRetryPolicy (some policy) with
    | none => exact absurd hr hne
    | some err =>
      obtain ⟨m, hm⟩ := ValidateRetryPolicy_invalidArgument (some policy) err hr
      exact ⟨m, by rw [hm]⟩

/-- The amended C24 at concrete inputs: a policy with coefficient 2 and every interval at 0
is accepted, and one with coefficient 1/2 is rejected with InvalidArgument. -/
theorem ValidateRetryPolicy_accepts_iff_witness :
    ValidateRetryPolicy (some (retryPolicyWithCoefficient (.finite 2))) = none
    ∧ ∃ message, ValidateRetryPolicy (some (retryPolicyWithCoefficient (.finite (1 / 2))))
        = some (.InvalidArgument message) :=
  ⟨(ValidateRetryPolicy_accepts_iff (retryPolicyWithCoefficient (.finite 2))).2.1.mpr
      ⟨le_refl _, Or.inr (by simp [retryPolicyWithCoefficient, Float64.le]), le_refl _,
        Or.inl rfl, le_refl _⟩,
    (ValidateRetryPolicy_accepts_iff (retryPolicyWithCoefficient (.finite (1 / 2)))).2.2
      (by
        intro h
        have h2 := ((ValidateRetryPolicy_accepts_iff
          (retryPolicyWithCoefficient (.finite (1 / 2)))).2.1.mp h).2.1
        simp [retryPolicyWithCoefficient, Float64.le] at h2
        norm_num at h2)⟩

/-! ## The cross-namespace error -/

/-- C25, as stated, fails in its last part: a child start between two namespaces with the
different active clusters `cluster-a` and `cluster-b` is accepted when neither namespace is
global. -/
theorem validateStartChildExecutionAttributes_accepts_different_active_clusters :
    twoLocalNamespaces.namespaceCache "ns-a" = .ok localAlpha
    ∧ twoLocalNamespaces.namespaceCache "ns-b" = .ok localBeta
    ∧ localAlpha.replicationConfig.ActiveClusterName
        ≠ localBeta.replicationConfig.ActiveClusterName
    ∧ (validateStartChildExecutionAttributes acceptEverySchedule twoLocalNamespaces
        "ns-a" "ns-b" (some childWithBlanks) parentOnPlainTaskList).1 = none :=
  ⟨rfl, rfl, by decide, by decide⟩

/-- C25, amended: whenever `validateCrossNamespaceCall` rejects a call between two
namespaces that both resolve in the cache, the error is InvalidArgument and its message is
`cannot make cross namespace call between`, the name of the calling namespace, `and`, the
name of the target namespace; `validateStartChildExecutionAttributes` returns that error
for every child start that `validateCrossNamespaceCall` rejects, which is the case for two
different namespaces, at least one of them global, whose active clusters differ and belong
each to the cluster list of its namespace. -/
theorem validateCrossNamespaceCall_error_names_both (ValidateSchedule : String → Option GoError)
    (v : decisionAttrValidator) (namespaceID targetNamespaceID : String)
    (e t : NamespaceCacheEntry)
    (attributes : Option StartChildWorkflowExecutionDecisionAttributes)
    (parentInfo : WorkflowExecutionInfo)
    (he : v.namespaceCache namespaceID = .ok e)
    (ht : v.namespaceCache targetNamespaceID = .ok t) :
    (∀ err, validateCrossNamespaceCall v namespaceID targetNamespaceID = some err →
        err = .InvalidArgument
            ("cannot make cross namespace call between " ++ e.Name ++ " and " ++ t.Name)
        ∧ (validateStartChildExecutionAttributes ValidateSchedule v namespaceID
            targetNamespaceID attributes parentInfo).1 = some err)
    ∧ (namespaceID ≠ targetNamespaceID →
        e.isGlobalNamespace = true ∨ t.isGlobalNamespace = true →
        e.replicationConfig.ActiveClusterName ∈ e.replicationConfig.Clusters →
        t.replicationConfig.ActiveClusterName ∈ t.replicationConfig.Clusters →
        e.replicationConfig.ActiveClusterName ≠ t.replicationConfig.ActiveClusterName →
        (validateStartChildExecutionAttributes ValidateSchedule v namespaceID
            targetNamespaceID attributes parentInfo).1
          = some (.InvalidArgument
              ("cannot make cross namespace call between " ++ e.Name ++ " and " ++ t.Name))) := by
  have hres := validateCrossNamespaceCall_resolved v namespaceID targetNamespaceID e t he ht
  have hchild : ∀ err, validateCrossNamespaceCall v namespaceID targetNamespaceID = some err →
      (validateStartChildExecutionAttributes ValidateSchedule v namespaceID
        targetNamespaceID attributes parentInfo).1 = some err := by
    intro err herr
    unfold validateStartChildExecutionAttributes
    simp only [herr]
  constructor
  · intro err herr
    refine ⟨?_, hchild err herr⟩
    rw [hres] at herr
    split_ifs at herr
    exact (Option.some.inj herr).symm
  · intro hid hglobal hea hta hdiff
    apply hchild
    rw [hres, if_neg]
    · rfl
    · rintro (h | ⟨h1, h2⟩ | ⟨h1, h2, h3⟩)
      · exact hid h
      · rcases hglobal with h | h
        · rw [h1] at h
          cases h
        · rw [h2] at h
          cases h
      · rw [← h3] at hta
        obtain ⟨c, hc⟩ := List.length_eq_one.mp h1
        rw [hc] at hea hta
        rw [List.mem_singleton] at hea hta
        exact hdiff (hea.trans hta.symm)

/-- The amended C25 at a concrete input: a child start from the global namespace `alpha` on
`cluster-a` into the global namespace `beta` on `cluster-b` is rejected with the message
naming `alpha` first and `beta` second. -/
theorem validateCrossNamespaceCall_error_names_both_witness :
    twoGlobalNamespaces.namespaceCache "ns-a" = .ok globalAlpha
    ∧ twoGlobalNamespaces.namespaceCache "ns-b" = .ok globalBeta
    ∧ (validateStartChildExecutionAttributes acceptEverySchedule twoGlobalNamespaces
        "ns-a" "ns-b" (some childWithBlanks) parentOnPlainTaskList).1
      = some (.InvalidArgument "cannot make cross namespace call between alpha and beta") :=
  ⟨rfl, rfl,
    (validateCrossNamespaceCall_error_names_both acceptEverySchedule twoGlobalNamespaces
      "ns-a" "ns-b" globalAlpha globalBeta (some childWithBlanks) parentOnPlainTaskList
      rfl rfl).2 (by decide) (Or.inl rfl) (by decide) (by decide) (by decide)⟩

/-! ## Signal-external decisions -/

/-- C26, the code at a signal name of 5 bytes under an id-length limit of 4:
`validateSignalExternalWorkflowExecutionAttributes` returns nil, the signal name being
checked for emptiness only. -/
theorem validateSignalExternalWorkflowExecutionAttributes_long_signal_name :
    twoGlobalNamespaces.maxIDLengthLimit = 4
    ∧ len (signalWithName "abcde").SignalName = 5
    ∧ validateSignalExternalWorkflowExecutionAttributes (fun _ => true) twoGlobalNamespaces
        "ns-a" "ns-a" (some (signalWithName "abcde")) = none := by
  decide

/-! ## Cross-namespace calls and the active cluster -/

/-- C28: when both namespace ids resolve in the cache, `validateCrossNamespaceCall` accepts
if and only if the ids are equal, or neither namespace is global, or both replication
cluster lists have exactly one element and those elements are equal; replacing the active
cluster names of the entries in the cache never changes the result; and for different ids a
failed lookup of the calling namespace, or else of the target namespace, is returned as the
error unchanged. -/
theorem validateCrossNamespaceCall_reads_no_active_cluster (v : decisionAttrValidator)
    (namespaceID targetNamespaceID : String) :
    (∀ e t, v.namespaceCache namespaceID = .ok e → v.namespaceCache targetNamespaceID = .ok t →
        (validateCrossNamespaceCall v namespaceID targetNamespaceID = none ↔
          namespaceID = targetNamespaceID
          ∨ (e.isGlobalNamespace = false ∧ t.isGlobalNamespace = false)
          ∨ ∃ c, e.replicationConfig.Clusters = [c] ∧ t.replicationConfig.Clusters = [c]))
    ∧ (∀ rename, validateCrossNamespaceCall (withActiveClusterNames rename v)
          namespaceID targetNamespaceID
        = validateCrossNamespaceCall v namespaceID targetNamespaceID)
    ∧ (∀ err, namespaceID ≠ targetNamespaceID → v.namespaceCache namespaceID = .error err →
        validateCrossNamespaceCall v namespaceID targetNamespaceID = some err)
    ∧ (∀ e err, namespaceID ≠ targetNamespaceID → v.namespaceCache namespaceID = .ok e →
        v.namespaceCache targetNamespaceID = .error err →
        validateCrossNamespaceCall v namespaceID targetNamespaceID = some err) := by
  refine ⟨?_, ?_, ?_, ?_⟩
  · intro e t he ht
    rw [validateCrossNamespaceCall_resolved v namespaceID targetNamespaceID e t he ht]
    have hiff : (e.replicationConfig.Clusters.length = 1
          ∧ t.replicationConfig.Clusters.length = 1
          ∧ e.replicationConfig.Clusters = t.replicationConfig.Clusters)
        ↔ ∃ c, e.replicationConfig.Clusters = [c] ∧ t.replicationConfig.Clusters = [c] := by
      constructor
      · rintro ⟨h1, -, h3⟩
        obtain ⟨c, hc⟩ := List.length_eq_one.mp h1
        exact ⟨c, hc, by rw [← h3, hc]⟩
      · rintro ⟨c, h1, h2⟩
        rw [h1, h2]
        exact ⟨rfl, rfl, rfl⟩
    rw [← hiff]
    split_ifs with h
    · exact ⟨fun _ => h, fun _ => rfl⟩
    · constructor
      · intro hn
        cases hn
      · intro hn
        exact absurd hn h
  · intro rename
    unfold validateCrossNamespaceCall withActiveClusterNames
    by_cases hid : namespaceID = targetNamespaceID
    · simp only [hid, if_true]
    · simp only [hid, if_false]
      cases he : v.namespaceCache namespaceID with
      | error err => rfl
      | ok e =>
        cases ht : v.namespaceCache targetNamespaceID with
        | error err => rfl
        | ok t => rfl
  · intro err hid he
    unfold validateCrossNamespaceCall
    simp only [hid, if_false, he]
  · intro e err hid he ht
    unfold validateCrossNamespaceCall
    simp only [hid, if_false, he, ht]

/-- C28 at concrete inputs: renaming every active cluster to `elsewhere` leaves the verdict
on the two global namespaces as it is, and an id the cache does not know gives the
error of the cache. -/
theorem validateCrossNamespaceCall_reads_no_active_cluster_witness :
    validateCrossNamespaceCall (withActiveClusterNames (fun _ => "elsewhere")
        twoGlobalNamespaces) "ns-a" "ns-b"
      = validateCrossNamespaceCall twoGlobalNamespaces "ns-a" "ns-b"
    ∧ validateCrossNamespaceCall twoGlobalNamespaces "ns-a" "ns-b"
      = some (createCrossNamespaceCallError globalAlpha globalBeta)
    ∧ validateCrossNamespaceCall twoGlobalNamespaces "ns-c" "ns-a"
      = some (.NotFound "namespace not found")
    ∧ validateCrossNamespaceCall twoGlobalNamespaces "ns-a" "ns-c"
      = some (.NotFound "namespace not found") :=
  ⟨(validateCrossNamespaceCall_reads_no_active_cluster twoGlobalNamespaces "ns-a" "ns-b").2.1
      (fun _ => "elsewhere"),
    by decide,
    (validateCrossNamespaceCall_reads_no_active_cluster twoGlobalNamespaces "ns-c" "ns-a").2.2.1
      (.NotFound "namespace not found") (by decide) rfl,
    (validateCrossNamespaceCall_reads_no_active_cluster twoGlobalNamespaces "ns-a" "ns-c").2.2.2
      globalAlpha (.NotFound "namespace not found") (by decide) rfl rfl⟩

/-! ## Rejected and accepted schedule-activity decisions -/

/-- C29: whenever `validateActivityScheduleAttributes` returns an error, the attributes
behind the pointer are the attributes passed in: no timeout and no task list field has
been rewritten; the task list check, made with an empty default name, hands back the task
list it was given. -/
theorem validateActivityScheduleAttributes_rejection_keeps_attributes
    (v : decisionAttrValidator) (namespaceID targetNamespaceID : String)
    (attributes : Option ScheduleActivityTaskDecisionAttributes) (runTimeout : Int)
    (h : (validateActivityScheduleAttributes v namespaceID targetNamespaceID attributes
      runTimeout).1 ≠ none) :
    (validateActivityScheduleAttributes v namespaceID targetNamespaceID attributes
      runTimeout).2 = attributes
    ∧ ∀ taskList, (validatedTaskList v (some taskList) "").1 = taskList := by
  constructor
  · unfold validateActivityScheduleAttributes at h ⊢
    cases hc : validateCrossNamespaceCall v namespaceID targetNamespaceID with
    | some err => simp only [hc]
    | none =>
      cases attributes with
      | none => simp only [hc]
      | some a =>
        cases ht : (validatedTaskList v a.TaskList "").2 with
        | some err => simp only [hc, ht]
        | none =>
          cases hr : ValidateRetryPolicy a.RetryPolicy with
          | some err =>
            simp only [hc, ht, hr]
            split_ifs <;> rfl
          | none =>
            cases hd : deduceActivityTimeouts a runTimeout with
            | none =>
              simp only [hc, ht, hr, hd]
              split_ifs <;> rfl
            | some d =>
              simp only [hc, ht, hr, hd] at h ⊢
              split_ifs at h ⊢
              all_goals first | rfl | exact absurd rfl h
  · intro taskList
    unfold validatedTaskList
    simp only []
    split_ifs <;> rfl

/-- C29 at a concrete input: a decision with a negative heartbeat timeout is rejected and
its attributes are as they were passed in. -/
theorem validateActivityScheduleAttributes_rejection_keeps_attributes_witness :
    (validateActivityScheduleAttributes twoLocalNamespaces "ns-a" "ns-a"
        (some (activityWithTimeouts 10 5 8 (-3))) 6).1
      = some (.InvalidArgument "A valid timeout may not be negative.")
    ∧ (validateActivityScheduleAttributes twoLocalNamespaces "ns-a" "ns-a"
        (some (activityWithTimeouts 10 5 8 (-3))) 6).2
      = some (activityWithTimeouts 10 5 8 (-3)) :=
  ⟨by decide,
    (validateActivityScheduleAttributes_rejection_keeps_attributes twoLocalNamespaces
      "ns-a" "ns-a" (some (activityWithTimeouts 10 5 8 (-3))) 6 (by decide)).1⟩

/-- C30: for every positive run timeout and every input that
`validateActivityScheduleAttributes` accepts, the resulting timeouts satisfy
0 < schedule-to-start ≤ schedule-to-close ≤ run timeout,
0 < start-to-close ≤ schedule-to-close, and 0 ≤ heartbeat ≤ schedule-to-close. -/
theorem validateActivityScheduleAttributes_timeouts_ordered
    (v : decisionAttrValidator) (namespaceID targetNamespaceID : String)
    (attributes : Option ScheduleActivityTaskDecisionAttributes) (runTimeout : Int)
    (hrun : 0 < runTimeout)
    (h : (validateActivityScheduleAttributes v namespaceID targetNamespaceID attributes
      runTimeout).1 = none) :
    ∃ r, (validateActivityScheduleAttributes v namespaceID targetNamespaceID attributes
        runTimeout).2 = some r
      ∧ 0 < r.ScheduleToStartTimeoutSeconds
      ∧ r.ScheduleToStartTimeoutSeconds ≤ r.ScheduleToCloseTimeoutSeconds
      ∧ r.ScheduleToCloseTimeoutSeconds ≤ runTimeout
      ∧ 0 < r.StartToCloseTimeoutSeconds
      ∧ r.StartToCloseTimeoutSeconds ≤ r.ScheduleToCloseTimeoutSeconds
      ∧ 0 ≤ r.HeartbeatTimeoutSeconds
      ∧ r.HeartbeatTimeoutSeconds ≤ r.ScheduleToCloseTimeoutSeconds := by
  obtain ⟨a, d, -, -, hn, hd, hres⟩ :=
    validateActivityScheduleAttributes_accepted v namespaceID targetNamespaceID attributes
      runTimeout h
  obtain ⟨p1, p2, p3, p4, p5⟩ := capActivityTimeouts_deduced a d runTimeout hn hd
  obtain ⟨q1, -, -, -⟩ := p2 hrun
  obtain ⟨r1, r2, r3, r4, -⟩ := p5 (le_of_lt hrun)
  have hpos : 0 < (capActivityTimeouts d runTimeout).ScheduleToCloseTimeoutSeconds := by
    rcases lt_or_eq_of_le hn.1 with hlt | heq
    · have := (p3 hlt).2.2.2.2.2.2.1 hrun
      rw [this]
      exact lt_min hlt hrun
    · rw [(p4 heq.symm).2.1]
      exact hrun
  obtain ⟨t1, t2, t3⟩ := r4 hpos
  refine ⟨capActivityTimeouts d runTimeout, by rw [hres], t1, t2, q1, r3, t3, r2, p1⟩

/-- C30 at a concrete input: with a run timeout of 6 the timeouts 10, 5, 8 and 3 become
6, 5, 6 and 3. -/
theorem validateActivityScheduleAttributes_timeouts_ordered_witness :
    (0 : Int) < 6
    ∧ validateActivityScheduleAttributes twoLocalNamespaces "ns-a" "ns-a"
        (some (activityWithTimeouts 10 5 8 3)) 6
      = (none, some (activityWithTimeouts 6 5 6 3))
    ∧ ∃ r, (validateActivityScheduleAttributes twoLocalNamespaces "ns-a" "ns-a"
        (some (activityWithTimeouts 10 5 8 3)) 6).2 = some r
      ∧ 0 < r.ScheduleToStartTimeoutSeconds
      ∧ r.ScheduleToStartTimeoutSeconds ≤ r.ScheduleToCloseTimeoutSeconds
      ∧ r.ScheduleToCloseTimeoutSeconds ≤ 6
      ∧ 0 < r.StartToCloseTimeoutSeconds
      ∧ r.StartToCloseTimeoutSeconds ≤ r.ScheduleToCloseTimeoutSeconds
      ∧ 0 ≤ r.HeartbeatTimeoutSeconds
      ∧ r.HeartbeatTimeoutSeconds ≤ r.ScheduleToCloseTimeoutSeconds :=
  ⟨by decide, by decide,
    validateActivityScheduleAttributes_timeouts_ordered twoLocalNamespaces "ns-a" "ns-a"
      (some (activityWithTimeouts 10 5 8 3)) 6 (by decide) (by decide)⟩

/-! ## State builder -/

/-- No call of a handler is one of the calls selected by a test that is false on every
handler call. -/
theorem filter_handler_calls (p : BuilderCall → Bool)
    (hp : ∀ call, p (BuilderCall.handler call) = false) (calls : List HandlerCall) :
    (calls.map BuilderCall.handler).filter p = [] := by
  induction calls with
  | nil => rfl
  | cons call rest ih => simp [List.filter_cons, hp call, ih]

/-- The calls made for the events of a batch: the two replication-state updates of each
event in order among them, and no timer refresh and no clearing of the sticky task list. -/
theorem applyEventsFrom_calls {σ : Type}
    (handle : σ → ReplicatedEvent → Except GoError (σ × List HandlerCall)) :
    ∀ (batch : List ReplicatedEvent) (s : σ) (previous : Option ReplicatedEvent) (s' : σ)
      (calls : List BuilderCall),
      applyEventsFrom handle s previous batch = .ok (s', calls) →
      calls.filter BuilderCall.isReplication = (batch.map replicationCalls).flatten
      ∧ calls.filter BuilderCall.isActivityTimer = []
      ∧ calls.filter BuilderCall.isUserTimer = []
      ∧ calls.filter BuilderCall.isClearStickyness = [] := by
  intro batch
  induction batch with
  | nil =>
    intro s previous s' calls h
    simp only [applyEventsFrom] at h
    cases h
    exact ⟨rfl, rfl, rfl, rfl⟩
  | cons event rest ih =>
    intro s previous s' calls h
    simp only [applyEventsFrom] at h
    split_ifs at h with hf
    cases hh : handle s event with
    | error err => simp [hh] at h
    | ok r =>
      obtain ⟨s1, made⟩ := r
      simp only [hh] at h
      cases hr : applyEventsFrom handle s1 (some event) rest with
      | error err => simp [hr] at h
      | ok r2 =>
        obtain ⟨s2, later⟩ := r2
        simp only [hr] at h
        cases h
        obtain ⟨i1, i2, i3, i4⟩ := ih s1 (some event) _ later hr
        have m1 := filter_handler_calls BuilderCall.isReplication (fun _ => rfl) made
        have m2 := filter_handler_calls BuilderCall.isActivityTimer (fun _ => rfl) made
        have m3 := filter_handler_calls BuilderCall.isUserTimer (fun _ => rfl) made
        have m4 := filter_handler_calls BuilderCall.isClearStickyness (fun _ => rfl) made
        refine ⟨?_, ?_, ?_, ?_⟩
        · simp [List.filter_append, List.filter_cons, m1, i1, replicationCalls,
            BuilderCall.isReplication]
        · simp [List.filter_append, List.filter_cons, m2, i2, BuilderCall.isActivityTimer]
        · simp [List.filter_append, List.filter_cons, m3, i3, BuilderCall.isUserTimer]
        · simp [List.filter_append, List.filter_cons, m4, i4, BuilderCall.isClearStickyness]

/-- C27: for every non-empty batch that `applyEvents` accepts, whatever the handlers of the
event types do, the calls that update the replication state are, in order, the version and
then the last event id with the version and the id of each event of the batch, once per
event; the calls end with the activity-timer tasks, the user-timer tasks and the clearing
of the sticky task list, and each of these three is made exactly once, the two timer
refreshes with the timestamp of the last event of the batch. -/
theorem applyEvents_replication_and_refresh {σ : Type}
    (handle : σ → ReplicatedEvent → Except GoError (σ × List HandlerCall))
    (s s' : σ) (batch : List ReplicatedEvent) (calls : List BuilderCall)
    (hbatch : batch ≠ [])
    (h : applyEvents handle s batch = .ok (s', calls)) :
    ∃ last front, batch.getLast? = some last
      ∧ calls = front ++ [BuilderCall.generateActivityTimerTasks last.Timestamp,
                          BuilderCall.generateUserTimerTasks last.Timestamp,
                          BuilderCall.clearStickyness]
      ∧ calls.filter BuilderCall.isReplication = (batch.map replicationCalls).flatten
      ∧ calls.filter BuilderCall.isActivityTimer
          = [BuilderCall.generateActivityTimerTasks last.Timestamp]
      ∧ calls.filter BuilderCall.isUserTimer
          = [BuilderCall.generateUserTimerTasks last.Timestamp]
      ∧ calls.filter BuilderCall.isClearStickyness = [BuilderCall.clearStickyness] := by
  unfold applyEvents at h
  cases hl : batch.getLast? with
  | none => exact absurd (List.getLast?_eq_none_iff.mp hl) hbatch
  | some last =>
    simp only [hl] at h
    cases hr : applyEventsFrom handle s none batch with
    | error err => simp [hr] at h
    | ok r =>
      obtain ⟨s1, front⟩ := r
      simp only [hr] at h
      cases h
      obtain ⟨i1, i2, i3, i4⟩ := applyEventsFrom_calls handle batch s none _ front hr
      refine ⟨last, front, rfl, rfl, ?_, ?_, ?_, ?_⟩
      · simp [List.filter_append, List.filter_cons, i1, BuilderCall.isReplication]
      · simp [List.filter_append, List.filter_cons, i2, BuilderCall.isActivityTimer]
      · simp [List.filter_append, List.filter_cons, i3, BuilderCall.isUserTimer]
      · simp [List.filter_append, List.filter_cons, i4, BuilderCall.isClearStickyness]

/-- C27 at a concrete input: the batch of the events 130 and 131 is accepted, and the calls
made for it are the replication-state updates of 130, its handler, those of 131, its
handler, and the three calls that close the batch with the timestamp 2000 of event 131. -/
theorem applyEvents_replication_and_refresh_witness :
    applyEvents replicateAndOneTask () twoEventBatch
      = .ok ((), [.updateVersion 1, .updateLastEventId 1 130,
          .handler (.replicate 130), .handler (.generateTask 25 1000),
          .updateVersion 1, .updateLastEventId 1 131,
          .handler (.replicate 131), .handler (.generateTask 5 2000),
          .generateActivityTimerTasks 2000, .generateUserTimerTasks 2000, .clearStickyness])
    ∧ ∃ last front, twoEventBatch.getLast? = some last
      ∧ [BuilderCall.updateVersion 1, .updateLastEventId 1 130,
          .handler (.replicate 130), .handler (.generateTask 25 1000),
          .updateVersion 1, .updateLastEventId 1 131,
          .handler (.replicate 131), .handler (.generateTask 5 2000),
          .generateActivityTimerTasks 2000, .generateUserTimerTasks 2000, .clearStickyness]
        = front ++ [BuilderCall.generateActivityTimerTasks last.Timestamp,
                    BuilderCall.generateUserTimerTasks last.Timestamp,
                    BuilderCall.clearStickyness]
      ∧ [BuilderCall.updateVersion 1, .updateLastEventId 1 130,
          .handler (.replicate 130), .handler (.generateTask 25 1000),
          .updateVersion 1, .updateLastEventId 1 131,
          .handler (.replicate 131), .handler (.generateTask 5 2000),
          .generateActivityTimerTasks 2000, .generateUserTimerTasks 2000,
          .clearStickyness].filter BuilderCall.isReplication
        = (twoEventBatch.map replicationCalls).flatten
      ∧ [BuilderCall.updateVersion 1, .updateLastEventId 1 130,
          .handler (.replicate 130), .handler (.generateTask 25 1000),
          .updateVersion 1, .updateLastEventId 1 131,
          .handler (.replicate 131), .handler (.generateTask 5 2000),
          .generateActivityTimerTasks 2000, .generateUserTimerTasks 2000,
          .clearStickyness].filter BuilderCall.isActivityTimer
        = [BuilderCall.generateActivityTimerTasks last.Timestamp]
      ∧ [BuilderCall.updateVersion 1, .updateLastEventId 1 130,
          .handler (.replicate 130), .handler (.generateTask 25 1000),
          .updateVersion 1, .updateLastEventId 1 131,
          .handler (.replicate 131), .handler (.generateTask 5 2000),
          .generateActivityTimerTasks 2000, .generateUserTimerTasks 2000,
          .clearStickyness].filter BuilderCall.isUserTimer
        = [BuilderCall.generateUserTimerTasks last.Timestamp]
      ∧ [BuilderCall.updateVersion 1, .updateLastEventId 1 130,
          .handler (.replicate 130), .handler (.generateTask 25 1000),
          .updateVersion 1, .updateLastEventId 1 131,
          .handler (.replicate 131), .handler (.generateTask 5 2000),
          .generateActivityTimerTasks 2000, .generateUserTimerTasks 2000,
          .clearStickyness].filter BuilderCall.isClearStickyness
        = [BuilderCall.clearStickyness] :=
  ⟨rfl, applyEvents_replication_and_refresh replicateAndOneTask () () twoEventBatch _
    (by decide) rfl⟩

end Temporal
